import Mathlib

/-! Booking lifecycle of the service-booking backend.

A shallow embedding of `src/backend/data.js` and `src/backend/routes.js`:
the three in-memory tables (providers, bookings, events) become one `State`
value, every state-changing route handler becomes a function
`Env → … → State → Response × State`, and the properties of the
specification are stated over those functions.

Conventions of the embedding

* Values taken from a request body are JSON values (`JsVal`); a field that is
  missing from the body is `JsVal.undefined`.
* `uuid()`, `new Date()` and `String.prototype.toLowerCase` are the
  environment: a request is served with an `Env` whose `uuids k` and `now k`
  are the results of the calls made at the `k`-th call site of the handler
  and whose `toLowerCase` is the platform's function.  Time stamps are
  milliseconds (`Nat`).
* A booking's `status` is only ever assigned one of the seven literals of
  `VALID_STATUSES`, so it is the enumeration `Status`.
* An object found with `Array.prototype.find` and then mutated is the first
  element of the table that satisfies the predicate; the mutation replaces
  that element in place.
-/

namespace ZohoAssign

/-! ## JSON values of a request body -/

/-- A JSON value as read from `req.body`; `undefined` is a missing field.
A number is given by an integer value (a fractional number is truthy and is
not a string, like every non-zero integer); an object or array is given by
its JSON text. -/
inductive JsVal where
  | undefined
  | null
  | bool (b : Bool)
  | num (n : Int)
  | str (s : String)
  | obj (json : String)
  deriving DecidableEq, Repr

/-- JavaScript truthiness, as used by `!x`, `x || y` and `if (x)`. -/
def JsVal.truthy : JsVal → Bool
  | .undefined => false
  | .null => false
  | .bool b => b
  | .num n => decide (n ≠ 0)
  | .str s => decide (s ≠ "")
  | .obj _ => true

/-- The expression `x || d`. -/
def JsVal.orElse (x d : JsVal) : JsVal := if x.truthy then x else d

/-! ## Data model -/

/-- The seven literals of `VALID_STATUSES` (routes.js 13-21). -/
inductive Status where
  | PENDING
  | ASSIGNED
  | IN_PROGRESS
  | COMPLETED
  | CANCELLED
  | FAILED
  | NO_SHOW
  deriving DecidableEq, Repr

/-- The string literal of a status. -/
def Status.toString : Status → String
  | .PENDING => "PENDING"
  | .ASSIGNED => "ASSIGNED"
  | .IN_PROGRESS => "IN_PROGRESS"
  | .COMPLETED => "COMPLETED"
  | .CANCELLED => "CANCELLED"
  | .FAILED => "FAILED"
  | .NO_SHOW => "NO_SHOW"

/-- The table `VALID_STATUSES`. -/
def VALID_STATUSES : List Status :=
  [.PENDING, .ASSIGNED, .IN_PROGRESS, .COMPLETED, .CANCELLED, .FAILED, .NO_SHOW]

/-- The status named by a request value when `VALID_STATUSES.includes(v)`
holds, `none` otherwise (only a string equal to one of the literals is
included). -/
def parseStatus : JsVal → Option Status
  | .str s => VALID_STATUSES.find? (fun st => decide (st.toString = s))
  | _ => none

/-- A provider record (data.js 4-29).  `serviceTypes` is `none` when the
field is absent; `rating` is in tenths. -/
structure Provider where
  id : String
  name : String
  available : Bool
  serviceTypes : Option (List String)
  phone : String
  rating : Nat
  deriving DecidableEq, Repr

/-- A booking record (routes.js 86-103).  `scheduledTime` is the caller's
value, or a clock reading when the caller gave none. -/
structure Booking where
  id : String
  service : String
  address : JsVal
  customerName : JsVal
  customerPhone : JsVal
  scheduledTime : JsVal ⊕ Nat
  status : Status
  providerId : Option String
  providerName : Option String
  retryCount : Nat
  maxRetries : Nat
  createdAt : Nat
  updatedAt : Nat
  cancelledBy : JsVal
  cancellationReason : JsVal
  completedAt : Option Nat
  deriving DecidableEq, Repr

/-- An audit event (routes.js 25-34). -/
structure Event where
  id : String
  bookingId : String
  oldStatus : Option Status
  newStatus : Status
  actor : JsVal
  reason : JsVal
  metadata : List (String × JsVal)
  timestamp : Nat
  deriving DecidableEq, Repr

/-- The three tables of data.js. -/
structure State where
  providers : List Provider
  bookings : List Booking
  events : List Event
  deriving DecidableEq, Repr

/-- The environment of one request: results of `uuid()` and `new Date()` by
call site, and the platform's `String.prototype.toLowerCase`. -/
structure Env where
  uuids : Nat → String
  now : Nat → Nat
  toLowerCase : String → String

/-- The seeded provider table (data.js 4-29). -/
def providers : List Provider :=
  [ { id := "p1", name := "Ramesh Kumar", available := true,
      serviceTypes := some ["plumbing", "electrical"],
      phone := "+91 98765 43210", rating := 48 },
    { id := "p2", name := "Suresh Patel", available := true,
      serviceTypes := some ["cleaning", "plumbing"],
      phone := "+91 98765 43211", rating := 46 },
    { id := "p3", name := "Amit Sharma", available := true,
      serviceTypes := some ["electrical", "carpentry"],
      phone := "+91 98765 43212", rating := 49 } ]

/-- The state at start-up over a provider table: no bookings, no events. -/
def initState (ps : List Provider) : State :=
  { providers := ps, bookings := [], events := [] }

/-! ## Helpers of data.js -/

/-- `getProvider(id)`: the first provider with that id (data.js 38). -/
def getProvider (ps : List Provider) (id : String) : Option Provider :=
  ps.find? (fun p => decide (p.id = id))

/-- The mutation `provider.available = v` on the provider `getProvider(id)`
finds, if any. -/
def setAvailable (v : Bool) : List Provider → String → List Provider
  | [], _ => []
  | p :: ps, id =>
    if p.id = id then { p with available := v } :: ps
    else p :: setAvailable v ps id

/-- `freeProvider(id)` (data.js 40-45). -/
def freeProvider (ps : List Provider) (id : String) : List Provider :=
  setAvailable true ps id

/-- `makeProviderBusy(id)` (data.js 47-52). -/
def makeProviderBusy (ps : List Provider) (id : String) : List Provider :=
  setAvailable false ps id

/-- `freeProvider(booking.providerId)`: a `null` id finds no provider. -/
def freeProviderOf (ps : List Provider) : Option String → List Provider
  | none => ps
  | some id => freeProvider ps id

/-- Truthiness of `booking.providerId`: neither `null` nor the empty string. -/
def idTruthy : Option String → Bool
  | none => false
  | some id => decide (id ≠ "")

/-! ## Helpers of routes.js -/

/-- `logEvent` (routes.js 24-37): appends one event. -/
def logEvent (uid : String) (ts : Nat) (bookingId : String)
    (oldStatus : Option Status) (newStatus : Status) (actor reason : JsVal)
    (metadata : List (String × JsVal)) (events : List Event) : List Event :=
  events ++ [{ id := uid, bookingId := bookingId, oldStatus := oldStatus,
               newStatus := newStatus, actor := actor, reason := reason,
               metadata := metadata, timestamp := ts }]

/-- `bookings.find(b => b.id === id)`. -/
def findBooking (bs : List Booking) (id : String) : Option Booking :=
  bs.find? (fun b => decide (b.id = id))

/-- The in-place mutation of the booking `findBooking` returns: the first
booking with that id is replaced by `nb`. -/
def setBooking : List Booking → String → Booking → List Booking
  | [], _, _ => []
  | b :: bs, id, nb =>
    if b.id = id then nb :: bs else b :: setBooking bs id nb

/-- The predicate of the provider search (routes.js 133-136 and 377-380):
`p.available && (p.serviceTypes?.includes(service) || !p.serviceTypes ||
p.serviceTypes.length === 0)`. -/
def providerMatches (service : String) (p : Provider) : Bool :=
  p.available &&
    (match p.serviceTypes with
     | none => true
     | some l => decide (service ∈ l) || decide (l.length = 0))

/-- `providers.find(p => …)` of assign and retry. -/
def findAvailableProvider (ps : List Provider) (service : String) :
    Option Provider :=
  ps.find? (providerMatches service)

/-- Lower-casing of the letters A-Z.  `String.prototype.toLowerCase` agrees
with it on strings of ASCII characters; it serves as the lower-casing of the
sample environments, whose service names are ASCII. -/
def lowerAscii (s : String) : String := String.mk (s.data.map Char.toLower)

/-- The comparison `booking.providerId === providerId` against a request
value. -/
def sameProvider : Option String → JsVal → Bool
  | none, .null => true
  | some a, .str b => decide (a = b)
  | _, _ => false

/-! ## Responses -/

/-- What a handler sends back.  The error constructors are the response
shapes of routes.js: 404 `Booking not found`, 400 `Cannot … booking in
${status} status`, 403 `Provider not assigned to this booking`, 400 for a
bad request body or parameter, 503 `No providers available` with the
booking and the `retryable` flag, and 500 from a `catch` block. -/
inductive Response where
  | booking (code : Nat) (b : Booking)
  | noProviders (b : Booking) (retryable : Bool)
  | notFound
  | invalidTransition (current : Status)
  | forbidden
  | validation
  | serverError
  deriving DecidableEq, Repr

/-- The HTTP status code of a response. -/
def Response.code : Response → Nat
  | .booking c _ => c
  | .noProviders _ _ => 503
  | .notFound => 404
  | .invalidTransition _ => 400
  | .forbidden => 403
  | .validation => 400
  | .serverError => 500

/-! ## Route handlers -/

/-- The fields read from the body of `POST /bookings`. -/
structure CreateBody where
  service : JsVal
  address : JsVal
  customerName : JsVal
  customerPhone : JsVal
  scheduledTime : JsVal
  deriving DecidableEq, Repr

/-- `POST /bookings` (routes.js 76-115).  A truthy `service` that is not a
string has no `toLowerCase`; the `TypeError` is caught before anything is
pushed and answered with 500. -/
def create (env : Env) (body : CreateBody) (s : State) : Response × State :=
  if !body.service.truthy || !body.address.truthy then (.validation, s)
  else
    match body.service with
    | .str service =>
      let booking : Booking :=
        { id := env.uuids 0
          service := env.toLowerCase service
          address := body.address
          customerName := body.customerName.orElse (.str "Guest Customer")
          customerPhone := body.customerPhone.orElse (.str "")
          scheduledTime :=
            if body.scheduledTime.truthy then .inl body.scheduledTime
            else .inr (env.now 0)
          status := .PENDING
          providerId := none
          providerName := none
          retryCount := 0
          maxRetries := 3
          createdAt := env.now 1
          updatedAt := env.now 2
          cancelledBy := .null
          cancellationReason := .null
          completedAt := none }
      (.booking 201 booking,
       { s with
         bookings := s.bookings ++ [booking]
         events := logEvent (env.uuids 1) (env.now 3) booking.id none .PENDING
           (.str "CUSTOMER") (.str "Booking created")
           [("service", .str booking.service), ("address", booking.address)]
           s.events })
    | _ => (.serverError, s)

/-- `POST /bookings/:id/assign` (routes.js 118-183). -/
def assign (env : Env) (id : String) (s : State) : Response × State :=
  match findBooking s.bookings id with
  | none => (.notFound, s)
  | some b =>
    if b.status ≠ .PENDING then (.invalidTransition b.status, s)
    else
      match findAvailableProvider s.providers b.service with
      | none =>
        let b1 := { b with retryCount := b.retryCount + 1, updatedAt := env.now 0 }
        if b1.retryCount ≥ b1.maxRetries then
          let b2 := { b1 with status := .FAILED }
          (.noProviders b2 false,
           { s with
             bookings := setBooking s.bookings id b2
             events := logEvent (env.uuids 0) (env.now 1) b2.id (some .PENDING)
               .FAILED (.str "SYSTEM")
               (.str "No providers available after max retries")
               [("retryCount", .num b2.retryCount)] s.events })
        else
          (.noProviders b1 true,
           { s with
             bookings := setBooking s.bookings id b1
             events := logEvent (env.uuids 0) (env.now 1) b1.id (some .PENDING)
               .PENDING (.str "SYSTEM")
               (.str "No providers available, will retry")
               [("retryCount", .num b1.retryCount)] s.events })
      | some availableProvider =>
        let b1 := { b with
          providerId := some availableProvider.id
          providerName := some availableProvider.name
          status := .ASSIGNED
          updatedAt := env.now 0 }
        (.booking 200 b1,
         { providers := makeProviderBusy s.providers availableProvider.id
           bookings := setBooking s.bookings id b1
           events := logEvent (env.uuids 0) (env.now 1) b1.id (some .PENDING)
             .ASSIGNED (.str "SYSTEM") (.str "Auto-assigned provider")
             [("providerId", .str availableProvider.id),
              ("providerName", .str availableProvider.name)] s.events })

/-- `POST /bookings/:id/provider/:action` (routes.js 186-253). -/
def providerAction (env : Env) (id action : String) (providerId : JsVal)
    (s : State) : Response × State :=
  match findBooking s.bookings id with
  | none => (.notFound, s)
  | some b =>
    if !sameProvider b.providerId providerId then (.forbidden, s)
    else if action = "accept" then
      if b.status ≠ .ASSIGNED then (.invalidTransition b.status, s)
      else
        let b1 := { b with status := .IN_PROGRESS, updatedAt := env.now 0 }
        (.booking 200 b1,
         { s with
           bookings := setBooking s.bookings id b1
           events := logEvent (env.uuids 0) (env.now 1) b1.id (some .ASSIGNED)
             .IN_PROGRESS (.str "PROVIDER") (.str "Provider accepted booking")
             [] s.events })
    else if action = "reject" then
      if b.status ≠ .ASSIGNED then (.invalidTransition b.status, s)
      else
        let ps := freeProviderOf s.providers b.providerId
        let b1 := { b with
          providerId := none
          providerName := none
          status := .PENDING
          retryCount := b.retryCount + 1
          updatedAt := env.now 0 }
        let evs := logEvent (env.uuids 0) (env.now 1) b1.id (some .ASSIGNED)
          .PENDING (.str "PROVIDER") (.str "Provider rejected booking")
          [("retryCount", .num b1.retryCount)] s.events
        if b1.retryCount ≥ b1.maxRetries then
          let b2 := { b1 with status := .FAILED }
          (.booking 200 b2,
           { providers := ps
             bookings := setBooking s.bookings id b2
             events := logEvent (env.uuids 1) (env.now 2) b2.id (some .PENDING)
               .FAILED (.str "SYSTEM")
               (.str "Max retries reached after provider rejection") [] evs })
        else
          (.booking 200 b1,
           { providers := ps, bookings := setBooking s.bookings id b1,
             events := evs })
    else (.validation, s)

/-- `POST /bookings/:id/complete` (routes.js 256-286). -/
def complete (env : Env) (id : String) (s : State) : Response × State :=
  match findBooking s.bookings id with
  | none => (.notFound, s)
  | some b =>
    if b.status ≠ .IN_PROGRESS then (.invalidTransition b.status, s)
    else
      let b1 := { b with
        status := .COMPLETED
        completedAt := some (env.now 0)
        updatedAt := env.now 1 }
      (.booking 200 b1,
       { providers :=
           if idTruthy b1.providerId then freeProviderOf s.providers b1.providerId
           else s.providers
         bookings := setBooking s.bookings id b1
         events := logEvent (env.uuids 0) (env.now 2) b1.id (some .IN_PROGRESS)
           .COMPLETED (.str "PROVIDER") (.str "Service completed") [] s.events })

/-- `POST /bookings/:id/cancel` (routes.js 289-323). -/
def cancel (env : Env) (id : String) (cancelledBy reason : JsVal)
    (s : State) : Response × State :=
  match findBooking s.bookings id with
  | none => (.notFound, s)
  | some b =>
    if b.status ∈ [Status.COMPLETED, Status.CANCELLED] then
      (.invalidTransition b.status, s)
    else
      let oldStatus := b.status
      let b1 := { b with
        status := .CANCELLED
        cancelledBy := cancelledBy.orElse (.str "CUSTOMER")
        cancellationReason := reason.orElse (.str "No reason provided")
        updatedAt := env.now 0 }
      (.booking 200 b1,
       { providers :=
           if idTruthy b1.providerId then freeProviderOf s.providers b1.providerId
           else s.providers
         bookings := setBooking s.bookings id b1
         events := logEvent (env.uuids 0) (env.now 1) b1.id (some oldStatus)
           .CANCELLED (cancelledBy.orElse (.str "CUSTOMER"))
           (reason.orElse (.str "Booking cancelled")) [] s.events })

/-- `POST /bookings/:id/no-show` (routes.js 325-356). -/
def noShow (env : Env) (id : String) (s : State) : Response × State :=
  match findBooking s.bookings id with
  | none => (.notFound, s)
  | some b =>
    if b.status ∉ [Status.ASSIGNED, Status.IN_PROGRESS] then
      (.invalidTransition b.status, s)
    else
      let oldStatus := b.status
      let b1 := { b with status := .NO_SHOW, updatedAt := env.now 0 }
      let b2 :=
        if idTruthy b1.providerId then
          { b1 with providerId := none, providerName := none }
        else b1
      (.booking 200 b2,
       { providers :=
           if idTruthy b1.providerId then freeProviderOf s.providers b1.providerId
           else s.providers
         bookings := setBooking s.bookings id b2
         events := logEvent (env.uuids 0) (env.now 1) b2.id (some oldStatus)
           .NO_SHOW (.str "SYSTEM") (.str "Provider no-show") [] s.events })

/-- `POST /bookings/:id/retry` (routes.js 358-395).  The first event is
logged after `booking.status = "PENDING"` and reads `booking.status` for its
old status. -/
def retry (env : Env) (id : String) (s : State) : Response × State :=
  match findBooking s.bookings id with
  | none => (.notFound, s)
  | some b =>
    if b.status ∉ [Status.FAILED, Status.PENDING] then
      (.invalidTransition b.status, s)
    else
      let b1 := { b with status := .PENDING, updatedAt := env.now 0 }
      let evs := logEvent (env.uuids 0) (env.now 1) b1.id (some b1.status)
        .PENDING (.str "SYSTEM") (.str "Retry initiated") [] s.events
      match findAvailableProvider s.providers b1.service with
      | some availableProvider =>
        let b2 := { b1 with
          providerId := some availableProvider.id
          providerName := some availableProvider.name
          status := .ASSIGNED }
        (.booking 200 b2,
         { providers := makeProviderBusy s.providers availableProvider.id
           bookings := setBooking s.bookings id b2
           events := logEvent (env.uuids 1) (env.now 2) b2.id (some .PENDING)
             .ASSIGNED (.str "SYSTEM") (.str "Auto-assigned on retry") [] evs })
      | none =>
        (.booking 200 b1,
         { s with bookings := setBooking s.bookings id b1, events := evs })

/-- `POST /bookings/:id/admin/override` (routes.js 398-429). -/
def adminOverride (env : Env) (id : String) (status reason : JsVal)
    (s : State) : Response × State :=
  match findBooking s.bookings id with
  | none => (.notFound, s)
  | some b =>
    match parseStatus status with
    | none => (.validation, s)
    | some st =>
      let oldStatus := b.status
      let b1 := { b with status := st, updatedAt := env.now 0 }
      (.booking 200 b1,
       { providers :=
           if st ∈ [Status.COMPLETED, Status.CANCELLED, Status.FAILED,
                Status.NO_SHOW] ∧ idTruthy b1.providerId = true then
             freeProviderOf s.providers b1.providerId
           else s.providers
         bookings := setBooking s.bookings id b1
         events := logEvent (env.uuids 0) (env.now 1) b1.id (some oldStatus) st
           (.str "ADMIN") (reason.orElse (.str "Admin override")) [] s.events })

/-! ## Requests and reachable states -/

/-- A state-changing request. -/
inductive Op where
  | create (body : CreateBody)
  | assign (id : String)
  | providerAction (id action : String) (providerId : JsVal)
  | complete (id : String)
  | cancel (id : String) (cancelledBy reason : JsVal)
  | noShow (id : String)
  | retry (id : String)
  | adminOverride (id : String) (status reason : JsVal)
  deriving DecidableEq, Repr

/-- Dispatch of a request to its handler. -/
def step (env : Env) : Op → State → Response × State
  | .create body => create env body
  | .assign id => assign env id
  | .providerAction id action providerId => providerAction env id action providerId
  | .complete id => complete env id
  | .cancel id cancelledBy reason => cancel env id cancelledBy reason
  | .noShow id => noShow env id
  | .retry id => retry env id
  | .adminOverride id status reason => adminOverride env id status reason

/-- Whether a request is an admin override. -/
def Op.isOverride : Op → Bool
  | .adminOverride _ _ _ => true
  | _ => false

/-- The states the server can be in after serving finitely many requests,
started on the provider table `ps`, when only requests satisfying `allow`
are served. -/
inductive Reach (ps : List Provider) (allow : Op → Bool) : State → Prop where
  | init : Reach ps allow (initState ps)
  | step (env : Env) (op : Op) {s : State} :
      Reach ps allow s → allow op = true → Reach ps allow (step env op s).2

/-- Every request is allowed. -/
def anyOp : Op → Bool := fun _ => true

/-- Every request but admin override is allowed. -/
def noOverride : Op → Bool := fun op => !op.isOverride

/-- Reachable from the seeded start-up state by any requests. -/
def Reachable (s : State) : Prop := Reach providers anyOp s

/-- The state after serving a list of requests in order. -/
def run : List (Env × Op) → State → State
  | [], s => s
  | (env, op) :: rest, s => run rest (step env op s).2

/-- An environment whose ids are `tag` followed by the call-site number,
whose clock reads `t + k` at call site `k`, and whose `toLowerCase` is
`lowerAscii`. -/
def mkEnv (tag : String) (t : Nat) : Env :=
  { uuids := fun k => tag ++ toString k, now := fun k => t + k,
    toLowerCase := lowerAscii }

/-- The eligibility condition of the provider search in words: available,
and the capability list is absent, or empty, or names the service. -/
def Eligible (service : String) (p : Provider) : Prop :=
  p.available = true ∧
    (p.serviceTypes = none ∨ p.serviceTypes = some [] ∨
      ∃ l, p.serviceTypes = some l ∧ service ∈ l)

/-- A create request for a service at a fixed address, every optional field
left out. -/
def sampleBody (service : String) : CreateBody :=
  { service := .str service, address := .str "12 Lake Road",
    customerName := .undefined, customerPhone := .undefined,
    scheduledTime := .undefined }

/-- History: a booking `a0` for `gardening`, a service no seeded provider
offers, is created and two assignment attempts fail. -/
def gardeningTwoFailures : State :=
  run [(mkEnv "a" 100, .create (sampleBody "gardening")),
       (mkEnv "b" 200, .assign "a0"),
       (mkEnv "c" 300, .assign "a0")] (initState providers)

/-- History: two `plumbing` bookings `a0` and `c0` are created on the seeded
table, each followed by its assign. -/
def twoPlumbingAssigned : State :=
  run [(mkEnv "a" 100, .create (sampleBody "plumbing")),
       (mkEnv "b" 200, .assign "a0"),
       (mkEnv "c" 300, .create (sampleBody "plumbing")),
       (mkEnv "d" 400, .assign "c0")] (initState providers)

/-- History: a `plumbing` booking `a0` is created on the seeded table and
assigned (to p1). -/
def plumbingAssigned : State :=
  run [(mkEnv "a" 100, .create (sampleBody "plumbing")),
       (mkEnv "b" 200, .assign "a0")] (initState providers)

/-- Whether a request is a cancel. -/
def Op.isCancel : Op → Bool
  | .cancel _ _ _ => true
  | _ => false

/-- Whether a request is a retry. -/
def Op.isRetry : Op → Bool
  | .retry _ => true
  | _ => false

/-- History: the `gardening` booking `a0` after its third unmatched assign
(status FAILED, retryCount 3). -/
def gardeningFailed : State :=
  (assign (mkEnv "d" 400) "a0" gardeningTwoFailures).2

/-- What a request other than admin override may do to the status of a
booking `y`, giving `y'`: nothing to a COMPLETED or CANCELLED booking; to a
FAILED booking only cancel (→CANCELLED) and retry (→PENDING or ASSIGNED) do
something; to a NO_SHOW booking only cancel (→CANCELLED). -/
def TerminalLock (op : Op) (y y' : Booking) : Prop :=
  ((y.status = .COMPLETED ∨ y.status = .CANCELLED) → y'.status = y.status) ∧
  (y.status = .FAILED →
    y'.status = .FAILED ∨ (op.isCancel = true ∧ y'.status = .CANCELLED) ∨
      (op.isRetry = true ∧ (y'.status = .PENDING ∨ y'.status = .ASSIGNED))) ∧
  (y.status = .NO_SHOW →
    y'.status = .NO_SHOW ∨ (op.isCancel = true ∧ y'.status = .CANCELLED))

/-- A booking is active when its status is ASSIGNED or IN_PROGRESS. -/
def Booking.active (b : Booking) : Bool :=
  decide (b.status = .ASSIGNED ∨ b.status = .IN_PROGRESS)

/-- Booking `b` is active and references provider `pid`. -/
def holds (pid : String) (b : Booking) : Bool :=
  b.active && decide (b.providerId = some pid)

/-- Consistency of the provider table with the booking table, over the
fixed list `ids` of provider ids: an active booking references one of the
providers, a PENDING, FAILED or NO_SHOW booking references none, and each
provider is referenced by no active booking when it is available and by
exactly one when it is not. -/
structure Consistent (ids : List String) (ps : List Provider)
    (bs : List Booking) : Prop where
  ids_eq : ps.map Provider.id = ids
  ref : ∀ b ∈ bs,
    (b.active = true → ∃ pid ∈ ids, b.providerId = some pid) ∧
    (b.status = .PENDING ∨ b.status = .FAILED ∨ b.status = .NO_SHOW →
      b.providerId = none)
  busy : ∀ p ∈ ps, bs.countP (holds p.id) = if p.available then 0 else 1

/-- History: a `plumbing` booking `a0` is created, assigned to p1, accepted
by p1 and completed. -/
def plumbingCompleted : State :=
  run [(mkEnv "a" 100, .create (sampleBody "plumbing")),
       (mkEnv "b" 200, .assign "a0"),
       (mkEnv "c" 300, .providerAction "a0" "accept" (.str "p1")),
       (mkEnv "d" 400, .complete "a0")] (initState providers)

/-- History: a `plumbing` booking `a0` is created and only then overridden by
the admin to ASSIGNED. -/
def createdThenOverriddenAssigned : State :=
  run [(mkEnv "a" 100, .create (sampleBody "plumbing")),
       (mkEnv "b" 200, .adminOverride "a0" (.str "ASSIGNED") .undefined)]
    (initState providers)

/-- History: a `plumbing` booking `a0` is created, assigned to p1 and then
overridden by the admin back to PENDING. -/
def assignedThenOverriddenPending : State :=
  run [(mkEnv "a" 100, .create (sampleBody "plumbing")),
       (mkEnv "b" 200, .assign "a0"),
       (mkEnv "c" 300, .adminOverride "a0" (.str "PENDING") .undefined)]
    (initState providers)

/-- History: the completed `plumbing` booking `a0` is overridden by the admin
to IN_PROGRESS. -/
def completedThenOverriddenInProgress : State :=
  (adminOverride (mkEnv "e" 500) "a0" (.str "IN_PROGRESS") .undefined
    plumbingCompleted).2

/-- The events of one booking, in append order. -/
def eventsOf (events : List Event) (id : String) : List Event :=
  events.filter (fun e => decide (e.bookingId = id))

/-- Every event's old status is the new status of the event before it. -/
def chained : List Event → Bool
  | e1 :: e2 :: rest =>
    decide (e2.oldStatus = some e1.newStatus) && chained (e2 :: rest)
  | _ => true

/-- A valid status path to `current`: the first event is null→PENDING, the
events are chained, and the last event's new status is `current`. -/
def validPath (evs : List Event) (current : Status) : Bool :=
  decide (evs.head?.map (fun e => (e.oldStatus, e.newStatus))
      = some (none, Status.PENDING)) &&
    chained evs &&
    decide (evs.getLast?.map Event.newStatus = some current)

/-- History: the FAILED `gardening` booking `a0` is retried (no provider
matches). -/
def gardeningRetried : State :=
  (retry (mkEnv "e" 500) "a0" gardeningFailed).2

/-- History: the `plumbing` booking `a0` is completed by p1, then a second
`plumbing` booking `e0` is created and assigned (to p1 again). -/
def completedThenReassigned : State :=
  run [(mkEnv "e" 500, .create (sampleBody "plumbing")),
       (mkEnv "f" 600, .assign "e0")] plumbingCompleted

/-- The record of the booking `a0` in `plumbingCompleted`. -/
def completedBooking : Booking :=
  { id := "a0", service := "plumbing", address := .str "12 Lake Road",
    customerName := .str "Guest Customer", customerPhone := .str "",
    scheduledTime := .inr 100, status := .COMPLETED, providerId := some "p1",
    providerName := some "Ramesh Kumar", retryCount := 0, maxRetries := 3,
    createdAt := 101, updatedAt := 401, cancelledBy := .null,
    cancellationReason := .null, completedAt := some 400 }

/-- What one request may do to the booking it addresses, `b` before and `nb`
after, over the provider table `ps` of the state before: identity, service,
retry ceiling and the customer's data stay; retryCount stays or grows by one,
and when it grows to the ceiling or beyond the status is FAILED; the provider
reference and name stay, or are cleared together, or are set together to a
provider of the table. -/
structure Touch (ps : List Provider) (b nb : Booking) : Prop where
  id_eq : nb.id = b.id
  service_eq : nb.service = b.service
  maxRetries_eq : nb.maxRetries = b.maxRetries
  customer_eq : nb.address = b.address ∧ nb.customerName = b.customerName ∧
    nb.customerPhone = b.customerPhone ∧ nb.scheduledTime = b.scheduledTime ∧
    nb.createdAt = b.createdAt
  retry_le : b.retryCount ≤ nb.retryCount ∧ nb.retryCount ≤ b.retryCount + 1
  ceiling : b.retryCount < nb.retryCount → nb.maxRetries ≤ nb.retryCount →
    nb.status = .FAILED
  provider : (nb.providerId = b.providerId ∧ nb.providerName = b.providerName) ∨
    (nb.providerId = none ∧ nb.providerName = none) ∨
    ∃ p ∈ ps, nb.providerId = some p.id ∧ nb.providerName = some p.name

/-- The rejections of the error taxonomy: NotFound (404), InvalidTransition
(400, names the current status), AuthorizationMismatch (403) and
ValidationError (400). -/
def Response.isRejection : Response → Bool
  | .notFound => true
  | .invalidTransition _ => true
  | .forbidden => true
  | .validation => true
  | _ => false

/-- History: a `plumbing` booking `a0` is created, assigned to p1 and
accepted by p1. -/
def plumbingInProgress : State :=
  run [(mkEnv "a" 100, .create (sampleBody "plumbing")),
       (mkEnv "b" 200, .assign "a0"),
       (mkEnv "c" 300, .providerAction "a0" "accept" (.str "p1"))]
    (initState providers)

/-- The targets for which admin override releases the provider:
`["COMPLETED", "CANCELLED", "FAILED", "NO_SHOW"]` (routes.js 419). -/
def Status.releases (st : Status) : Prop :=
  st = .COMPLETED ∨ st = .CANCELLED ∨ st = .FAILED ∨ st = .NO_SHOW

/-- The booking id a request addresses (`req.params.id`); create addresses
none. -/
def Op.target : Op → Option String
  | .create _ => none
  | .assign id => some id
  | .providerAction id _ _ => some id
  | .complete id => some id
  | .cancel id _ _ => some id
  | .noShow id => some id
  | .retry id => some id
  | .adminOverride id _ _ => some id

/-- The acting parties of the event model. -/
def knownActor (a : JsVal) : Prop :=
  a = .str "CUSTOMER" ∨ a = .str "PROVIDER" ∨ a = .str "SYSTEM" ∨ a = .str "ADMIN"

/-- The events `new` a request `op` appends when it changes the booking `b`
into `nb`: at least one event, all for that booking, none with a null old
status, the last one leading to the status of `nb`; the actor is one of the
four acting parties, except that a cancel logs `cancelledBy || "CUSTOMER"`. -/
structure Logged (op : Op) (b nb : Booking) (new : List Event) : Prop where
  nonempty : new ≠ []
  booking : ∀ e ∈ new, e.bookingId = b.id
  old : ∀ e ∈ new, e.oldStatus ≠ none
  last : new.getLast?.map Event.newStatus = some nb.status
  actor : ∀ e ∈ new, (op.isCancel = false ∧ knownActor e.actor) ∨
    (∃ id c r, op = .cancel id c r ∧ e.actor = c.orElse (.str "CUSTOMER") ∧
      e.newStatus = .CANCELLED)

/-- How a request changes the provider table `ps` into `ps'` while it changes
the booking `b` into `nb`: not at all, or by setting the availability of the
provider the booking referenced before or references after. -/
def ProviderChange (ps ps' : List Provider) (b nb : Booking) : Prop :=
  ps' = ps ∨
    ∃ pid v, ps' = setAvailable v ps pid ∧
      (b.providerId = some pid ∨ nb.providerId = some pid)

/-- Time stamp order, oldest first. -/
def older (a b : Event) : Prop := a.timestamp ≤ b.timestamp

/-- Time stamp order, newest first. -/
def newer (a b : Event) : Prop := b.timestamp ≤ a.timestamp

instance : DecidableRel older := fun a b => Nat.decLe a.timestamp b.timestamp

instance : DecidableRel newer := fun a b => Nat.decLe b.timestamp a.timestamp

instance : IsTotal Event older := ⟨fun a b => Nat.le_total a.timestamp b.timestamp⟩

instance : IsTrans Event older := ⟨fun _ _ _ h1 h2 => Nat.le_trans h1 h2⟩

instance : IsTotal Event newer := ⟨fun a b => Nat.le_total b.timestamp a.timestamp⟩

instance : IsTrans Event newer := ⟨fun _ _ _ h1 h2 => Nat.le_trans h2 h1⟩

/-- `Array.prototype.sort` with the comparator
`new Date(a.timestamp) - new Date(b.timestamp)`: the stable sort by time
stamp, oldest first. -/
def sortOldestFirst (l : List Event) : List Event := l.insertionSort older

/-- `Array.prototype.sort` with the comparator
`new Date(b.timestamp) - new Date(a.timestamp)`: the stable sort by time
stamp, newest first. -/
def sortNewestFirst (l : List Event) : List Event := l.insertionSort newer

/-- `arr.slice(0, end)` for the result `end` of `parseInt`: `none` is NaN
(read as 0), a negative `end` counts from the end of the array. -/
def sliceTo {α : Type} (stop : Option Int) (l : List α) : List α :=
  match stop with
  | none => []
  | some n => if 0 ≤ n then l.take n.toNat else l.take (l.length - (-n).toNat)

/-- The query string of `GET /events`; a parameter that is not given is
`none`. -/
structure EventsQuery where
  bookingId : Option String
  actor : Option String
  status : Option String
  limit : Option String
  deriving DecidableEq, Repr

/-- `if (v) filtered = filtered.filter(e => p(e, v))`: the filter is applied
when the parameter is given and not the empty string. -/
def filterIf (v : Option String) (p : String → Event → Bool)
    (l : List Event) : List Event :=
  match v with
  | none => l
  | some x => if x ≠ "" then l.filter (p x) else l

/-- `GET /events` (routes.js 444-467); `parseInt` is the platform's parser
(`none` for NaN).  The handler works on the copy `[...events]`, the tables
are returned as they were. -/
def getEvents (parseInt : String → Option Int) (q : EventsQuery) (s : State) :
    List Event × State :=
  let filtered := s.events
  let filtered := filterIf q.bookingId (fun v e => decide (e.bookingId = v)) filtered
  let filtered := filterIf q.actor (fun v e => decide (e.actor = .str v)) filtered
  let filtered := filterIf q.status
    (fun v e => decide (e.newStatus.toString = v)) filtered
  (sliceTo (match q.limit with
            | none => some 100
            | some l => parseInt l) (sortNewestFirst filtered), s)

/-- `GET /bookings/:id/events` and `GET /events/:id` (routes.js 432-441 and
468-477): `filter` builds a new array, which is then sorted. -/
def getBookingEvents (id : String) (s : State) : List Event × State :=
  (sortOldestFirst (s.events.filter (fun e => decide (e.bookingId = id))), s)

/-- History: the ASSIGNED `plumbing` booking `a0` is cancelled with
`cancelledBy: "SUPPORT_BOT"`. -/
def cancelledByStranger : State :=
  (cancel (mkEnv "c" 300) "a0" (.str "SUPPORT_BOT") .undefined plumbingAssigned).2

/-- The fields of a provider other than its availability. -/
def Provider.static (p : Provider) :
    String × String × Option (List String) × String × Nat :=
  (p.id, p.name, p.serviceTypes, p.phone, p.rating)

/-- The position in the booking table of the booking a request for `id`
addresses: the first booking with that id. -/
def addressedIndex (bs : List Booking) (id : String) : Nat :=
  bs.findIdx (fun b => decide (b.id = id))

/-- A filter parameter is supplied when it is given and not empty; an event
passes a parameter that is not supplied. -/
def passes (v : Option String) (p : String → Bool) : Bool :=
  match v with
  | none => true
  | some x => decide (x = "") || p x

/-- An event matches every supplied filter of the query: booking id, actor,
new status. -/
def EventsQuery.matches (q : EventsQuery) (e : Event) : Bool :=
  passes q.bookingId (fun v => decide (e.bookingId = v)) &&
  passes q.actor (fun v => decide (e.actor = .str v)) &&
  passes q.status (fun v => decide (e.newStatus.toString = v))

/-- A log of four events of two bookings with time stamps 10, 20, 20, 30. -/
def sampleLog : State :=
  { providers := providers, bookings := []
    events :=
      [{ id := "e1", bookingId := "a0", oldStatus := none, newStatus := .PENDING,
         actor := .str "CUSTOMER", reason := .str "Booking created",
         metadata := [], timestamp := 10 },
       { id := "e2", bookingId := "c0", oldStatus := none, newStatus := .PENDING,
         actor := .str "CUSTOMER", reason := .str "Booking created",
         metadata := [], timestamp := 20 },
       { id := "e3", bookingId := "a0", oldStatus := some .PENDING,
         newStatus := .ASSIGNED, actor := .str "SYSTEM",
         reason := .str "Auto-assigned provider", metadata := [], timestamp := 20 },
       { id := "e4", bookingId := "a0", oldStatus := some .ASSIGNED,
         newStatus := .IN_PROGRESS, actor := .str "PROVIDER",
         reason := .str "Provider accepted booking", metadata := [],
         timestamp := 30 }] }

/-- The states the server can be in after finitely many requests, admin
override included, when the identifier generator is collision free: the id
`uuid()` gives a new booking is the id of no existing booking. -/
inductive ReachFresh (ps : List Provider) : State → Prop where
  | init : ReachFresh ps (initState ps)
  | step (env : Env) (op : Op) {s : State} :
      ReachFresh ps s →
      (∀ body, op = .create body → env.uuids 0 ∉ s.bookings.map Booking.id) →
      ReachFresh ps (step env op s).2

/-- The events of every booking start with its creation event and end with
an event leading to its current status; booking ids are distinct and every
event belongs to a booking. -/
structure Audited (s : State) : Prop where
  ids_nodup : (s.bookings.map Booking.id).Nodup
  owned : ∀ e ∈ s.events, e.bookingId ∈ s.bookings.map Booking.id
  path : ∀ b ∈ s.bookings,
    (eventsOf s.events b.id).head?.map (fun e => (e.oldStatus, e.newStatus))
      = some (none, Status.PENDING) ∧
    (eventsOf s.events b.id).getLast?.map Event.newStatus = some b.status

/-- History: a `plumbing` booking `a0` is created on the seeded table and
not yet assigned. -/
def plumbingCreated : State :=
  run [(mkEnv "a" 100, .create (sampleBody "plumbing"))] (initState providers)

/-! ## Lemmas on the table helpers -/

theorem findBooking_mem {bs : List Booking} {id : String} {b : Booking}
    (h : findBooking bs id = some b) : b ∈ bs ∧ b.id = id := by
  unfold findBooking at h
  exact ⟨List.mem_of_find?_eq_some h, by simpa using List.find?_some h⟩

theorem findBooking_setBooking {bs : List Booking} {id : String} {b nb : Booking}
    (h : findBooking bs id = some b) (hid : nb.id = id) :
    findBooking (setBooking bs id nb) id = some nb := by
  induction bs with
  | nil => simp [findBooking] at h
  | cons x xs ih =>
    by_cases hx : x.id = id
    · simp [setBooking, hx, findBooking, hid]
    · have h' : findBooking xs id = some b := by
        simpa [findBooking, List.find?_cons, hx] using h
      simpa [setBooking, hx, findBooking, List.find?_cons] using ih h'

theorem mem_setBooking {bs : List Booking} {id : String} {nb x : Booking}
    (h : x ∈ setBooking bs id nb) : x ∈ bs ∨ x = nb := by
  induction bs with
  | nil => simp [setBooking] at h
  | cons y ys ih =>
    by_cases hy : y.id = id
    · simp only [setBooking, hy, if_true, List.mem_cons] at h
      rcases h with h | h
      · exact Or.inr h
      · exact Or.inl (List.mem_cons_of_mem _ h)
    · simp only [setBooking, hy, if_false, List.mem_cons] at h
      rcases h with h | h
      · exact Or.inl (h ▸ List.mem_cons_self _ _)
      · rcases ih h with h | h
        · exact Or.inl (List.mem_cons_of_mem _ h)
        · exact Or.inr h

theorem setBooking_length (bs : List Booking) (id : String) (nb : Booking) :
    (setBooking bs id nb).length = bs.length := by
  induction bs with
  | nil => rfl
  | cons y ys ih =>
    by_cases hy : y.id = id <;> simp [setBooking, hy, ih]

theorem countP_setBooking (q : Booking → Bool) {bs : List Booking} {id : String}
    {b : Booking} (nb : Booking) (h : findBooking bs id = some b) :
    (setBooking bs id nb).countP q + (if q b then 1 else 0)
      = bs.countP q + (if q nb then 1 else 0) := by
  induction bs with
  | nil => simp [findBooking] at h
  | cons x xs ih =>
    by_cases hx : x.id = id
    · have hb : x = b := by simpa [findBooking, List.find?_cons, hx] using h
      subst hb
      simp only [setBooking, hx, if_true, List.countP_cons]
      omega
    · have h' : findBooking xs id = some b := by
        simpa [findBooking, List.find?_cons, hx] using h
      have := ih h'
      simp only [setBooking, hx, if_false, List.countP_cons]
      omega

theorem setAvailable_map_id (v : Bool) (ps : List Provider) (id : String) :
    (setAvailable v ps id).map Provider.id = ps.map Provider.id := by
  induction ps with
  | nil => rfl
  | cons p ps ih =>
    by_cases hp : p.id = id <;> simp [setAvailable, hp, ih]

theorem mem_setAvailable {v : Bool} {ps : List Provider} {id : String}
    {q : Provider} (hnd : (ps.map Provider.id).Nodup)
    (h : q ∈ setAvailable v ps id) :
    (q.id = id ∧ q.available = v) ∨ (q.id ≠ id ∧ q ∈ ps) := by
  induction ps with
  | nil => simp [setAvailable] at h
  | cons p ps ih =>
    simp only [List.map_cons, List.nodup_cons, List.mem_map, not_exists, not_and] at hnd
    by_cases hp : p.id = id
    · simp only [setAvailable, hp, if_true, List.mem_cons] at h
      rcases h with h | h
      · left; subst h; exact ⟨rfl, rfl⟩
      · right
        refine ⟨fun hq => hnd.1 q h (hq.trans hp.symm), List.mem_cons_of_mem _ h⟩
    · simp only [setAvailable, hp, if_false, List.mem_cons] at h
      rcases h with h | h
      · right; subst h; exact ⟨hp, List.mem_cons_self _ _⟩
      · rcases ih hnd.2 h with h | h
        · exact Or.inl h
        · exact Or.inr ⟨h.1, List.mem_cons_of_mem _ h.2⟩

theorem findAvailableProvider_some {ps : List Provider} {service : String}
    {p : Provider} (h : findAvailableProvider ps service = some p) :
    p ∈ ps ∧ providerMatches service p = true :=
  ⟨List.mem_of_find?_eq_some h, List.find?_some h⟩

theorem providerMatches_iff (service : String) (p : Provider) :
    providerMatches service p = true ↔ Eligible service p := by
  unfold providerMatches Eligible
  cases hst : p.serviceTypes with
  | none => simp
  | some l =>
    cases l with
    | nil => simp
    | cons a l => simp

/-- C8, counterexample: a provider that declares the empty capability list is
returned for `plumbing`, a service type its list does not contain. -/
theorem findAvailableProvider_returns_empty_list_provider :
    findAvailableProvider
        [{ id := "p9", name := "Any", available := true, serviceTypes := some [],
           phone := "", rating := 40 }] "plumbing"
      = some { id := "p9", name := "Any", available := true,
               serviceTypes := some [], phone := "", rating := 40 } ∧
    "plumbing" ∉ ([] : List String) := by
  decide

/-- C8, as amended: the provider search of assign and retry returns the
first provider in table order that is available and whose capability list is
absent, empty, or contains the requested service type; it returns no match
exactly when no provider satisfies that; a provider with a non-empty list
that lacks the service type is never returned. -/
theorem findAvailableProvider_first_eligible (ps : List Provider)
    (service : String) :
    (∀ p, findAvailableProvider ps service = some p →
      Eligible service p ∧
      ∃ pre post, ps = pre ++ p :: post ∧ ∀ q ∈ pre, ¬ Eligible service q) ∧
    (findAvailableProvider ps service = none ↔
      ∀ q ∈ ps, ¬ Eligible service q) ∧
    (∀ p l, findAvailableProvider ps service = some p →
      p.serviceTypes = some l → l ≠ [] → service ∈ l) := by
  refine ⟨?_, ?_, ?_⟩
  · intro p h
    unfold findAvailableProvider at h
    rw [List.find?_eq_some] at h
    obtain ⟨hp, pre, post, hps, hpre⟩ := h
    refine ⟨(providerMatches_iff service p).1 hp, pre, post, hps, ?_⟩
    intro q hq hel
    have := hpre q hq
    rw [(providerMatches_iff service q).2 hel] at this
    simp at this
  · unfold findAvailableProvider
    rw [List.find?_eq_none]
    constructor
    · intro h q hq hel
      exact h q hq ((providerMatches_iff service q).2 hel)
    · intro h q hq hm
      exact h q hq ((providerMatches_iff service q).1 hm)
  · intro p l h hl hne
    have hm := (providerMatches_iff service p).1 (findAvailableProvider_some h).2
    rcases hm.2 with h1 | h1 | ⟨l', h1, h2⟩
    · rw [hl] at h1; cases h1
    · rw [hl] at h1; cases h1; exact absurd rfl hne
    · rw [hl] at h1; cases h1; exact h2

/-! ## Frame of a request -/

theorem freeProviderOf_map_id (ps : List Provider) (o : Option String) :
    (freeProviderOf ps o).map Provider.id = ps.map Provider.id := by
  cases o with
  | none => rfl
  | some id => exact setAvailable_map_id true ps id

theorem makeProviderBusy_map_id (ps : List Provider) (id : String) :
    (makeProviderBusy ps id).map Provider.id = ps.map Provider.id :=
  setAvailable_map_id false ps id

/-- No request adds, removes, reorders or renames a provider. -/
theorem step_providers_ids (env : Env) (op : Op) (s : State) :
    (step env op s).2.providers.map Provider.id = s.providers.map Provider.id := by
  cases op <;> simp only [step]
  case create body =>
    unfold create; split
    · rfl
    · split <;> rfl
  case assign id =>
    unfold assign; split
    · rfl
    · split
      · rfl
      · split
        · dsimp only; split <;> rfl
        · exact makeProviderBusy_map_id _ _
  case providerAction id action pid =>
    unfold providerAction; split
    · rfl
    · split
      · rfl
      · split
        · split
          · rfl
          · rfl
        · split
          · split
            · rfl
            · dsimp only; split <;> exact freeProviderOf_map_id _ _
          · rfl
  case complete id =>
    unfold complete; split
    · rfl
    · split
      · rfl
      · dsimp only; split
        · exact freeProviderOf_map_id _ _
        · rfl
  case cancel id c r =>
    unfold cancel; split
    · rfl
    · split
      · rfl
      · dsimp only; split
        · exact freeProviderOf_map_id _ _
        · rfl
  case noShow id =>
    unfold noShow; split
    · rfl
    · split
      · rfl
      · dsimp only; split
        · exact freeProviderOf_map_id _ _
        · rfl
  case retry id =>
    unfold retry; split
    · rfl
    · split
      · rfl
      · dsimp only; split
        · exact makeProviderBusy_map_id _ _
        · rfl
  case adminOverride id st r =>
    unfold adminOverride; split
    · rfl
    · split
      · rfl
      · dsimp only; split
        · exact freeProviderOf_map_id _ _
        · rfl

theorem forall_setBooking {P : Booking → Prop} {bs : List Booking} {id : String}
    {nb : Booking} (h : ∀ b ∈ bs, P b) (hnb : P nb) :
    ∀ b ∈ setBooking bs id nb, P b := by
  intro b hb
  rcases mem_setBooking hb with hb | hb
  · exact h b hb
  · exact hb ▸ hnb

/-- The retry ceiling of every booking stays the constant 3 of `create`. -/
theorem step_maxRetries (env : Env) (op : Op) (s : State)
    (h : ∀ b ∈ s.bookings, b.maxRetries = 3) :
    ∀ b ∈ (step env op s).2.bookings, b.maxRetries = 3 := by
  cases op <;> simp only [step]
  case create body =>
    unfold create; split
    · exact h
    · split
      · intro b hb
        simp only [List.mem_append, List.mem_singleton] at hb
        rcases hb with hb | hb
        · exact h b hb
        · subst hb; rfl
      · exact h
  case assign id =>
    unfold assign; split
    · exact h
    · next b hb =>
      have hm := h b (findBooking_mem hb).1
      split
      · exact h
      · split
        · dsimp only; split <;> exact forall_setBooking h hm
        · exact forall_setBooking h hm
  case providerAction id action pid =>
    unfold providerAction; split
    · exact h
    · next b hb =>
      have hm := h b (findBooking_mem hb).1
      split
      · exact h
      · split
        · split
          · exact h
          · exact forall_setBooking h hm
        · split
          · split
            · exact h
            · dsimp only; split <;> exact forall_setBooking h hm
          · exact h
  case complete id =>
    unfold complete; split
    · exact h
    · next b hb =>
      have hm := h b (findBooking_mem hb).1
      split
      · exact h
      · exact forall_setBooking h hm
  case cancel id c r =>
    unfold cancel; split
    · exact h
    · next b hb =>
      have hm := h b (findBooking_mem hb).1
      split
      · exact h
      · exact forall_setBooking h hm
  case noShow id =>
    unfold noShow; split
    · exact h
    · next b hb =>
      have hm := h b (findBooking_mem hb).1
      split
      · exact h
      · dsimp only
        refine forall_setBooking h ?_
        split <;> exact hm
  case retry id =>
    unfold retry; split
    · exact h
    · next b hb =>
      have hm := h b (findBooking_mem hb).1
      split
      · exact h
      · dsimp only; split <;> exact forall_setBooking h hm
  case adminOverride id st r =>
    unfold adminOverride; split
    · exact h
    · next b hb =>
      have hm := h b (findBooking_mem hb).1
      split
      · exact h
      · exact forall_setBooking h hm

/-- In every reachable state the provider ids are those of the start-up
table and every booking has retry ceiling 3. -/
theorem reach_wf {ps : List Provider} {allow : Op → Bool} {s : State}
    (h : Reach ps allow s) :
    s.providers.map Provider.id = ps.map Provider.id ∧
      ∀ b ∈ s.bookings, b.maxRetries = 3 := by
  induction h with
  | init => exact ⟨rfl, by simp [initState]⟩
  | step env op _ _ ih =>
    exact ⟨(step_providers_ids env op _).trans ih.1, step_maxRetries env op _ ih.2⟩

theorem reach_run {ps : List Provider} {allow : Op → Bool} :
    ∀ (l : List (Env × Op)) {s : State}, Reach ps allow s →
      (∀ x ∈ l, allow x.2 = true) → Reach ps allow (run l s)
  | [], _, h, _ => h
  | (env, op) :: rest, _, h, hl =>
    reach_run rest (Reach.step env op h (hl (env, op) (List.mem_cons_self _ _)))
      (fun x hx => hl x (List.mem_cons_of_mem _ hx))

theorem reach_mono {ps : List Provider} {allow allow2 : Op → Bool} {s : State}
    (hsub : ∀ op, allow op = true → allow2 op = true) (h : Reach ps allow s) :
    Reach ps allow2 s := by
  induction h with
  | init => exact Reach.init
  | step env op _ hop ih => exact Reach.step env op ih (hsub op hop)

/-! ## Assign without a matching provider -/

/-- C5, counterexample: the third unmatched assign of a booking (retryCount
2, ceiling 3) appends one event, PENDING→FAILED, and no PENDING→PENDING
event. -/
theorem assign_exhausted_logs_single_event :
    (findBooking gardeningTwoFailures.bookings "a0").map
        (fun b => (b.status, b.retryCount, b.maxRetries)) = some (.PENDING, 2, 3) ∧
    findAvailableProvider gardeningTwoFailures.providers "gardening" = none ∧
    ((assign (mkEnv "d" 400) "a0" gardeningTwoFailures).2.events.drop
        gardeningTwoFailures.events.length).map
        (fun e => (e.bookingId, e.oldStatus, e.newStatus))
      = [("a0", some .PENDING, .FAILED)] := by
  decide

/-- C5, as amended: for a PENDING booking with no matching provider whose
incremented retryCount reaches maxRetries, assign appends exactly one event,
PENDING→FAILED with actor SYSTEM, for that booking. -/
theorem assign_exhausted_appends_failed_event (env : Env) (id : String)
    (s : State) (b : Booking) (hb : findBooking s.bookings id = some b)
    (hs : b.status = .PENDING)
    (hn : findAvailableProvider s.providers b.service = none)
    (hr : b.maxRetries ≤ b.retryCount + 1) :
    ∃ e, (assign env id s).2.events = s.events ++ [e] ∧ e.bookingId = id ∧
      e.oldStatus = some .PENDING ∧ e.newStatus = .FAILED ∧
      e.actor = .str "SYSTEM" := by
  have hid := (findBooking_mem hb).2
  simp [assign, hb, hs, hn, hr, logEvent, hid]

/-- Witness of `assign_exhausted_appends_failed_event` at the third unmatched
assign of the `gardening` booking. -/
theorem assign_exhausted_appends_failed_event_witness :
    ∃ e, (assign (mkEnv "d" 400) "a0" gardeningTwoFailures).2.events
        = gardeningTwoFailures.events ++ [e] ∧ e.bookingId = "a0" ∧
      e.oldStatus = some .PENDING ∧ e.newStatus = .FAILED ∧
      e.actor = .str "SYSTEM" :=
  assign_exhausted_appends_failed_event (mkEnv "d" 400) "a0" gardeningTwoFailures
    { id := "a0", service := "gardening", address := .str "12 Lake Road",
      customerName := .str "Guest Customer", customerPhone := .str "",
      scheduledTime := .inr 100, status := .PENDING, providerId := none,
      providerName := none, retryCount := 2, maxRetries := 3, createdAt := 101,
      updatedAt := 300, cancelledBy := .null, cancellationReason := .null,
      completedAt := none }
    (by decide) (by decide) (by decide) (by decide)

/-- The result of assign on a PENDING booking with retry ceiling 3 when no
provider matches. -/
theorem assign_unmatched_eq (env : Env) {id : String} {s : State} {b : Booking}
    (hb : findBooking s.bookings id = some b) (hs : b.status = .PENDING)
    (hn : findAvailableProvider s.providers b.service = none)
    (hm : b.maxRetries = 3) :
    ∃ e, assign env id s =
      (.noProviders
          { b with retryCount := b.retryCount + 1, updatedAt := env.now 0,
                   status := if 3 ≤ b.retryCount + 1 then .FAILED else .PENDING }
          (decide (b.retryCount + 1 < 3)),
       { providers := s.providers
         bookings := setBooking s.bookings id
          { b with retryCount := b.retryCount + 1, updatedAt := env.now 0,
                   status := if 3 ≤ b.retryCount + 1 then .FAILED else .PENDING }
         events := s.events ++ [e] }) := by
  by_cases hr : 3 ≤ b.retryCount + 1
  · have hlt : ¬ b.retryCount + 1 < 3 := by omega
    simp [assign, hb, hs, hn, hm, hr, hlt, logEvent]
  · have hlt : b.retryCount + 1 < 3 := by omega
    simp [assign, hb, hs, hn, hm, hr, hlt, logEvent]

/-- One unmatched assign, in the form used to chain attempts. -/
theorem assign_unmatched_step (env : Env) {id : String} {s : State} {b : Booking}
    (hb : findBooking s.bookings id = some b) (hs : b.status = .PENDING)
    (hn : findAvailableProvider s.providers b.service = none)
    (hm : b.maxRetries = 3) :
    ∃ b' s', assign env id s = (.noProviders b' (decide (b.retryCount + 1 < 3)), s') ∧
      findBooking s'.bookings id = some b' ∧
      b'.retryCount = b.retryCount + 1 ∧ b'.providerId = b.providerId ∧
      b'.service = b.service ∧ b'.maxRetries = 3 ∧ s'.providers = s.providers ∧
      b'.status = (if 3 ≤ b.retryCount + 1 then .FAILED else .PENDING) := by
  obtain ⟨e, he⟩ := assign_unmatched_eq env hb hs hn hm
  exact ⟨_, _, he, findBooking_setBooking hb (findBooking_mem hb).2, rfl, rfl, rfl,
    hm, rfl, rfl⟩

/-- C7: for a PENDING booking of any reachable state over any provider table
in which no provider matches, assign raises retryCount by exactly 1, does not
touch providerId (null stays null) or any provider, and answers
NoProviderAvailable with retryable = false and status FAILED when the new
retryCount is at least 3, with retryable = true and status PENDING
otherwise; three consecutive unmatched assigns on a booking with retryCount
0 give 1/PENDING, 2/PENDING, 3/FAILED. -/
theorem assign_unmatched_counts_retries (ps : List Provider) (s : State)
    (env1 env2 env3 : Env) (id : String) (b : Booking)
    (hreach : Reach ps anyOp s) (hb : findBooking s.bookings id = some b)
    (hs : b.status = .PENDING)
    (hn : findAvailableProvider s.providers b.service = none) :
    (∃ b', findBooking (assign env1 id s).2.bookings id = some b' ∧
      b'.retryCount = b.retryCount + 1 ∧
      b'.providerId = b.providerId ∧ (b.providerId = none → b'.providerId = none) ∧
      (assign env1 id s).2.providers = s.providers ∧
      (3 ≤ b'.retryCount →
        (assign env1 id s).1 = .noProviders b' false ∧ b'.status = .FAILED) ∧
      (b'.retryCount < 3 →
        (assign env1 id s).1 = .noProviders b' true ∧ b'.status = .PENDING)) ∧
    (b.retryCount = 0 →
      ∃ b1 s1 b2 s2 b3 s3,
        assign env1 id s = (.noProviders b1 true, s1) ∧
        findBooking s1.bookings id = some b1 ∧
        b1.retryCount = 1 ∧ b1.status = .PENDING ∧
        assign env2 id s1 = (.noProviders b2 true, s2) ∧
        findBooking s2.bookings id = some b2 ∧
        b2.retryCount = 2 ∧ b2.status = .PENDING ∧
        assign env3 id s2 = (.noProviders b3 false, s3) ∧
        findBooking s3.bookings id = some b3 ∧
        b3.retryCount = 3 ∧ b3.status = .FAILED) := by
  have hm : b.maxRetries = 3 := (reach_wf hreach).2 b (findBooking_mem hb).1
  obtain ⟨b1, s1, he1, hb1, hr1, hp1, hsv1, hm1, hps1, hst1⟩ :=
    assign_unmatched_step env1 hb hs hn hm
  constructor
  · rw [he1]
    refine ⟨b1, hb1, hr1, hp1, fun h => hp1.trans h, hps1, ?_, ?_⟩
    · intro h3
      have h3' : 3 ≤ b.retryCount + 1 := hr1 ▸ h3
      have hlt : ¬ b.retryCount + 1 < 3 := Nat.not_lt.mpr h3'
      simp [hlt, hst1, h3']
    · intro h3
      have hlt : b.retryCount + 1 < 3 := hr1 ▸ h3
      have h3' : ¬ 3 ≤ b.retryCount + 1 := Nat.not_le.mpr hlt
      simp [hlt, hst1, h3']
  · intro h0
    have hs1 : b1.status = .PENDING := by simp [hst1, h0]
    have hn1 : findAvailableProvider s1.providers b1.service = none := by
      rw [hps1, hsv1]; exact hn
    obtain ⟨b2, s2, he2, hb2, hr2, _, hsv2, hm2, hps2, hst2⟩ :=
      assign_unmatched_step env2 hb1 hs1 hn1 hm1
    have hs2 : b2.status = .PENDING := by simp [hst2, hr1, h0]
    have hn2 : findAvailableProvider s2.providers b2.service = none := by
      rw [hps2, hsv2]; exact hn1
    obtain ⟨b3, s3, he3, hb3, hr3, _, _, _, _, hst3⟩ :=
      assign_unmatched_step env3 hb2 hs2 hn2 hm2
    refine ⟨b1, s1, b2, s2, b3, s3, ?_, hb1, ?_, hs1, ?_, hb2, ?_, hs2, ?_, hb3, ?_, ?_⟩
    · rw [he1]; simp [h0]
    · omega
    · rw [he2]; simp [hr1, h0]
    · omega
    · rw [he3]; simp [hr2, hr1, h0]
    · omega
    · simp [hst3, hr2, hr1, h0]

/-- Witness of `assign_unmatched_counts_retries`: the booking `a0` for
`gardening` right after its creation on the seeded table. -/
theorem assign_unmatched_counts_retries_witness :
    ∃ b1 s1 b2 s2 b3 s3,
      assign (mkEnv "b" 200) "a0"
          (run [(mkEnv "a" 100, .create (sampleBody "gardening"))] (initState providers))
        = (.noProviders b1 true, s1) ∧
      findBooking s1.bookings "a0" = some b1 ∧
      b1.retryCount = 1 ∧ b1.status = .PENDING ∧
      assign (mkEnv "c" 300) "a0" s1 = (.noProviders b2 true, s2) ∧
      findBooking s2.bookings "a0" = some b2 ∧
      b2.retryCount = 2 ∧ b2.status = .PENDING ∧
      assign (mkEnv "d" 400) "a0" s2 = (.noProviders b3 false, s3) ∧
      findBooking s3.bookings "a0" = some b3 ∧
      b3.retryCount = 3 ∧ b3.status = .FAILED :=
  (assign_unmatched_counts_retries providers
    (run [(mkEnv "a" 100, .create (sampleBody "gardening"))] (initState providers))
    (mkEnv "b" 200) (mkEnv "c" 300) (mkEnv "d" 400) "a0"
    { id := "a0", service := "gardening", address := .str "12 Lake Road",
      customerName := .str "Guest Customer", customerPhone := .str "",
      scheduledTime := .inr 100, status := .PENDING, providerId := none,
      providerName := none, retryCount := 0, maxRetries := 3, createdAt := 101,
      updatedAt := 102, cancelledBy := .null, cancellationReason := .null,
      completedAt := none }
    (reach_run _ Reach.init (by decide)) (by decide) (by decide) (by decide)).2 rfl

/-! ## Assign with a matching provider -/

theorem mem_setAvailable_of_mem {v : Bool} {ps : List Provider} {p : Provider}
    (id : String) (h : p ∈ ps) : ∃ q ∈ setAvailable v ps id, q.id = p.id := by
  have : p.id ∈ (setAvailable v ps id).map Provider.id := by
    rw [setAvailable_map_id]; exact List.mem_map_of_mem _ h
  obtain ⟨q, hq, hqi⟩ := List.mem_map.1 this
  exact ⟨q, hq, hqi⟩

/-- With distinct provider ids, `setAvailable v ps id` leaves every provider
named `id` with availability `v`. -/
theorem setAvailable_sets {v : Bool} {ps : List Provider} {id : String}
    (hnd : (ps.map Provider.id).Nodup) :
    ∀ q ∈ setAvailable v ps id, q.id = id → q.available = v := by
  intro q hq hqi
  rcases mem_setAvailable hnd hq with h | h
  · exact h.2
  · exact absurd hqi h.1

/-- The result of assign on a PENDING booking when a provider matches. -/
theorem assign_matched_eq (env : Env) {id : String} {s : State} {b : Booking}
    {p : Provider} (hb : findBooking s.bookings id = some b)
    (hs : b.status = .PENDING)
    (hp : findAvailableProvider s.providers b.service = some p) :
    assign env id s =
      (.booking 200
          { b with providerId := some p.id, providerName := some p.name,
                   status := .ASSIGNED, updatedAt := env.now 0 },
       { providers := makeProviderBusy s.providers p.id
         bookings := setBooking s.bookings id
          { b with providerId := some p.id, providerName := some p.name,
                   status := .ASSIGNED, updatedAt := env.now 0 }
         events := s.events ++
          [{ id := env.uuids 0, bookingId := id, oldStatus := some .PENDING,
             newStatus := .ASSIGNED, actor := .str "SYSTEM",
             reason := .str "Auto-assigned provider",
             metadata := [("providerId", .str p.id), ("providerName", .str p.name)],
             timestamp := env.now 1 }] }) := by
  have hid := (findBooking_mem hb).2
  simp [assign, hb, hs, hp, logEvent, hid]

/-- C9: for a PENDING booking for which some provider matches (any reachable
state over a provider table with distinct ids), assign sets the booking's
providerId and providerName to the matched provider, its status to ASSIGNED,
that provider's available to false, leaves retryCount unchanged and appends
exactly one event PENDING→ASSIGNED with actor SYSTEM; on the seeded table a
first `plumbing` booking is assigned p1 and a second one p2. -/
theorem assign_matched_assigns_provider :
    (∀ (ps : List Provider) (s : State) (env : Env) (id : String) (b : Booking)
        (p : Provider),
      (ps.map Provider.id).Nodup → Reach ps anyOp s →
      findBooking s.bookings id = some b → b.status = .PENDING →
      findAvailableProvider s.providers b.service = some p →
      ∃ b' e,
        (assign env id s).1 = .booking 200 b' ∧
        findBooking (assign env id s).2.bookings id = some b' ∧
        b'.providerId = some p.id ∧ b'.providerName = some p.name ∧
        b'.status = .ASSIGNED ∧ b'.retryCount = b.retryCount ∧
        (∃ q ∈ (assign env id s).2.providers, q.id = p.id) ∧
        (∀ q ∈ (assign env id s).2.providers, q.id = p.id → q.available = false) ∧
        (assign env id s).2.events = s.events ++ [e] ∧
        e.bookingId = id ∧ e.oldStatus = some .PENDING ∧
        e.newStatus = .ASSIGNED ∧ e.actor = .str "SYSTEM") ∧
    ((findBooking twoPlumbingAssigned.bookings "a0").map
        (fun b => (b.status, b.providerId)) = some (.ASSIGNED, some "p1") ∧
     (findBooking twoPlumbingAssigned.bookings "c0").map
        (fun b => (b.status, b.providerId)) = some (.ASSIGNED, some "p2") ∧
     twoPlumbingAssigned.providers.map (fun p => (p.id, p.available))
        = [("p1", false), ("p2", false), ("p3", true)]) := by
  constructor
  · intro ps s env id b p hnd hreach hb hs hp
    have hids : (s.providers.map Provider.id).Nodup := by
      rw [(reach_wf hreach).1]; exact hnd
    rw [assign_matched_eq env hb hs hp]
    refine ⟨_, _, rfl, findBooking_setBooking hb (findBooking_mem hb).2, rfl, rfl,
      rfl, rfl, ?_, ?_, rfl, rfl, rfl, rfl, rfl⟩
    · exact mem_setAvailable_of_mem p.id (findAvailableProvider_some hp).1
    · exact setAvailable_sets hids
  · decide

/-- Witness of `assign_matched_assigns_provider`: the first `plumbing`
booking on the seeded table. -/
theorem assign_matched_assigns_provider_witness :
    ∃ b' e,
      (assign (mkEnv "b" 200) "a0"
        (run [(mkEnv "a" 100, .create (sampleBody "plumbing"))] (initState providers))).1
        = .booking 200 b' ∧
      b'.providerId = some "p1" ∧ b'.status = .ASSIGNED ∧
      (assign (mkEnv "b" 200) "a0"
        (run [(mkEnv "a" 100, .create (sampleBody "plumbing"))] (initState providers))).2.events
        = (run [(mkEnv "a" 100, .create (sampleBody "plumbing"))]
            (initState providers)).events ++ [e] ∧
      e.newStatus = .ASSIGNED := by
  obtain ⟨b', e, h1, _, h3, _, h5, _, _, _, h9, _, _, h12, _⟩ :=
    assign_matched_assigns_provider.1 providers
      (run [(mkEnv "a" 100, .create (sampleBody "plumbing"))] (initState providers))
      (mkEnv "b" 200) "a0"
      { id := "a0", service := "plumbing", address := .str "12 Lake Road",
        customerName := .str "Guest Customer", customerPhone := .str "",
        scheduledTime := .inr 100, status := .PENDING, providerId := none,
        providerName := none, retryCount := 0, maxRetries := 3, createdAt := 101,
        updatedAt := 102, cancelledBy := .null, cancellationReason := .null,
        completedAt := none }
      { id := "p1", name := "Ramesh Kumar", available := true,
        serviceTypes := some ["plumbing", "electrical"],
        phone := "+91 98765 43210", rating := 48 }
      (by decide) (reach_run _ Reach.init (by decide)) (by decide) (by decide)
      (by decide)
  exact ⟨b', e, h1, h3, h5, h9, h12⟩

/-! ## Provider reject -/

theorem freeProviderOf_sets {ps : List Provider} {o : Option String}
    (hnd : (ps.map Provider.id).Nodup) :
    ∀ q ∈ freeProviderOf ps o, o = some q.id → q.available = true := by
  intro q hq ho
  cases o with
  | none => cases ho
  | some x =>
    have hx : q.id = x := by injection ho with h; exact h.symm
    exact setAvailable_sets hnd q hq hx

/-- The result of provider reject on an ASSIGNED booking with retry ceiling
3, called with the booking's own providerId. -/
theorem providerAction_reject_eq (env : Env) {id : String} {pid : JsVal}
    {s : State} {b : Booking} (hb : findBooking s.bookings id = some b)
    (hs : b.status = .ASSIGNED) (hp : sameProvider b.providerId pid = true)
    (hm : b.maxRetries = 3) :
    providerAction env id "reject" pid s =
      (.booking 200
          { b with providerId := none, providerName := none,
                   status := if 3 ≤ b.retryCount + 1 then .FAILED else .PENDING,
                   retryCount := b.retryCount + 1, updatedAt := env.now 0 },
       { providers := freeProviderOf s.providers b.providerId
         bookings := setBooking s.bookings id
          { b with providerId := none, providerName := none,
                   status := if 3 ≤ b.retryCount + 1 then .FAILED else .PENDING,
                   retryCount := b.retryCount + 1, updatedAt := env.now 0 }
         events := s.events ++
          ({ id := env.uuids 0, bookingId := id, oldStatus := some .ASSIGNED,
             newStatus := .PENDING, actor := .str "PROVIDER",
             reason := .str "Provider rejected booking",
             metadata := [("retryCount", .num (b.retryCount + 1 : Nat))],
             timestamp := env.now 1 } ::
           if 3 ≤ b.retryCount + 1 then
            [{ id := env.uuids 1, bookingId := id, oldStatus := some .PENDING,
               newStatus := .FAILED, actor := .str "SYSTEM",
               reason := .str "Max retries reached after provider rejection",
               metadata := [], timestamp := env.now 2 }]
           else []) }) := by
  have hid := (findBooking_mem hb).2
  by_cases hr : 3 ≤ b.retryCount + 1
  · simp [providerAction, hb, hs, hp, hm, hr, logEvent, hid]
  · simp [providerAction, hb, hs, hp, hm, hr, logEvent, hid]

/-- C10: for an ASSIGNED booking (any reachable state over a provider table
with distinct ids) and a caller whose providerId equals the booking's,
provider reject sets that provider's available to true, clears providerId
and providerName, raises retryCount by exactly 1, and leaves status PENDING
when the new retryCount is below 3 and FAILED when it is at least 3; it
appends an ASSIGNED→PENDING event with actor PROVIDER, followed by a
PENDING→FAILED event with actor SYSTEM exactly in the second case. -/
theorem provider_reject_frees_and_counts (ps : List Provider) (s : State)
    (env : Env) (id : String) (pid : JsVal) (b : Booking)
    (hnd : (ps.map Provider.id).Nodup) (hreach : Reach ps anyOp s)
    (hb : findBooking s.bookings id = some b) (hs : b.status = .ASSIGNED)
    (hp : sameProvider b.providerId pid = true) :
    ∃ b' e1,
      (providerAction env id "reject" pid s).1 = .booking 200 b' ∧
      findBooking (providerAction env id "reject" pid s).2.bookings id = some b' ∧
      (∀ q ∈ (providerAction env id "reject" pid s).2.providers,
        b.providerId = some q.id → q.available = true) ∧
      b'.providerId = none ∧ b'.providerName = none ∧
      b'.retryCount = b.retryCount + 1 ∧
      e1.bookingId = id ∧ e1.oldStatus = some .ASSIGNED ∧
      e1.newStatus = .PENDING ∧ e1.actor = .str "PROVIDER" ∧
      (b'.retryCount < 3 →
        b'.status = .PENDING ∧
        (providerAction env id "reject" pid s).2.events = s.events ++ [e1]) ∧
      (3 ≤ b'.retryCount →
        b'.status = .FAILED ∧
        ∃ e2, (providerAction env id "reject" pid s).2.events
            = s.events ++ [e1, e2] ∧
          e2.bookingId = id ∧ e2.oldStatus = some .PENDING ∧
          e2.newStatus = .FAILED ∧ e2.actor = .str "SYSTEM") := by
  have hm : b.maxRetries = 3 := (reach_wf hreach).2 b (findBooking_mem hb).1
  have hids : (s.providers.map Provider.id).Nodup := by
    rw [(reach_wf hreach).1]; exact hnd
  rw [providerAction_reject_eq env hb hs hp hm]
  refine ⟨_, { id := env.uuids 0, bookingId := id, oldStatus := some .ASSIGNED,
               newStatus := .PENDING, actor := .str "PROVIDER",
               reason := .str "Provider rejected booking",
               metadata := [("retryCount", .num (b.retryCount + 1 : Nat))],
               timestamp := env.now 1 },
    rfl, findBooking_setBooking hb (findBooking_mem hb).2,
    freeProviderOf_sets hids, rfl, rfl, rfl, rfl, rfl, rfl, rfl, ?_, ?_⟩
  · intro h3
    have h3' : ¬ 3 ≤ b.retryCount + 1 := Nat.not_le.mpr h3
    simp [h3']
  · intro h3
    have h3' : 3 ≤ b.retryCount + 1 := h3
    simp [h3']

/-- Witness of `provider_reject_frees_and_counts`: p1 rejects the `plumbing`
booking assigned to it. -/
theorem provider_reject_frees_and_counts_witness :
    ∃ b',
      (providerAction (mkEnv "c" 300) "a0" "reject" (.str "p1") plumbingAssigned).1
        = .booking 200 b' ∧
      b'.providerId = none ∧ b'.retryCount = 0 + 1 := by
  obtain ⟨b', _, h1, _, _, h4, _, h6, _⟩ :=
    provider_reject_frees_and_counts providers plumbingAssigned (mkEnv "c" 300)
      "a0" (.str "p1")
      { id := "a0", service := "plumbing", address := .str "12 Lake Road",
        customerName := .str "Guest Customer", customerPhone := .str "",
        scheduledTime := .inr 100, status := .ASSIGNED, providerId := some "p1",
        providerName := some "Ramesh Kumar", retryCount := 0, maxRetries := 3,
        createdAt := 101, updatedAt := 200, cancelledBy := .null,
        cancellationReason := .null, completedAt := none }
      (by decide) (reach_run _ Reach.init (by decide)) (by decide) (by decide)
      (by decide)
  exact ⟨b', h1, h4, h6⟩

/-! ## Terminal statuses -/

theorem getElem?_setBooking {bs : List Booking} {id : String} (nb : Booking)
    {i : Nat} {y : Booking} (h : bs[i]? = some y) :
    (setBooking bs id nb)[i]? = some y ∨
      (findBooking bs id = some y ∧ (setBooking bs id nb)[i]? = some nb) := by
  induction bs generalizing i with
  | nil => simp at h
  | cons x xs ih =>
    by_cases hx : x.id = id
    · cases i with
      | zero =>
        right
        have : x = y := by simpa using h
        subst this
        simp [findBooking, setBooking, hx]
      | succ j =>
        left
        simpa [setBooking, hx] using h
    · cases i with
      | zero =>
        left
        simpa [setBooking, hx] using h
      | succ j =>
        have hj : xs[j]? = some y := by simpa using h
        rcases ih hj with h1 | ⟨h1, h2⟩
        · left; simpa [setBooking, hx] using h1
        · right
          refine ⟨?_, by simpa [setBooking, hx] using h2⟩
          simpa [findBooking, List.find?_cons, hx] using h1

theorem TerminalLock.refl (op : Op) (y : Booking) : TerminalLock op y y :=
  ⟨fun _ => rfl, fun h => Or.inl h, fun h => Or.inl h⟩

theorem terminalLock_update {bs : List Booking} {id : String} {b0 nb : Booking}
    {op : Op} {i : Nat} {y : Booking} (hb : findBooking bs id = some b0)
    (hy : bs[i]? = some y) (hpost : TerminalLock op b0 nb) :
    ∃ y', (setBooking bs id nb)[i]? = some y' ∧ TerminalLock op y y' := by
  rcases getElem?_setBooking nb hy with h | ⟨h1, h2⟩
  · exact ⟨y, h, TerminalLock.refl op y⟩
  · have : y = b0 := by rw [hb] at h1; injection h1 with h1; exact h1.symm
    subst this
    exact ⟨nb, h2, hpost⟩

/-- C4, counterexample: on the FAILED `gardening` booking, cancel gives
status CANCELLED and retry gives status PENDING. -/
theorem failed_booking_leaves_terminal_status :
    (findBooking gardeningFailed.bookings "a0").map Booking.status = some .FAILED ∧
    (findBooking (cancel (mkEnv "e" 500) "a0" .undefined .undefined
        gardeningFailed).2.bookings "a0").map Booking.status = some .CANCELLED ∧
    (findBooking (retry (mkEnv "e" 500) "a0" gardeningFailed).2.bookings "a0").map
        Booking.status = some .PENDING := by
  decide

/-- C4, as amended: a request other than admin override leaves the status of
every COMPLETED or CANCELLED booking unchanged; it changes the status of a
FAILED booking only if it is a cancel (to CANCELLED) or a retry (to PENDING
or ASSIGNED), and the status of a NO_SHOW booking only if it is a cancel (to
CANCELLED). -/
theorem step_terminal_lock (env : Env) (op : Op) (s : State) (i : Nat)
    (y : Booking) (hop : op.isOverride = false) (hy : s.bookings[i]? = some y) :
    ∃ y', (step env op s).2.bookings[i]? = some y' ∧ TerminalLock op y y' := by
  have hsame : ∃ y', s.bookings[i]? = some y' ∧ TerminalLock op y y' :=
    ⟨y, hy, TerminalLock.refl op y⟩
  cases op <;> simp only [step]
  case adminOverride id st r => simp [Op.isOverride] at hop
  case create body =>
    unfold create; split
    · exact hsame
    · split
      · refine ⟨y, ?_, TerminalLock.refl _ y⟩
        have hi : i < s.bookings.length := by
          rcases Nat.lt_or_ge i s.bookings.length with h | h
          · exact h
          · rw [List.getElem?_eq_none h] at hy; cases hy
        simp only [List.getElem?_append_left hi]
        exact hy
      · exact hsame
  case assign id =>
    unfold assign; split
    · exact hsame
    · next b hb =>
      split
      · exact hsame
      · next hst =>
        have hst' : b.status = .PENDING := by simpa using hst
        split
        · dsimp only; split <;>
            exact terminalLock_update hb hy (by simp [TerminalLock, hst'])
        · exact terminalLock_update hb hy (by simp [TerminalLock, hst'])
  case providerAction id action pid =>
    unfold providerAction; split
    · exact hsame
    · next b hb =>
      split
      · exact hsame
      · split
        · split
          · exact hsame
          · next hst =>
            have hst' : b.status = .ASSIGNED := by simpa using hst
            exact terminalLock_update hb hy (by simp [TerminalLock, hst'])
        · split
          · split
            · exact hsame
            · next hst =>
              have hst' : b.status = .ASSIGNED := by simpa using hst
              dsimp only; split <;>
                exact terminalLock_update hb hy (by simp [TerminalLock, hst'])
          · exact hsame
  case complete id =>
    unfold complete; split
    · exact hsame
    · next b hb =>
      split
      · exact hsame
      · next hst =>
        have hst' : b.status = .IN_PROGRESS := by simpa using hst
        exact terminalLock_update hb hy (by simp [TerminalLock, hst'])
  case cancel id c r =>
    unfold cancel; split
    · exact hsame
    · next b hb =>
      split
      · exact hsame
      · next hst =>
        simp only [List.mem_cons, List.mem_singleton, List.not_mem_nil, or_false,
          not_or] at hst
        exact terminalLock_update hb hy
          (by simp [TerminalLock, hst.1, hst.2, Op.isCancel])
  case noShow id =>
    unfold noShow; split
    · exact hsame
    · next b hb =>
      split
      · exact hsame
      · next hst =>
        simp only [List.mem_cons, List.mem_singleton, List.not_mem_nil, or_false,
          not_not] at hst
        dsimp only
        refine terminalLock_update hb hy ?_
        rcases hst with hst | hst <;> simp [TerminalLock, hst]
  case retry id =>
    unfold retry; split
    · exact hsame
    · next b hb =>
      split
      · exact hsame
      · next hst =>
        simp only [List.mem_cons, List.mem_singleton, List.not_mem_nil, or_false,
          not_not] at hst
        dsimp only; split <;>
          exact terminalLock_update hb hy
            (by rcases hst with hst | hst <;> simp [TerminalLock, hst, Op.isRetry])

/-- Witness of `step_terminal_lock`: an assign addressed to the FAILED
`gardening` booking. -/
theorem step_terminal_lock_witness :
    ∃ y', (step (mkEnv "e" 500) (.assign "a0") gardeningFailed).2.bookings[0]?
        = some y' ∧
      TerminalLock (.assign "a0")
        { id := "a0", service := "gardening", address := .str "12 Lake Road",
          customerName := .str "Guest Customer", customerPhone := .str "",
          scheduledTime := .inr 100, status := .FAILED, providerId := none,
          providerName := none, retryCount := 3, maxRetries := 3, createdAt := 101,
          updatedAt := 400, cancelledBy := .null, cancellationReason := .null,
          completedAt := none } y' :=
  step_terminal_lock (mkEnv "e" 500) (.assign "a0") gardeningFailed 0 _
    (by decide) (by decide)

/-! ## Consistency of providers and bookings without admin override -/

theorem holds_eq_false_of_inactive {b : Booking} (pid : String)
    (h : b.active = false) : holds pid b = false := by
  simp [holds, h]

theorem Consistent.create {ids : List String} {ps : List Provider}
    {bs : List Booking} (h : Consistent ids ps bs) {nb : Booking}
    (hs : nb.status = .PENDING) (hp : nb.providerId = none) :
    Consistent ids ps (bs ++ [nb]) := by
  have hin : nb.active = false := by simp [Booking.active, hs]
  refine ⟨h.ids_eq, ?_, ?_⟩
  · intro b hb
    simp only [List.mem_append, List.mem_singleton] at hb
    rcases hb with hb | hb
    · exact h.ref b hb
    · subst hb
      exact ⟨fun ha => (by rw [hin] at ha; cases ha), fun _ => hp⟩
  · intro p hp'
    rw [List.countP_append, h.busy p hp']
    simp [holds_eq_false_of_inactive p.id hin]

theorem Consistent.neutral {ids : List String} {ps : List Provider}
    {bs : List Booking} (h : Consistent ids ps bs) {id : String}
    {b nb : Booking} (hb : findBooking bs id = some b)
    (hact : nb.active = b.active) (hpid : nb.providerId = b.providerId)
    (hidle : nb.status = .PENDING ∨ nb.status = .FAILED ∨ nb.status = .NO_SHOW →
      nb.providerId = none) :
    Consistent ids ps (setBooking bs id nb) := by
  have hbr := h.ref b (findBooking_mem hb).1
  refine ⟨h.ids_eq, ?_, ?_⟩
  · refine forall_setBooking h.ref ⟨fun ha => ?_, hidle⟩
    rw [hpid]; exact hbr.1 (hact ▸ ha)
  · intro p hp
    have hc := countP_setBooking (holds p.id) nb hb
    have : holds p.id nb = holds p.id b := by simp [holds, hact, hpid]
    rw [this] at hc
    rw [← h.busy p hp]
    omega

theorem Consistent.acquire {ids : List String} {ps : List Provider}
    {bs : List Booking} (h : Consistent ids ps bs) (hnd : ids.Nodup)
    {id : String} {b nb : Booking} {p : Provider}
    (hb : findBooking bs id = some b) (hin : b.active = false)
    (hp : p ∈ ps) (hav : p.available = true) (hact : nb.active = true)
    (hpid : nb.providerId = some p.id) :
    Consistent ids (makeProviderBusy ps p.id) (setBooking bs id nb) := by
  have hnd' : (ps.map Provider.id).Nodup := h.ids_eq ▸ hnd
  refine ⟨(makeProviderBusy_map_id ps p.id).trans h.ids_eq, ?_, ?_⟩
  · refine forall_setBooking h.ref ⟨fun _ => ⟨p.id, ?_, hpid⟩, fun hst => ?_⟩
    · rw [← h.ids_eq]; exact List.mem_map_of_mem _ hp
    · exfalso
      simp only [Booking.active, decide_eq_true_eq] at hact
      rcases hact with ha | ha <;> rw [ha] at hst <;> simp at hst
  · intro q hq
    have hc := countP_setBooking (holds q.id) nb hb
    rw [holds_eq_false_of_inactive q.id hin] at hc
    rcases mem_setAvailable hnd' hq with ⟨hqi, hqa⟩ | ⟨hqi, hqm⟩
    · have h0 := h.busy p hp
      rw [hav] at h0
      have : holds q.id nb = true := by simp [holds, hact, hpid, hqi]
      rw [this, hqi, h0] at hc
      rw [hqa, hqi]
      simpa using hc
    · have : holds q.id nb = false := by
        simp only [holds, hact, hpid, Bool.true_and, decide_eq_false_iff_not]
        intro he; injection he with he; exact hqi he.symm
      rw [this] at hc
      rw [← h.busy q hqm]
      simpa using hc

theorem Consistent.release {ids : List String} {ps : List Provider}
    {bs : List Booking} (h : Consistent ids ps bs) (hnd : ids.Nodup)
    {id : String} {b nb : Booking}
    (hb : findBooking bs id = some b) (hact : b.active = true)
    (hin : nb.active = false)
    (hidle : nb.status = .PENDING ∨ nb.status = .FAILED ∨ nb.status = .NO_SHOW →
      nb.providerId = none) :
    Consistent ids (freeProviderOf ps b.providerId) (setBooking bs id nb) := by
  have hnd' : (ps.map Provider.id).Nodup := h.ids_eq ▸ hnd
  obtain ⟨x, hx, hbx⟩ := (h.ref b (findBooking_mem hb).1).1 hact
  rw [hbx]
  refine ⟨(freeProviderOf_map_id ps (some x)).trans h.ids_eq, ?_, ?_⟩
  · exact forall_setBooking h.ref ⟨fun ha => (by rw [hin] at ha; cases ha), hidle⟩
  · intro q hq
    have hc := countP_setBooking (holds q.id) nb hb
    rw [holds_eq_false_of_inactive q.id hin] at hc
    rcases mem_setAvailable hnd' hq with ⟨hqi, hqa⟩ | ⟨hqi, hqm⟩
    · have hxm : x ∈ ps.map Provider.id := h.ids_eq ▸ hx
      obtain ⟨p, hp, hpx⟩ := List.mem_map.1 hxm
      have h0 := h.busy p hp
      have : holds q.id b = true := by simp [holds, hact, hbx, hqi]
      rw [this, hqi, ← hpx, h0] at hc
      rw [hqa, hqi, ← hpx]
      have h1 : (if p.available = true then 0 else 1) ≤ 1 := by split <;> omega
      simp only [if_true, Bool.false_eq_true, if_false] at hc ⊢
      omega
    · have : holds q.id b = false := by
        simp only [holds, hact, hbx, Bool.true_and, decide_eq_false_iff_not]
        intro he; injection he with he; exact hqi he.symm
      rw [this] at hc
      rw [← h.busy q hqm]
      simpa using hc

theorem Consistent.truthy {ids : List String} {ps : List Provider}
    {bs : List Booking} (h : Consistent ids ps bs) (hne : "" ∉ ids)
    {b : Booking} (hb : b ∈ bs) (hact : b.active = true) :
    idTruthy b.providerId = true := by
  obtain ⟨x, hx, hbx⟩ := (h.ref b hb).1 hact
  rw [hbx]
  simp only [idTruthy, decide_eq_true_eq]
  intro he; exact hne (he ▸ hx)

theorem providerMatches_available {service : String} {p : Provider}
    (h : providerMatches service p = true) : p.available = true := by
  simp only [providerMatches, Bool.and_eq_true] at h
  exact h.1

theorem active_of_status {b : Booking} :
    b.active = true ↔ (b.status = .ASSIGNED ∨ b.status = .IN_PROGRESS) := by
  simp [Booking.active]

theorem inactive_of_status {b : Booking} :
    b.active = false ↔ (b.status ≠ .ASSIGNED ∧ b.status ≠ .IN_PROGRESS) := by
  simp [Booking.active]

/-- Every request other than admin override preserves consistency. -/
theorem step_consistent {ids : List String} (hnd : ids.Nodup) (hne : "" ∉ ids)
    (env : Env) (op : Op) (s : State) (hop : op.isOverride = false)
    (h : Consistent ids s.providers s.bookings) :
    Consistent ids (step env op s).2.providers (step env op s).2.bookings := by
  cases op <;> simp only [step]
  case adminOverride id st r => simp [Op.isOverride] at hop
  case create body =>
    unfold create; split
    · exact h
    · split
      · exact h.create rfl rfl
      · exact h
  case assign id =>
    unfold assign; split
    · exact h
    · next b hb =>
      split
      · exact h
      · next hst =>
        have hst' : b.status = .PENDING := by simpa using hst
        have hin : b.active = false := by simp [Booking.active, hst']
        have hnone := (h.ref b (findBooking_mem hb).1).2 (Or.inl hst')
        split
        · dsimp only; split
          · exact h.neutral hb (by simp [Booking.active, hst']) rfl (fun _ => hnone)
          · exact h.neutral hb (by simp [Booking.active, hst']) rfl (fun _ => hnone)
        · next p hp =>
          have hpm := findAvailableProvider_some hp
          exact h.acquire hnd hb hin hpm.1 (providerMatches_available hpm.2)
            (by simp [Booking.active]) rfl
  case providerAction id action pid =>
    unfold providerAction; split
    · exact h
    · next b hb =>
      split
      · exact h
      · split
        · split
          · exact h
          · next hst =>
            have hst' : b.status = .ASSIGNED := by simpa using hst
            exact h.neutral hb (by simp [Booking.active, hst']) rfl
              (fun hx => by simp at hx)
        · split
          · split
            · exact h
            · next hst =>
              have hst' : b.status = .ASSIGNED := by simpa using hst
              have hact : b.active = true := by simp [Booking.active, hst']
              dsimp only; split
              · exact h.release hnd hb hact (by simp [Booking.active]) (fun _ => rfl)
              · exact h.release hnd hb hact (by simp [Booking.active]) (fun _ => rfl)
          · exact h
  case complete id =>
    unfold complete; split
    · exact h
    · next b hb =>
      split
      · exact h
      · next hst =>
        have hst' : b.status = .IN_PROGRESS := by simpa using hst
        have hact : b.active = true := by simp [Booking.active, hst']
        have ht := h.truthy hne (findBooking_mem hb).1 hact
        dsimp only
        rw [if_pos ht]
        exact h.release hnd hb hact (by simp [Booking.active]) (fun hx => by simp at hx)
  case cancel id c r =>
    unfold cancel; split
    · exact h
    · next b hb =>
      split
      · exact h
      · next hst =>
        simp only [List.mem_cons, List.mem_singleton, List.not_mem_nil, or_false,
          not_or] at hst
        dsimp only
        rcases Bool.eq_false_or_eq_true b.active with hact | hact
        · have ht := h.truthy hne (findBooking_mem hb).1 hact
          rw [if_pos ht]
          exact h.release hnd hb hact (by simp [Booking.active])
            (fun hx => by simp at hx)
        · have hidle : b.status = .PENDING ∨ b.status = .FAILED ∨ b.status = .NO_SHOW := by
            have := inactive_of_status.1 hact
            cases hs : b.status <;> simp_all
          have hnone := (h.ref b (findBooking_mem hb).1).2 hidle
          have ht : ¬ idTruthy b.providerId = true := by simp [hnone, idTruthy]
          rw [if_neg ht]
          exact h.neutral hb (by rw [hact]; simp [Booking.active]) rfl
            (fun hx => by simp at hx)
  case noShow id =>
    unfold noShow; split
    · exact h
    · next b hb =>
      split
      · exact h
      · next hst =>
        simp only [List.mem_cons, List.mem_singleton, List.not_mem_nil, or_false,
          not_not] at hst
        have hact : b.active = true := active_of_status.2 hst
        have ht := h.truthy hne (findBooking_mem hb).1 hact
        dsimp only
        rw [if_pos ht, if_pos ht]
        exact h.release hnd hb hact (by simp [Booking.active]) (fun _ => rfl)
  case retry id =>
    unfold retry; split
    · exact h
    · next b hb =>
      split
      · exact h
      · next hst =>
        simp only [List.mem_cons, List.mem_singleton, List.not_mem_nil, or_false,
          not_not] at hst
        have hin : b.active = false := by
          rcases hst with hs | hs <;> simp [Booking.active, hs]
        have hnone : b.providerId = none :=
          (h.ref b (findBooking_mem hb).1).2
            (hst.elim (fun hs => Or.inr (Or.inl hs)) (fun hs => Or.inl hs))
        dsimp only; split
        · next p hp =>
          have hpm := findAvailableProvider_some hp
          exact h.acquire hnd hb hin hpm.1 (providerMatches_available hpm.2)
            (by simp [Booking.active]) rfl
        · exact h.neutral hb (by rw [hin]; simp [Booking.active]) rfl (fun _ => hnone)

/-- Consistency holds in every state reachable without admin override from a
table of available providers with distinct, non-empty ids. -/
theorem reach_consistent {ps : List Provider} {s : State}
    (hnd : (ps.map Provider.id).Nodup) (hne : "" ∉ ps.map Provider.id)
    (hav : ∀ p ∈ ps, p.available = true) (h : Reach ps noOverride s) :
    Consistent (ps.map Provider.id) s.providers s.bookings := by
  induction h with
  | init =>
    refine ⟨rfl, by simp [initState], ?_⟩
    intro p hp
    simp [initState, hav p hp]
  | step env op _ hop ih =>
    exact step_consistent hnd hne env op _ (by simpa [noOverride] using hop) ih

/-! ## Provider reference and status -/

theorem seeded_ids_nodup : (providers.map Provider.id).Nodup := by decide

theorem seeded_ids_nonempty : "" ∉ providers.map Provider.id := by decide

theorem seeded_available : ∀ p ∈ providers, p.available = true := by decide

/-- C1, counterexample: after create, assign, accept and complete the
booking is COMPLETED and still has providerId p1 (no admin override
involved); cancelling an ASSIGNED booking leaves it CANCELLED with providerId
p1; and an admin override of a fresh booking to ASSIGNED leaves it ASSIGNED
with providerId null. -/
theorem providerId_status_mismatch :
    (findBooking plumbingCompleted.bookings "a0").map
        (fun b => (b.status, b.providerId)) = some (.COMPLETED, some "p1") ∧
    (findBooking (cancel (mkEnv "c" 300) "a0" .undefined .undefined
        plumbingAssigned).2.bookings "a0").map
        (fun b => (b.status, b.providerId)) = some (.CANCELLED, some "p1") ∧
    (findBooking createdThenOverriddenAssigned.bookings "a0").map
        (fun b => (b.status, b.providerId)) = some (.ASSIGNED, none) := by
  decide

/-- C1, as amended: starting from the seeded initial state, after every
finite sequence of requests other than admin override, every booking whose
status is ASSIGNED or IN_PROGRESS has a non-null providerId, and every
booking with a non-null providerId has status ASSIGNED, IN_PROGRESS,
COMPLETED or CANCELLED. -/
theorem providerId_of_status_without_override (s : State)
    (h : Reach providers noOverride s) :
    ∀ b ∈ s.bookings,
      ((b.status = .ASSIGNED ∨ b.status = .IN_PROGRESS) → b.providerId ≠ none) ∧
      (b.providerId ≠ none →
        b.status = .ASSIGNED ∨ b.status = .IN_PROGRESS ∨
          b.status = .COMPLETED ∨ b.status = .CANCELLED) := by
  intro b hb
  have hc := (reach_consistent seeded_ids_nodup seeded_ids_nonempty
    seeded_available h).ref b hb
  constructor
  · intro hst
    obtain ⟨x, _, hx⟩ := hc.1 (active_of_status.2 hst)
    rw [hx]; exact Option.some_ne_none x
  · intro hne
    cases hs : b.status
    · exact absurd (hc.2 (Or.inl hs)) hne
    · exact Or.inl rfl
    · exact Or.inr (Or.inl rfl)
    · exact Or.inr (Or.inr (Or.inl rfl))
    · exact Or.inr (Or.inr (Or.inr rfl))
    · exact absurd (hc.2 (Or.inr (Or.inl hs))) hne
    · exact absurd (hc.2 (Or.inr (Or.inr hs))) hne

/-- Witness of `providerId_of_status_without_override` at the completed
`plumbing` booking, which still references p1. -/
theorem providerId_of_status_without_override_witness :
    Reach providers noOverride plumbingCompleted ∧
    completedBooking ∈ plumbingCompleted.bookings ∧
    (completedBooking.status = .ASSIGNED ∨ completedBooking.status = .IN_PROGRESS ∨
      completedBooking.status = .COMPLETED ∨ completedBooking.status = .CANCELLED) :=
  ⟨reach_run _ Reach.init (by decide), by decide,
    (providerId_of_status_without_override plumbingCompleted
      (reach_run _ Reach.init (by decide)) completedBooking (by decide)).2
      (by decide)⟩

/-! ## Provider availability and active bookings -/

/-- C2, counterexample: after an admin override of an ASSIGNED booking back
to PENDING, provider p1 is unavailable and no ASSIGNED or IN_PROGRESS booking
exists; after an admin override of a COMPLETED booking to IN_PROGRESS,
provider p1 is available and an IN_PROGRESS booking references it. -/
theorem provider_busy_mismatch_after_override :
    (assignedThenOverriddenPending.providers.map (fun p => (p.id, p.available))
        = [("p1", false), ("p2", true), ("p3", true)] ∧
     assignedThenOverriddenPending.bookings.map (fun b => (b.status, b.providerId))
        = [(.PENDING, some "p1")]) ∧
    (completedThenOverriddenInProgress.providers.map (fun p => (p.id, p.available))
        = [("p1", true), ("p2", true), ("p3", true)] ∧
     completedThenOverriddenInProgress.bookings.map (fun b => (b.status, b.providerId))
        = [(.IN_PROGRESS, some "p1")]) := by
  decide

/-- C2, as amended: starting from the seeded initial state, after every
finite sequence of requests other than admin override, a provider has
available = false if and only if some booking with status ASSIGNED or
IN_PROGRESS has providerId equal to that provider's id. -/
theorem provider_busy_iff_referenced_without_override (s : State)
    (h : Reach providers noOverride s) :
    ∀ p ∈ s.providers,
      (p.available = false ↔
        ∃ b ∈ s.bookings, (b.status = .ASSIGNED ∨ b.status = .IN_PROGRESS) ∧
          b.providerId = some p.id) := by
  intro p hp
  have hc := (reach_consistent seeded_ids_nodup seeded_ids_nonempty
    seeded_available h).busy p hp
  constructor
  · intro hav
    rw [hav] at hc
    have hpos : 0 < s.bookings.countP (holds p.id) := by rw [hc]; decide
    obtain ⟨b, hb, hh⟩ := List.countP_pos_iff.1 hpos
    simp only [holds, Bool.and_eq_true, decide_eq_true_eq] at hh
    exact ⟨b, hb, active_of_status.1 hh.1, hh.2⟩
  · rintro ⟨b, hb, hst, hpid⟩
    have hh : holds p.id b = true := by
      simp only [holds, Bool.and_eq_true, decide_eq_true_eq]
      exact ⟨active_of_status.2 hst, hpid⟩
    have hpos : 0 < s.bookings.countP (holds p.id) := List.countP_pos_iff.2 ⟨b, hb, hh⟩
    rcases Bool.eq_false_or_eq_true p.available with hav | hav
    · rw [hav] at hc
      simp only [if_true] at hc
      omega
    · exact hav

/-- Witness of `provider_busy_iff_referenced_without_override` at the state
with one assigned `plumbing` booking, for the busy provider p1. -/
theorem provider_busy_iff_referenced_without_override_witness :
    ∃ b ∈ plumbingAssigned.bookings,
      (b.status = .ASSIGNED ∨ b.status = .IN_PROGRESS) ∧ b.providerId = some "p1" :=
  (provider_busy_iff_referenced_without_override plumbingAssigned
    (reach_run _ Reach.init (by decide))
    { id := "p1", name := "Ramesh Kumar", available := false,
      serviceTypes := some ["plumbing", "electrical"],
      phone := "+91 98765 43210", rating := 48 }
    (by decide)).1 rfl

/-! ## Event history -/

/-- C3, the code at the failing input: after create, three unmatched assigns
(the third one fails the booking) and a retry, the events of the booking in
append order, which is also strict time-stamp order, are null→PENDING,
PENDING→PENDING, PENDING→PENDING, PENDING→FAILED, PENDING→PENDING: the last
event's old status PENDING is not the new status FAILED of the event before
it, so the events are not a valid status path, while the state is reachable
and the first and last events do fit the booking. -/
theorem retry_of_failed_breaks_event_path :
    Reachable gardeningRetried ∧
    (eventsOf gardeningRetried.events "a0").map
        (fun e => (e.oldStatus, e.newStatus, e.timestamp))
      = [(none, .PENDING, 103), (some .PENDING, .PENDING, 201),
         (some .PENDING, .PENDING, 301), (some .PENDING, .FAILED, 401),
         (some .PENDING, .PENDING, 501)] ∧
    (findBooking gardeningRetried.bookings "a0").map Booking.status = some .PENDING ∧
    chained (eventsOf gardeningRetried.events "a0") = false ∧
    validPath (eventsOf gardeningRetried.events "a0") .PENDING = false := by
  refine ⟨?_, by decide, by decide, by decide, by decide⟩
  exact reach_run
    [(mkEnv "a" 100, .create (sampleBody "gardening")),
     (mkEnv "b" 200, .assign "a0"), (mkEnv "c" 300, .assign "a0"),
     (mkEnv "d" 400, .assign "a0"), (mkEnv "e" 500, .retry "a0")]
    Reach.init (by decide)

/-! ## Admin override of a completed booking -/

theorem getElem?_setAvailable {v : Bool} {ps : List Provider} {id : String}
    {i : Nat} {p : Provider} (h : ps[i]? = some p) :
    (setAvailable v ps id)[i]? = some p ∨
      (p.id = id ∧ (setAvailable v ps id)[i]? = some { p with available := v }) := by
  induction ps generalizing i with
  | nil => simp at h
  | cons x xs ih =>
    by_cases hx : x.id = id
    · cases i with
      | zero =>
        right
        have : x = p := by simpa using h
        subst this
        exact ⟨hx, by simp [setAvailable, hx]⟩
      | succ j => left; simpa [setAvailable, hx] using h
    · cases i with
      | zero => left; simpa [setAvailable, hx] using h
      | succ j =>
        have hj : xs[j]? = some p := by simpa using h
        rcases ih hj with h1 | ⟨h1, h2⟩
        · left; simpa [setAvailable, hx] using h1
        · right; exact ⟨h1, by simpa [setAvailable, hx] using h2⟩

theorem getProvider_setAvailable (v : Bool) (ps : List Provider) (id : String) :
    getProvider (setAvailable v ps id) id
      = (getProvider ps id).map (fun p => { p with available := v }) := by
  induction ps with
  | nil => rfl
  | cons x xs ih =>
    by_cases hx : x.id = id
    · simp [setAvailable, hx, getProvider]
    · simpa [setAvailable, hx, getProvider, List.find?_cons] using ih

/-- C6, counterexample: the booking `a0` is COMPLETED and still references
p1, which is busy with the ASSIGNED booking `e0`; the admin override of `a0`
to CANCELLED makes p1 available although `e0` is still ASSIGNED to p1. -/
theorem override_completed_frees_reassigned_provider :
    completedThenReassigned.bookings.map (fun b => (b.id, b.status, b.providerId))
      = [("a0", .COMPLETED, some "p1"), ("e0", .ASSIGNED, some "p1")] ∧
    completedThenReassigned.providers.map (fun p => (p.id, p.available))
      = [("p1", false), ("p2", true), ("p3", true)] ∧
    (adminOverride (mkEnv "g" 700) "a0" (.str "CANCELLED") .undefined
        completedThenReassigned).2.providers.map (fun p => (p.id, p.available))
      = [("p1", true), ("p2", true), ("p3", true)] ∧
    (adminOverride (mkEnv "g" 700) "a0" (.str "CANCELLED") .undefined
        completedThenReassigned).2.bookings.map
        (fun b => (b.id, b.status, b.providerId))
      = [("a0", .CANCELLED, some "p1"), ("e0", .ASSIGNED, some "p1")] := by
  decide

/-- C6, as amended: in every state, admin override of a COMPLETED booking to
CANCELLED is accepted: the status becomes CANCELLED, providerId is kept, and
one event COMPLETED→CANCELLED with actor ADMIN is appended.  The provider the
booking still references, if any, is marked available; every other provider
is unchanged, and when the booking holds no provider reference no provider
changes. -/
theorem override_completed_to_cancelled (env : Env) (id : String)
    (reason : JsVal) (s : State) (b : Booking)
    (hb : findBooking s.bookings id = some b) (hs : b.status = .COMPLETED) :
    ∃ b' e,
      (adminOverride env id (.str "CANCELLED") reason s).1 = .booking 200 b' ∧
      findBooking (adminOverride env id (.str "CANCELLED") reason s).2.bookings id
        = some b' ∧
      b'.status = .CANCELLED ∧ b'.providerId = b.providerId ∧
      (adminOverride env id (.str "CANCELLED") reason s).2.events
        = s.events ++ [e] ∧
      e.bookingId = id ∧ e.oldStatus = some .COMPLETED ∧
      e.newStatus = .CANCELLED ∧ e.actor = .str "ADMIN" ∧
      (b.providerId = none →
        (adminOverride env id (.str "CANCELLED") reason s).2.providers
          = s.providers) ∧
      (∀ pid, b.providerId = some pid → pid ≠ "" →
        ∀ q, getProvider
            (adminOverride env id (.str "CANCELLED") reason s).2.providers pid
              = some q → q.available = true) ∧
      (∀ (i : Nat) (p : Provider), s.providers[i]? = some p →
        (adminOverride env id (.str "CANCELLED") reason s).2.providers[i]?
            = some p ∨
          (b.providerId = some p.id ∧
            (adminOverride env id (.str "CANCELLED") reason s).2.providers[i]?
              = some { p with available := true })) := by
  have hid := (findBooking_mem hb).2
  have hparse : parseStatus (.str "CANCELLED") = some .CANCELLED := by decide
  have heq : adminOverride env id (.str "CANCELLED") reason s =
      (.booking 200 { b with status := .CANCELLED, updatedAt := env.now 0 },
       { providers :=
           if idTruthy b.providerId = true then freeProviderOf s.providers b.providerId
           else s.providers
         bookings := setBooking s.bookings id
           { b with status := .CANCELLED, updatedAt := env.now 0 }
         events := s.events ++
           [{ id := env.uuids 0, bookingId := id, oldStatus := some .COMPLETED,
              newStatus := .CANCELLED, actor := .str "ADMIN",
              reason := reason.orElse (.str "Admin override"), metadata := [],
              timestamp := env.now 1 }] }) := by
    simp [adminOverride, hb, hparse, hs, logEvent, hid]
  rw [heq]
  refine ⟨_, _, rfl, findBooking_setBooking hb hid, rfl, rfl, rfl, rfl, rfl, rfl,
    rfl, ?_, ?_, ?_⟩
  · intro hn
    simp [hn, idTruthy]
  · intro pid hpid hne q hq
    have ht : idTruthy b.providerId = true := by simp [hpid, idTruthy, hne]
    dsimp only at hq
    rw [if_pos ht, hpid] at hq
    simp only [freeProviderOf, freeProvider] at hq
    rw [getProvider_setAvailable] at hq
    cases hg : getProvider s.providers pid with
    | none => rw [hg] at hq; cases hq
    | some p0 =>
      rw [hg] at hq
      injection hq with hq
      rw [← hq]
  · intro i p hp
    dsimp only
    split
    · cases hpid : b.providerId with
      | none => left; exact hp
      | some x =>
        rcases @getElem?_setAvailable true s.providers x i p hp with h1 | ⟨h1, h2⟩
        · left; exact h1
        · right; exact ⟨by rw [h1], h2⟩
    · left; exact hp

/-- Witness of `override_completed_to_cancelled` at the completed `plumbing`
booking. -/
theorem override_completed_to_cancelled_witness :
    ∃ b',
      (adminOverride (mkEnv "g" 700) "a0" (.str "CANCELLED") .undefined
        plumbingCompleted).1 = .booking 200 b' ∧
      b'.status = .CANCELLED ∧ b'.providerId = some "p1" := by
  obtain ⟨b', _, h1, _, h3, h4, _⟩ :=
    override_completed_to_cancelled (mkEnv "g" 700) "a0" .undefined
      plumbingCompleted
      { id := "a0", service := "plumbing", address := .str "12 Lake Road",
        customerName := .str "Guest Customer", customerPhone := .str "",
        scheduledTime := .inr 100, status := .COMPLETED, providerId := some "p1",
        providerName := some "Ramesh Kumar", retryCount := 0, maxRetries := 3,
        createdAt := 101, updatedAt := 401, cancelledBy := .null,
        cancellationReason := .null, completedAt := some 400 }
      (by decide) (by decide)
  exact ⟨b', h1, h3, h4⟩

/-! ## What a request does to the booking table -/

/-- A change of status, time stamps and cancellation data only. -/
theorem Touch.of_fields {ps : List Provider} {b nb : Booking}
    (h1 : nb.id = b.id) (h2 : nb.service = b.service)
    (h3 : nb.maxRetries = b.maxRetries)
    (h4 : nb.address = b.address ∧ nb.customerName = b.customerName ∧
      nb.customerPhone = b.customerPhone ∧ nb.scheduledTime = b.scheduledTime ∧
      nb.createdAt = b.createdAt)
    (h5 : nb.retryCount = b.retryCount)
    (h6 : (nb.providerId = b.providerId ∧ nb.providerName = b.providerName) ∨
      (nb.providerId = none ∧ nb.providerName = none) ∨
      ∃ p ∈ ps, nb.providerId = some p.id ∧ nb.providerName = some p.name) :
    Touch ps b nb :=
  ⟨h1, h2, h3, h4, ⟨by omega, by omega⟩, fun h => by omega, h6⟩

/-- The booking table after a request: unchanged, or one PENDING booking
appended by create, or the addressed booking replaced in place. -/
theorem step_bookings_cases (env : Env) (op : Op) (s : State) :
    (step env op s).2.bookings = s.bookings ∨
    (∃ nb, (step env op s).2.bookings = s.bookings ++ [nb] ∧
      nb.status = .PENDING ∧ nb.providerId = none ∧ nb.providerName = none ∧
      nb.retryCount = 0 ∧ nb.maxRetries = 3) ∨
    (∃ id b nb, findBooking s.bookings id = some b ∧
      (step env op s).2.bookings = setBooking s.bookings id nb ∧
      Touch s.providers b nb) := by
  have same : ∀ {b : Booking}, (b.providerId = b.providerId ∧
      b.providerName = b.providerName) ∨ (b.providerId = none ∧ b.providerName = none) ∨
      ∃ p ∈ s.providers, b.providerId = some p.id ∧ b.providerName = some p.name :=
    fun {_} => Or.inl ⟨rfl, rfl⟩
  cases op <;> simp only [step]
  case create body =>
    unfold create; split
    · exact Or.inl rfl
    · split
      · exact Or.inr (Or.inl ⟨_, rfl, rfl, rfl, rfl, rfl, rfl⟩)
      · exact Or.inl rfl
  case assign id =>
    unfold assign; split
    · exact Or.inl rfl
    · next b hb =>
      split
      · exact Or.inl rfl
      · split
        · dsimp only; split
          · next hr =>
            exact Or.inr (Or.inr ⟨id, b, _, hb, rfl, rfl, rfl, rfl,
              ⟨rfl, rfl, rfl, rfl, rfl⟩, ⟨Nat.le_succ _, Nat.le_refl _⟩,
              fun _ _ => rfl, Or.inl ⟨rfl, rfl⟩⟩)
          · next hr =>
            exact Or.inr (Or.inr ⟨id, b, _, hb, rfl, rfl, rfl, rfl,
              ⟨rfl, rfl, rfl, rfl, rfl⟩, ⟨Nat.le_succ _, Nat.le_refl _⟩,
              fun _ h => absurd h hr, Or.inl ⟨rfl, rfl⟩⟩)
        · next p hp =>
          exact Or.inr (Or.inr ⟨id, b, _, hb, rfl,
            Touch.of_fields rfl rfl rfl ⟨rfl, rfl, rfl, rfl, rfl⟩ rfl
              (Or.inr (Or.inr ⟨p, (findAvailableProvider_some hp).1, rfl, rfl⟩))⟩)
  case providerAction id action pid =>
    unfold providerAction; split
    · exact Or.inl rfl
    · next b hb =>
      split
      · exact Or.inl rfl
      · split
        · split
          · exact Or.inl rfl
          · exact Or.inr (Or.inr ⟨id, b, _, hb, rfl,
              Touch.of_fields rfl rfl rfl ⟨rfl, rfl, rfl, rfl, rfl⟩ rfl same⟩)
        · split
          · split
            · exact Or.inl rfl
            · dsimp only; split
              · next hr =>
                exact Or.inr (Or.inr ⟨id, b, _, hb, rfl, rfl, rfl, rfl,
                  ⟨rfl, rfl, rfl, rfl, rfl⟩, ⟨Nat.le_succ _, Nat.le_refl _⟩,
                  fun _ _ => rfl, Or.inr (Or.inl ⟨rfl, rfl⟩)⟩)
              · next hr =>
                exact Or.inr (Or.inr ⟨id, b, _, hb, rfl, rfl, rfl, rfl,
                  ⟨rfl, rfl, rfl, rfl, rfl⟩, ⟨Nat.le_succ _, Nat.le_refl _⟩,
                  fun _ h => absurd h hr, Or.inr (Or.inl ⟨rfl, rfl⟩)⟩)
          · exact Or.inl rfl
  case complete id =>
    unfold complete; split
    · exact Or.inl rfl
    · next b hb =>
      split
      · exact Or.inl rfl
      · exact Or.inr (Or.inr ⟨id, b, _, hb, rfl,
          Touch.of_fields rfl rfl rfl ⟨rfl, rfl, rfl, rfl, rfl⟩ rfl same⟩)
  case cancel id c r =>
    unfold cancel; split
    · exact Or.inl rfl
    · next b hb =>
      split
      · exact Or.inl rfl
      · exact Or.inr (Or.inr ⟨id, b, _, hb, rfl,
          Touch.of_fields rfl rfl rfl ⟨rfl, rfl, rfl, rfl, rfl⟩ rfl same⟩)
  case noShow id =>
    unfold noShow; split
    · exact Or.inl rfl
    · next b hb =>
      split
      · exact Or.inl rfl
      · dsimp only
        refine Or.inr (Or.inr ⟨id, b, _, hb, rfl, ?_⟩)
        split
        · exact Touch.of_fields rfl rfl rfl ⟨rfl, rfl, rfl, rfl, rfl⟩ rfl
            (Or.inr (Or.inl ⟨rfl, rfl⟩))
        · exact Touch.of_fields rfl rfl rfl ⟨rfl, rfl, rfl, rfl, rfl⟩ rfl same
  case retry id =>
    unfold retry; split
    · exact Or.inl rfl
    · next b hb =>
      split
      · exact Or.inl rfl
      · dsimp only; split
        · next p hp =>
          exact Or.inr (Or.inr ⟨id, b, _, hb, rfl,
            Touch.of_fields rfl rfl rfl ⟨rfl, rfl, rfl, rfl, rfl⟩ rfl
              (Or.inr (Or.inr ⟨p, (findAvailableProvider_some hp).1, rfl, rfl⟩))⟩)
        · exact Or.inr (Or.inr ⟨id, b, _, hb, rfl,
            Touch.of_fields rfl rfl rfl ⟨rfl, rfl, rfl, rfl, rfl⟩ rfl same⟩)
  case adminOverride id st r =>
    unfold adminOverride; split
    · exact Or.inl rfl
    · next b hb =>
      split
      · exact Or.inl rfl
      · exact Or.inr (Or.inr ⟨id, b, _, hb, rfl,
          Touch.of_fields rfl rfl rfl ⟨rfl, rfl, rfl, rfl, rfl⟩ rfl same⟩)

/-- In every reachable state a booking without provider reference has no
provider name, and a provider reference names a provider of the start-up
table. -/
theorem reach_provider_ref {ps : List Provider} {allow : Op → Bool} {s : State}
    (h : Reach ps allow s) :
    ∀ b ∈ s.bookings, (b.providerId = none → b.providerName = none) ∧
      (∀ x, b.providerId = some x → x ∈ ps.map Provider.id) := by
  induction h with
  | init => simp [initState]
  | @step env op s0 hr _ ih =>
    have hids := (reach_wf hr).1
    rcases step_bookings_cases env op s0 with h | ⟨nb, h, _, h2, h3, _⟩ |
      ⟨id, b, nb, hb, h, ht⟩
    · rw [h]; exact ih
    · rw [h]
      intro b hb
      simp only [List.mem_append, List.mem_singleton] at hb
      rcases hb with hb | hb
      · exact ih b hb
      · subst hb
        exact ⟨fun _ => h3, fun x hx => by rw [h2] at hx; cases hx⟩
    · rw [h]
      have ihb := ih b (findBooking_mem hb).1
      refine forall_setBooking ih ?_
      rcases ht.provider with ⟨h1, h2⟩ | ⟨h1, h2⟩ | ⟨p, hp, h1, h2⟩
      · rw [h1, h2]; exact ihb
      · exact ⟨fun _ => h2, fun x hx => by rw [h1] at hx; cases hx⟩
      · refine ⟨fun hn => (by rw [h1] at hn; cases hn), fun x hx => ?_⟩
        rw [h1] at hx
        injection hx with hx
        rw [← hx, ← hids]
        exact List.mem_map_of_mem _ hp

/-! ## Retry counter -/

/-- C20: in every reachable state, for every booking and every request, the
retryCount after the request is at least the retryCount before it and at
most 1 larger, and a request that raises retryCount to a value of at least
the ceiling 3 leaves the booking in status FAILED. -/
theorem step_retryCount_bounded (ps : List Provider) (s : State) (env : Env)
    (op : Op) (i : Nat) (b : Booking) (hreach : Reach ps anyOp s)
    (hb : s.bookings[i]? = some b) :
    ∃ b', (step env op s).2.bookings[i]? = some b' ∧
      b.retryCount ≤ b'.retryCount ∧ b'.retryCount ≤ b.retryCount + 1 ∧
      (b.retryCount < b'.retryCount → 3 ≤ b'.retryCount → b'.status = .FAILED) := by
  have hsame : ∃ b', s.bookings[i]? = some b' ∧
      b.retryCount ≤ b'.retryCount ∧ b'.retryCount ≤ b.retryCount + 1 ∧
      (b.retryCount < b'.retryCount → 3 ≤ b'.retryCount → b'.status = .FAILED) :=
    ⟨b, hb, Nat.le_refl _, Nat.le_succ _, fun h => absurd h (Nat.lt_irrefl _)⟩
  rcases step_bookings_cases env op s with h | ⟨nb, h, _⟩ | ⟨id, b0, nb, hb0, h, ht⟩
  · rw [h]; exact hsame
  · rw [h]
    have hi : i < s.bookings.length := by
      rcases Nat.lt_or_ge i s.bookings.length with h | h
      · exact h
      · rw [List.getElem?_eq_none h] at hb; cases hb
    rw [List.getElem?_append_left hi]
    exact hsame
  · rw [h]
    rcases getElem?_setBooking nb hb with h1 | ⟨h1, h2⟩
    · exact ⟨b, h1, Nat.le_refl _, Nat.le_succ _, fun h => absurd h (Nat.lt_irrefl _)⟩
    · have hbb : b0 = b := by rw [hb0] at h1; injection h1
      subst hbb
      have hm : b0.maxRetries = 3 := (reach_wf hreach).2 b0 (findBooking_mem hb0).1
      refine ⟨nb, h2, ht.retry_le.1, ht.retry_le.2, fun hlt h3 => ?_⟩
      exact ht.ceiling hlt (by rw [ht.maxRetries_eq, hm]; exact h3)

/-- Witness of `step_retryCount_bounded`: the third unmatched assign of the
`gardening` booking. -/
theorem step_retryCount_bounded_witness :
    ∃ b', (step (mkEnv "d" 400) (.assign "a0") gardeningTwoFailures).2.bookings[0]?
        = some b' ∧
      2 ≤ b'.retryCount ∧ b'.retryCount ≤ 2 + 1 ∧
      (2 < b'.retryCount → 3 ≤ b'.retryCount → b'.status = .FAILED) :=
  step_retryCount_bounded providers gardeningTwoFailures (mkEnv "d" 400)
    (.assign "a0") 0
    { id := "a0", service := "gardening", address := .str "12 Lake Road",
      customerName := .str "Guest Customer", customerPhone := .str "",
      scheduledTime := .inr 100, status := .PENDING, providerId := none,
      providerName := none, retryCount := 2, maxRetries := 3, createdAt := 101,
      updatedAt := 300, cancelledBy := .null, cancellationReason := .null,
      completedAt := none }
    (reach_run _ Reach.init (by decide)) (by decide)

/-! ## Rejected requests -/

/-- A request either leaves the whole state as it was or is not answered
with a rejection. -/
theorem step_unchanged_or_accepted (env : Env) (op : Op) (s : State) :
    (step env op s).2 = s ∨ (step env op s).1.isRejection = false := by
  cases op <;> simp only [step]
  case create body =>
    unfold create; split
    · exact Or.inl rfl
    · split
      · exact Or.inr rfl
      · exact Or.inl rfl
  case assign id =>
    unfold assign; split
    · exact Or.inl rfl
    · split
      · exact Or.inl rfl
      · split
        · dsimp only; split <;> exact Or.inr rfl
        · exact Or.inr rfl
  case providerAction id action pid =>
    unfold providerAction; split
    · exact Or.inl rfl
    · split
      · exact Or.inl rfl
      · split
        · split
          · exact Or.inl rfl
          · exact Or.inr rfl
        · split
          · split
            · exact Or.inl rfl
            · dsimp only; split <;> exact Or.inr rfl
          · exact Or.inl rfl
  case complete id =>
    unfold complete; split
    · exact Or.inl rfl
    · split
      · exact Or.inl rfl
      · exact Or.inr rfl
  case cancel id c r =>
    unfold cancel; split
    · exact Or.inl rfl
    · split
      · exact Or.inl rfl
      · exact Or.inr rfl
  case noShow id =>
    unfold noShow; split
    · exact Or.inl rfl
    · split
      · exact Or.inl rfl
      · exact Or.inr rfl
  case retry id =>
    unfold retry; split
    · exact Or.inl rfl
    · split
      · exact Or.inl rfl
      · dsimp only; split <;> exact Or.inr rfl
  case adminOverride id st r =>
    unfold adminOverride; split
    · exact Or.inl rfl
    · split
      · exact Or.inl rfl
      · exact Or.inr rfl

/-- C19: every rejected request is atomic.  Whenever a request is answered
with NotFound, InvalidTransition, AuthorizationMismatch or ValidationError,
the state after it (bookings, providers, event log) is the state before it;
create with a missing (or otherwise falsy) service or address is such a
ValidationError, and so is, once the booking is found and the caller's
providerId matches, a provider action other than accept and reject (before
that it is NotFound or AuthorizationMismatch). -/
theorem rejected_request_changes_nothing (env : Env) (op : Op) (s : State) :
    ((step env op s).1.isRejection = true → (step env op s).2 = s) ∧
    (∀ body : CreateBody,
      body.service.truthy = false ∨ body.address.truthy = false →
      create env body s = (.validation, s)) ∧
    (∀ (id action : String) (pid : JsVal), action ≠ "accept" → action ≠ "reject" →
      (providerAction env id action pid s).1.isRejection = true ∧
      (providerAction env id action pid s).2 = s ∧
      (∀ b, findBooking s.bookings id = some b →
        sameProvider b.providerId pid = true →
        (providerAction env id action pid s).1 = .validation)) := by
  refine ⟨?_, ?_, ?_⟩
  · intro h
    rcases step_unchanged_or_accepted env op s with h1 | h1
    · exact h1
    · rw [h1] at h; cases h
  · intro body hb
    unfold create
    rcases hb with hb | hb <;> simp [hb]
  · intro id action pid ha hr
    unfold providerAction
    split
    · next hnone =>
      exact ⟨rfl, rfl, fun b hb => by rw [hnone] at hb; cases hb⟩
    · next b0 hb0 =>
      split
      · next hsp =>
        refine ⟨rfl, rfl, fun b hb hs => ?_⟩
        rw [hb0] at hb
        injection hb with hb
        subst hb
        rw [hs] at hsp
        simp at hsp
      · exact ⟨rfl, rfl, fun _ _ _ => rfl⟩

/-- Witness of `rejected_request_changes_nothing`: an assign addressed to an
unknown booking id on the seeded start-up state. -/
theorem rejected_request_changes_nothing_witness :
    (step (mkEnv "a" 100) (.assign "nobody") (initState providers)).2
      = initState providers :=
  (rejected_request_changes_nothing (mkEnv "a" 100) (.assign "nobody")
    (initState providers)).1 (by decide)

/-! ## Provider accept -/

/-- The result of provider accept on an ASSIGNED booking, called with the
booking's own providerId. -/
theorem providerAction_accept_eq (env : Env) {id : String} {pid : JsVal}
    {s : State} {b : Booking} (hb : findBooking s.bookings id = some b)
    (hs : b.status = .ASSIGNED) (hp : sameProvider b.providerId pid = true) :
    providerAction env id "accept" pid s =
      (.booking 200 { b with status := .IN_PROGRESS, updatedAt := env.now 0 },
       { providers := s.providers
         bookings := setBooking s.bookings id
           { b with status := .IN_PROGRESS, updatedAt := env.now 0 }
         events := s.events ++
           [{ id := env.uuids 0, bookingId := id, oldStatus := some .ASSIGNED,
              newStatus := .IN_PROGRESS, actor := .str "PROVIDER",
              reason := .str "Provider accepted booking", metadata := [],
              timestamp := env.now 1 }] }) := by
  have hid := (findBooking_mem hb).2
  simp [providerAction, hb, hs, hp, logEvent, hid]

/-- C11: for an existing booking, provider accept succeeds if and only if the
caller's providerId equals the booking's providerId and the booking is
ASSIGNED.  On success the status becomes IN_PROGRESS, providerId, retryCount
and the provider table are unchanged, and one event ASSIGNED→IN_PROGRESS
with actor PROVIDER is appended.  A mismatched providerId is answered with
AuthorizationMismatch whatever the status; a matching providerId with
another status with InvalidTransition; both leave the state unchanged. -/
theorem provider_accept_spec (env : Env) (id : String) (pid : JsVal) (s : State)
    (b : Booking) (hb : findBooking s.bookings id = some b) :
    ((∃ b', (providerAction env id "accept" pid s).1 = .booking 200 b') ↔
      (sameProvider b.providerId pid = true ∧ b.status = .ASSIGNED)) ∧
    (sameProvider b.providerId pid = false →
      providerAction env id "accept" pid s = (.forbidden, s)) ∧
    (sameProvider b.providerId pid = true → b.status ≠ .ASSIGNED →
      providerAction env id "accept" pid s = (.invalidTransition b.status, s)) ∧
    (sameProvider b.providerId pid = true → b.status = .ASSIGNED →
      ∃ b' e,
        (providerAction env id "accept" pid s).1 = .booking 200 b' ∧
        findBooking (providerAction env id "accept" pid s).2.bookings id = some b' ∧
        b'.status = .IN_PROGRESS ∧ b'.providerId = b.providerId ∧
        b'.retryCount = b.retryCount ∧
        (providerAction env id "accept" pid s).2.providers = s.providers ∧
        (providerAction env id "accept" pid s).2.events = s.events ++ [e] ∧
        e.bookingId = id ∧ e.oldStatus = some .ASSIGNED ∧
        e.newStatus = .IN_PROGRESS ∧ e.actor = .str "PROVIDER") := by
  have hforb : sameProvider b.providerId pid = false →
      providerAction env id "accept" pid s = (.forbidden, s) := by
    intro h; simp [providerAction, hb, h]
  have hinv : sameProvider b.providerId pid = true → b.status ≠ .ASSIGNED →
      providerAction env id "accept" pid s = (.invalidTransition b.status, s) := by
    intro h hs; simp [providerAction, hb, h, hs]
  refine ⟨⟨?_, ?_⟩, hforb, hinv, ?_⟩
  · rintro ⟨b', h⟩
    rcases Bool.eq_false_or_eq_true (sameProvider b.providerId pid) with hp | hp
    · by_cases hs : b.status = .ASSIGNED
      · exact ⟨hp, hs⟩
      · rw [hinv hp hs] at h; cases h
    · rw [hforb hp] at h; cases h
  · rintro ⟨hp, hs⟩
    rw [providerAction_accept_eq env hb hs hp]
    exact ⟨_, rfl⟩
  · intro hp hs
    rw [providerAction_accept_eq env hb hs hp]
    exact ⟨_, _, rfl, findBooking_setBooking hb (findBooking_mem hb).2, rfl, rfl,
      rfl, rfl, rfl, rfl, rfl, rfl, rfl⟩

/-- Witness of `provider_accept_spec`: p1 accepts the `plumbing` booking
assigned to it, and p2 is refused. -/
theorem provider_accept_spec_witness :
    (∃ b', (providerAction (mkEnv "c" 300) "a0" "accept" (.str "p1")
        plumbingAssigned).1 = .booking 200 b') ∧
    providerAction (mkEnv "c" 300) "a0" "accept" (.str "p2") plumbingAssigned
      = (.forbidden, plumbingAssigned) :=
  ⟨(provider_accept_spec (mkEnv "c" 300) "a0" (.str "p1") plumbingAssigned
      { id := "a0", service := "plumbing", address := .str "12 Lake Road",
        customerName := .str "Guest Customer", customerPhone := .str "",
        scheduledTime := .inr 100, status := .ASSIGNED, providerId := some "p1",
        providerName := some "Ramesh Kumar", retryCount := 0, maxRetries := 3,
        createdAt := 101, updatedAt := 200, cancelledBy := .null,
        cancellationReason := .null, completedAt := none }
      (by decide)).1.2 ⟨by decide, by decide⟩,
   (provider_accept_spec (mkEnv "c" 300) "a0" (.str "p2") plumbingAssigned
      { id := "a0", service := "plumbing", address := .str "12 Lake Road",
        customerName := .str "Guest Customer", customerPhone := .str "",
        scheduledTime := .inr 100, status := .ASSIGNED, providerId := some "p1",
        providerName := some "Ramesh Kumar", retryCount := 0, maxRetries := 3,
        createdAt := 101, updatedAt := 200, cancelledBy := .null,
        cancellationReason := .null, completedAt := none }
      (by decide)).2.1 (by decide)⟩

/-! ## Complete -/

/-- With distinct, non-empty provider ids, the guarded call
`if (booking.providerId) freeProvider(booking.providerId)` leaves every
provider named by the reference available. -/
theorem guarded_free_sets {ps : List Provider} {o : Option String}
    (hnd : (ps.map Provider.id).Nodup) (hne : "" ∉ ps.map Provider.id) :
    ∀ q ∈ (if idTruthy o = true then freeProviderOf ps o else ps),
      o = some q.id → q.available = true := by
  intro q hq ho
  split at hq
  · exact freeProviderOf_sets hnd q hq ho
  · next ht =>
    exfalso
    rw [ho] at ht
    simp only [idTruthy, decide_eq_true_eq, ne_eq, not_not] at ht
    exact hne (ht ▸ List.mem_map_of_mem _ hq)

/-- C12: for an IN_PROGRESS booking (any reachable state over a provider
table with distinct, non-empty ids), complete sets status to COMPLETED, sets
completedAt to a time stamp, sets the assigned provider's available to true
and appends exactly one event IN_PROGRESS→COMPLETED with actor PROVIDER; for
a booking in any other status complete is rejected with InvalidTransition
and changes nothing. -/
theorem complete_spec (ps : List Provider) (s : State) (env : Env) (id : String)
    (b : Booking) (hnd : (ps.map Provider.id).Nodup)
    (hne : "" ∉ ps.map Provider.id) (hreach : Reach ps anyOp s)
    (hb : findBooking s.bookings id = some b) :
    (b.status = .IN_PROGRESS →
      ∃ b' e t,
        (complete env id s).1 = .booking 200 b' ∧
        findBooking (complete env id s).2.bookings id = some b' ∧
        b'.status = .COMPLETED ∧ b'.completedAt = some t ∧
        (∀ q ∈ (complete env id s).2.providers,
          b.providerId = some q.id → q.available = true) ∧
        (complete env id s).2.events = s.events ++ [e] ∧
        e.bookingId = id ∧ e.oldStatus = some .IN_PROGRESS ∧
        e.newStatus = .COMPLETED ∧ e.actor = .str "PROVIDER") ∧
    (b.status ≠ .IN_PROGRESS →
      complete env id s = (.invalidTransition b.status, s)) := by
  have hid := (findBooking_mem hb).2
  have hids := (reach_wf hreach).1
  constructor
  · intro hs
    have heq : complete env id s =
        (.booking 200 { b with status := .COMPLETED, completedAt := some (env.now 0),
                               updatedAt := env.now 1 },
         { providers :=
             if idTruthy b.providerId = true then
               freeProviderOf s.providers b.providerId
             else s.providers
           bookings := setBooking s.bookings id
             { b with status := .COMPLETED, completedAt := some (env.now 0),
                      updatedAt := env.now 1 }
           events := s.events ++
             [{ id := env.uuids 0, bookingId := id, oldStatus := some .IN_PROGRESS,
                newStatus := .COMPLETED, actor := .str "PROVIDER",
                reason := .str "Service completed", metadata := [],
                timestamp := env.now 2 }] }) := by
      simp [complete, hb, hs, logEvent, hid]
    rw [heq]
    exact ⟨_, _, env.now 0, rfl, findBooking_setBooking hb hid, rfl, rfl,
      guarded_free_sets (hids ▸ hnd) (hids ▸ hne), rfl, rfl, rfl, rfl, rfl⟩
  · intro hs
    simp [complete, hb, hs]

/-- Witness of `complete_spec`: the IN_PROGRESS `plumbing` booking is
completed. -/
theorem complete_spec_witness :
    ∃ b' e t,
      (complete (mkEnv "d" 400) "a0" plumbingInProgress).1 = .booking 200 b' ∧
      findBooking (complete (mkEnv "d" 400) "a0" plumbingInProgress).2.bookings "a0"
        = some b' ∧
      b'.status = .COMPLETED ∧ b'.completedAt = some t ∧
      (∀ q ∈ (complete (mkEnv "d" 400) "a0" plumbingInProgress).2.providers,
        some "p1" = some q.id → q.available = true) ∧
      (complete (mkEnv "d" 400) "a0" plumbingInProgress).2.events
        = plumbingInProgress.events ++ [e] ∧
      e.bookingId = "a0" ∧ e.oldStatus = some .IN_PROGRESS ∧
      e.newStatus = .COMPLETED ∧ e.actor = .str "PROVIDER" :=
  (complete_spec providers plumbingInProgress (mkEnv "d" 400) "a0"
    { id := "a0", service := "plumbing", address := .str "12 Lake Road",
      customerName := .str "Guest Customer", customerPhone := .str "",
      scheduledTime := .inr 100, status := .IN_PROGRESS, providerId := some "p1",
      providerName := some "Ramesh Kumar", retryCount := 0, maxRetries := 3,
      createdAt := 101, updatedAt := 300, cancelledBy := .null,
      cancellationReason := .null, completedAt := none }
    (by decide) (by decide) (reach_run _ Reach.init (by decide)) (by decide)).1 rfl

/-! ## Cancel -/

/-- The result of cancel on a booking that is neither COMPLETED nor
CANCELLED. -/
theorem cancel_eq (env : Env) {id : String} (c r : JsVal) {s : State}
    {b : Booking} (hb : findBooking s.bookings id = some b)
    (h1 : b.status ≠ .COMPLETED) (h2 : b.status ≠ .CANCELLED) :
    cancel env id c r s =
      (.booking 200
          { b with status := .CANCELLED
                   cancelledBy := c.orElse (.str "CUSTOMER")
                   cancellationReason := r.orElse (.str "No reason provided")
                   updatedAt := env.now 0 },
       { providers :=
           if idTruthy b.providerId = true then
             freeProviderOf s.providers b.providerId
           else s.providers
         bookings := setBooking s.bookings id
           { b with status := .CANCELLED
                    cancelledBy := c.orElse (.str "CUSTOMER")
                    cancellationReason := r.orElse (.str "No reason provided")
                    updatedAt := env.now 0 }
         events := s.events ++
           [{ id := env.uuids 0, bookingId := id, oldStatus := some b.status,
              newStatus := .CANCELLED, actor := c.orElse (.str "CUSTOMER"),
              reason := r.orElse (.str "Booking cancelled"), metadata := [],
              timestamp := env.now 1 }] }) := by
  have hid := (findBooking_mem hb).2
  simp [cancel, hb, h1, h2, logEvent, hid]

theorem cancel_rejected_eq (env : Env) {id : String} (c r : JsVal) {s : State}
    {b : Booking} (hb : findBooking s.bookings id = some b)
    (h : b.status = .COMPLETED ∨ b.status = .CANCELLED) :
    cancel env id c r s = (.invalidTransition b.status, s) := by
  rcases h with h | h <;> simp [cancel, hb, h]

/-- After a successful cancel the addressed booking is found CANCELLED. -/
theorem cancel_success_find (env : Env) (id : String) (c r : JsVal) (s : State)
    (b' : Booking) (h : (cancel env id c r s).1 = .booking 200 b') :
    ∃ b1, findBooking (cancel env id c r s).2.bookings id = some b1 ∧
      b1.status = .CANCELLED := by
  cases hf : findBooking s.bookings id with
  | none => simp [cancel, hf] at h
  | some b =>
    by_cases hst : b.status = .COMPLETED ∨ b.status = .CANCELLED
    · rw [cancel_rejected_eq env c r hf hst] at h; cases h
    · have h1 : b.status ≠ .COMPLETED := fun hx => hst (Or.inl hx)
      have h2 : b.status ≠ .CANCELLED := fun hx => hst (Or.inr hx)
      rw [cancel_eq env c r hf h1 h2]
      exact ⟨_, findBooking_setBooking hf (findBooking_mem hf).2, rfl⟩

/-- C13: when a cancel of a booking has just succeeded, a second cancel of
the same booking, whatever its actor and reason, is rejected with
InvalidTransition (naming CANCELLED) and leaves the whole state as it was
after the first cancel. -/
theorem cancel_twice_rejected (env1 env2 : Env) (id : String)
    (c1 r1 c2 r2 : JsVal) (s : State) (b' : Booking)
    (h : (cancel env1 id c1 r1 s).1 = .booking 200 b') :
    cancel env2 id c2 r2 (cancel env1 id c1 r1 s).2
      = (.invalidTransition .CANCELLED, (cancel env1 id c1 r1 s).2) := by
  obtain ⟨b1, hb1, hs1⟩ := cancel_success_find env1 id c1 r1 s b' h
  have key := cancel_rejected_eq env2 c2 r2 hb1 (Or.inr hs1)
  rw [hs1] at key
  exact key

/-- Witness of `cancel_twice_rejected`: the ASSIGNED `plumbing` booking is
cancelled twice. -/
theorem cancel_twice_rejected_witness :
    cancel (mkEnv "d" 400) "a0" (.str "PROVIDER") .undefined
        (cancel (mkEnv "c" 300) "a0" .undefined .undefined plumbingAssigned).2
      = (.invalidTransition .CANCELLED,
         (cancel (mkEnv "c" 300) "a0" .undefined .undefined plumbingAssigned).2) :=
  cancel_twice_rejected (mkEnv "c" 300) (mkEnv "d" 400) "a0" .undefined .undefined
    (.str "PROVIDER") .undefined plumbingAssigned
    { id := "a0", service := "plumbing", address := .str "12 Lake Road",
      customerName := .str "Guest Customer", customerPhone := .str "",
      scheduledTime := .inr 100, status := .CANCELLED, providerId := some "p1",
      providerName := some "Ramesh Kumar", retryCount := 0, maxRetries := 3,
      createdAt := 101, updatedAt := 300, cancelledBy := .str "CUSTOMER",
      cancellationReason := .str "No reason provided", completedAt := none }
    (by decide)

/-- C14: for an existing booking (any reachable state over a provider table
with distinct, non-empty ids), cancel succeeds if and only if the status is
neither COMPLETED nor CANCELLED.  On success the status becomes CANCELLED,
cancelledBy is the supplied actor (CUSTOMER when none is supplied),
cancellationReason is the supplied reason (a placeholder when none is
supplied), the provider the booking references, if any, becomes available,
and exactly one event oldStatus→CANCELLED is appended whose actor is the
cancelling actor. -/
theorem cancel_spec (ps : List Provider) (s : State) (env : Env) (id : String)
    (c r : JsVal) (b : Booking) (hnd : (ps.map Provider.id).Nodup)
    (hne : "" ∉ ps.map Provider.id) (hreach : Reach ps anyOp s)
    (hb : findBooking s.bookings id = some b) :
    ((∃ b', (cancel env id c r s).1 = .booking 200 b') ↔
      (b.status ≠ .COMPLETED ∧ b.status ≠ .CANCELLED)) ∧
    (b.status ≠ .COMPLETED → b.status ≠ .CANCELLED →
      ∃ b' e,
        (cancel env id c r s).1 = .booking 200 b' ∧
        findBooking (cancel env id c r s).2.bookings id = some b' ∧
        b'.status = .CANCELLED ∧
        (c.truthy = true → b'.cancelledBy = c) ∧
        (c.truthy = false → b'.cancelledBy = .str "CUSTOMER") ∧
        (r.truthy = true → b'.cancellationReason = r) ∧
        (r.truthy = false → b'.cancellationReason = .str "No reason provided") ∧
        (∀ q ∈ (cancel env id c r s).2.providers,
          b.providerId = some q.id → q.available = true) ∧
        (cancel env id c r s).2.events = s.events ++ [e] ∧
        e.bookingId = id ∧ e.oldStatus = some b.status ∧
        e.newStatus = .CANCELLED ∧ e.actor = b'.cancelledBy) := by
  have hid := (findBooking_mem hb).2
  have hids := (reach_wf hreach).1
  refine ⟨⟨?_, ?_⟩, ?_⟩
  · rintro ⟨b', h⟩
    by_cases hst : b.status = .COMPLETED ∨ b.status = .CANCELLED
    · rw [cancel_rejected_eq env c r hb hst] at h; cases h
    · exact ⟨fun hx => hst (Or.inl hx), fun hx => hst (Or.inr hx)⟩
  · rintro ⟨h1, h2⟩
    rw [cancel_eq env c r hb h1 h2]
    exact ⟨_, rfl⟩
  · intro h1 h2
    rw [cancel_eq env c r hb h1 h2]
    refine ⟨_, _, rfl, findBooking_setBooking hb hid, rfl, ?_, ?_, ?_, ?_,
      guarded_free_sets (hids ▸ hnd) (hids ▸ hne), rfl, rfl, rfl, rfl, rfl⟩
    · intro h; simp [JsVal.orElse, h]
    · intro h; simp [JsVal.orElse, h]
    · intro h; simp [JsVal.orElse, h]
    · intro h; simp [JsVal.orElse, h]

/-- Witness of `cancel_spec`: the ASSIGNED `plumbing` booking is cancelled by
the customer. -/
theorem cancel_spec_witness :
    ∃ b', (cancel (mkEnv "c" 300) "a0" .undefined .undefined plumbingAssigned).1
      = .booking 200 b' :=
  (cancel_spec providers plumbingAssigned (mkEnv "c" 300) "a0" .undefined
    .undefined
    { id := "a0", service := "plumbing", address := .str "12 Lake Road",
      customerName := .str "Guest Customer", customerPhone := .str "",
      scheduledTime := .inr 100, status := .ASSIGNED, providerId := some "p1",
      providerName := some "Ramesh Kumar", retryCount := 0, maxRetries := 3,
      createdAt := 101, updatedAt := 200, cancelledBy := .null,
      cancellationReason := .null, completedAt := none }
    (by decide) (by decide) (reach_run _ Reach.init (by decide))
    (by decide)).1.2 ⟨by decide, by decide⟩

/-! ## No-show -/

/-- C15: for an existing booking (any reachable state over a provider table
with distinct, non-empty ids), no-show succeeds if and only if the status is
ASSIGNED or IN_PROGRESS.  On success the status becomes NO_SHOW, the
provider the booking references becomes available, providerId and
providerName become null, retryCount is unchanged, and exactly one event
oldStatus→NO_SHOW with actor SYSTEM is appended. -/
theorem noShow_spec (ps : List Provider) (s : State) (env : Env) (id : String)
    (b : Booking) (hnd : (ps.map Provider.id).Nodup)
    (hne : "" ∉ ps.map Provider.id) (hreach : Reach ps anyOp s)
    (hb : findBooking s.bookings id = some b) :
    ((∃ b', (noShow env id s).1 = .booking 200 b') ↔
      (b.status = .ASSIGNED ∨ b.status = .IN_PROGRESS)) ∧
    (b.status = .ASSIGNED ∨ b.status = .IN_PROGRESS →
      ∃ b' e,
        (noShow env id s).1 = .booking 200 b' ∧
        findBooking (noShow env id s).2.bookings id = some b' ∧
        b'.status = .NO_SHOW ∧
        b'.providerId = none ∧ b'.providerName = none ∧
        b'.retryCount = b.retryCount ∧
        (∀ q ∈ (noShow env id s).2.providers,
          b.providerId = some q.id → q.available = true) ∧
        (noShow env id s).2.events = s.events ++ [e] ∧
        e.bookingId = id ∧ e.oldStatus = some b.status ∧
        e.newStatus = .NO_SHOW ∧ e.actor = .str "SYSTEM") := by
  have hid := (findBooking_mem hb).2
  have hids := (reach_wf hreach).1
  have href := reach_provider_ref hreach b (findBooking_mem hb).1
  have hrej : ¬ (b.status = .ASSIGNED ∨ b.status = .IN_PROGRESS) →
      noShow env id s = (.invalidTransition b.status, s) := by
    intro h
    simp only [not_or] at h
    simp [noShow, hb, h.1, h.2]
  have hacc : (b.status = .ASSIGNED ∨ b.status = .IN_PROGRESS) →
      noShow env id s =
        (.booking 200
            { b with status := .NO_SHOW, updatedAt := env.now 0,
                     providerId := none, providerName := none },
         { providers :=
             if idTruthy b.providerId = true then
               freeProviderOf s.providers b.providerId
             else s.providers
           bookings := setBooking s.bookings id
             { b with status := .NO_SHOW, updatedAt := env.now 0,
                      providerId := none, providerName := none }
           events := s.events ++
             [{ id := env.uuids 0, bookingId := id, oldStatus := some b.status,
                newStatus := .NO_SHOW, actor := .str "SYSTEM",
                reason := .str "Provider no-show", metadata := [],
                timestamp := env.now 1 }] }) := by
    intro h
    have hmem : b.status ∈ [Status.ASSIGNED, Status.IN_PROGRESS] := by
      simpa using h
    by_cases ht : idTruthy b.providerId = true
    · simp [noShow, hb, hmem, ht, logEvent, hid]
    · have hnone : b.providerId = none := by
        cases hp : b.providerId with
        | none => rfl
        | some x =>
          exfalso
          have hx := href.2 x hp
          rw [hp] at ht
          simp only [idTruthy, decide_eq_true_eq, ne_eq, not_not] at ht
          exact hne (ht ▸ hx)
      have hname := href.1 hnone
      simp [noShow, hb, hmem, ht, logEvent, hid, hnone, hname]
  refine ⟨⟨?_, ?_⟩, ?_⟩
  · rintro ⟨b', h⟩
    by_contra hst
    rw [hrej hst] at h; cases h
  · intro hst
    rw [hacc hst]
    exact ⟨_, rfl⟩
  · intro hst
    rw [hacc hst]
    exact ⟨_, _, rfl, findBooking_setBooking hb hid, rfl, rfl, rfl, rfl,
      guarded_free_sets (hids ▸ hnd) (hids ▸ hne), rfl, rfl, rfl, rfl, rfl⟩

/-- Witness of `noShow_spec`: the ASSIGNED `plumbing` booking is marked
no-show. -/
theorem noShow_spec_witness :
    ∃ b', (noShow (mkEnv "c" 300) "a0" plumbingAssigned).1 = .booking 200 b' :=
  (noShow_spec providers plumbingAssigned (mkEnv "c" 300) "a0"
    { id := "a0", service := "plumbing", address := .str "12 Lake Road",
      customerName := .str "Guest Customer", customerPhone := .str "",
      scheduledTime := .inr 100, status := .ASSIGNED, providerId := some "p1",
      providerName := some "Ramesh Kumar", retryCount := 0, maxRetries := 3,
      createdAt := 101, updatedAt := 200, cancelledBy := .null,
      cancellationReason := .null, completedAt := none }
    (by decide) (by decide) (reach_run _ Reach.init (by decide))
    (by decide)).1.2 (Or.inl rfl)

/-! ## Retry -/

/-- The result of retry on a FAILED or PENDING booking when a provider
matches. -/
theorem retry_matched_eq (env : Env) {id : String} {s : State} {b : Booking}
    {p : Provider} (hb : findBooking s.bookings id = some b)
    (hs : b.status = .FAILED ∨ b.status = .PENDING)
    (hp : findAvailableProvider s.providers b.service = some p) :
    retry env id s =
      (.booking 200
          { b with status := .ASSIGNED, updatedAt := env.now 0,
                   providerId := some p.id, providerName := some p.name },
       { providers := makeProviderBusy s.providers p.id
         bookings := setBooking s.bookings id
           { b with status := .ASSIGNED, updatedAt := env.now 0,
                    providerId := some p.id, providerName := some p.name }
         events := s.events ++
           [{ id := env.uuids 0, bookingId := id, oldStatus := some .PENDING,
              newStatus := .PENDING, actor := .str "SYSTEM",
              reason := .str "Retry initiated", metadata := [],
              timestamp := env.now 1 },
            { id := env.uuids 1, bookingId := id, oldStatus := some .PENDING,
              newStatus := .ASSIGNED, actor := .str "SYSTEM",
              reason := .str "Auto-assigned on retry", metadata := [],
              timestamp := env.now 2 }] }) := by
  have hid := (findBooking_mem hb).2
  have hmem : b.status ∈ [Status.FAILED, Status.PENDING] := by simpa using hs
  simp [retry, hb, hmem, hp, logEvent, hid]

/-- The result of retry on a FAILED or PENDING booking when no provider
matches. -/
theorem retry_unmatched_eq (env : Env) {id : String} {s : State} {b : Booking}
    (hb : findBooking s.bookings id = some b)
    (hs : b.status = .FAILED ∨ b.status = .PENDING)
    (hp : findAvailableProvider s.providers b.service = none) :
    retry env id s =
      (.booking 200 { b with status := .PENDING, updatedAt := env.now 0 },
       { providers := s.providers
         bookings := setBooking s.bookings id
           { b with status := .PENDING, updatedAt := env.now 0 }
         events := s.events ++
           [{ id := env.uuids 0, bookingId := id, oldStatus := some .PENDING,
              newStatus := .PENDING, actor := .str "SYSTEM",
              reason := .str "Retry initiated", metadata := [],
              timestamp := env.now 1 }] }) := by
  have hid := (findBooking_mem hb).2
  have hmem : b.status ∈ [Status.FAILED, Status.PENDING] := by simpa using hs
  simp [retry, hb, hmem, hp, logEvent, hid]

/-- C16: for a FAILED or PENDING booking (any reachable state over a provider
table with distinct ids), when some provider matches, retry appends exactly
two events, the first with new status PENDING and the second
PENDING→ASSIGNED, both with actor SYSTEM, and ends with status ASSIGNED,
providerId the first matching provider and that provider unavailable; when
no provider matches it appends exactly one event and ends with status
PENDING. -/
theorem retry_spec (ps : List Provider) (s : State) (env : Env) (id : String)
    (b : Booking) (hnd : (ps.map Provider.id).Nodup) (hreach : Reach ps anyOp s)
    (hb : findBooking s.bookings id = some b)
    (hs : b.status = .FAILED ∨ b.status = .PENDING) :
    (∀ p, findAvailableProvider s.providers b.service = some p →
      ∃ b' e1 e2,
        (retry env id s).1 = .booking 200 b' ∧
        findBooking (retry env id s).2.bookings id = some b' ∧
        (retry env id s).2.events = s.events ++ [e1, e2] ∧
        e1.bookingId = id ∧ e1.newStatus = .PENDING ∧ e1.actor = .str "SYSTEM" ∧
        e2.bookingId = id ∧ e2.oldStatus = some .PENDING ∧
        e2.newStatus = .ASSIGNED ∧ e2.actor = .str "SYSTEM" ∧
        b'.status = .ASSIGNED ∧ b'.providerId = some p.id ∧
        (∃ q ∈ (retry env id s).2.providers, q.id = p.id) ∧
        (∀ q ∈ (retry env id s).2.providers, q.id = p.id → q.available = false)) ∧
    (findAvailableProvider s.providers b.service = none →
      ∃ b' e1,
        (retry env id s).1 = .booking 200 b' ∧
        findBooking (retry env id s).2.bookings id = some b' ∧
        (retry env id s).2.events = s.events ++ [e1] ∧
        e1.bookingId = id ∧ e1.newStatus = .PENDING ∧ e1.actor = .str "SYSTEM" ∧
        b'.status = .PENDING ∧ (retry env id s).2.providers = s.providers) := by
  have hid := (findBooking_mem hb).2
  have hids : (s.providers.map Provider.id).Nodup := by
    rw [(reach_wf hreach).1]; exact hnd
  constructor
  · intro p hp
    rw [retry_matched_eq env hb hs hp]
    exact ⟨_, _, _, rfl, findBooking_setBooking hb hid, rfl, rfl, rfl, rfl, rfl, rfl,
      rfl, rfl, rfl, rfl,
      mem_setAvailable_of_mem p.id (findAvailableProvider_some hp).1,
      setAvailable_sets hids⟩
  · intro hp
    rw [retry_unmatched_eq env hb hs hp]
    exact ⟨_, _, rfl, findBooking_setBooking hb hid, rfl, rfl, rfl, rfl, rfl, rfl⟩

/-- Witness of `retry_spec`: a freshly created `plumbing` booking is retried
and assigned to p1, the first matching provider, with two events; the FAILED
`gardening` booking is retried, no provider matches, with one event. -/
theorem retry_spec_witness :
    (∃ b' e1 e2,
      (retry (mkEnv "b" 200) "a0" plumbingCreated).1 = .booking 200 b' ∧
      findBooking (retry (mkEnv "b" 200) "a0" plumbingCreated).2.bookings "a0"
        = some b' ∧
      (retry (mkEnv "b" 200) "a0" plumbingCreated).2.events
        = plumbingCreated.events ++ [e1, e2] ∧
      e1.bookingId = "a0" ∧ e1.newStatus = .PENDING ∧ e1.actor = .str "SYSTEM" ∧
      e2.bookingId = "a0" ∧ e2.oldStatus = some .PENDING ∧
      e2.newStatus = .ASSIGNED ∧ e2.actor = .str "SYSTEM" ∧
      b'.status = .ASSIGNED ∧ b'.providerId = some "p1" ∧
      (∃ q ∈ (retry (mkEnv "b" 200) "a0" plumbingCreated).2.providers,
        q.id = "p1") ∧
      (∀ q ∈ (retry (mkEnv "b" 200) "a0" plumbingCreated).2.providers,
        q.id = "p1" → q.available = false)) ∧
    (∃ b' e1,
      (retry (mkEnv "e" 500) "a0" gardeningFailed).1 = .booking 200 b' ∧
      findBooking (retry (mkEnv "e" 500) "a0" gardeningFailed).2.bookings "a0"
        = some b' ∧
      (retry (mkEnv "e" 500) "a0" gardeningFailed).2.events
        = gardeningFailed.events ++ [e1] ∧
      e1.bookingId = "a0" ∧ e1.newStatus = .PENDING ∧ e1.actor = .str "SYSTEM" ∧
      b'.status = .PENDING ∧
      (retry (mkEnv "e" 500) "a0" gardeningFailed).2.providers
        = gardeningFailed.providers) :=
  ⟨(retry_spec providers plumbingCreated (mkEnv "b" 200) "a0"
      { id := "a0", service := "plumbing", address := .str "12 Lake Road",
        customerName := .str "Guest Customer", customerPhone := .str "",
        scheduledTime := .inr 100, status := .PENDING, providerId := none,
        providerName := none, retryCount := 0, maxRetries := 3, createdAt := 101,
        updatedAt := 102, cancelledBy := .null, cancellationReason := .null,
        completedAt := none }
      (by decide) (reach_run _ Reach.init (by decide)) (by decide)
      (Or.inr rfl)).1
      { id := "p1", name := "Ramesh Kumar", available := true,
        serviceTypes := some ["plumbing", "electrical"],
        phone := "+91 98765 43210", rating := 48 }
      (by decide),
   (retry_spec providers gardeningFailed (mkEnv "e" 500) "a0"
      { id := "a0", service := "gardening", address := .str "12 Lake Road",
        customerName := .str "Guest Customer", customerPhone := .str "",
        scheduledTime := .inr 100, status := .FAILED, providerId := none,
        providerName := none, retryCount := 3, maxRetries := 3, createdAt := 101,
        updatedAt := 400, cancelledBy := .null, cancellationReason := .null,
        completedAt := none }
      (by decide)
      (reach_run
        [(mkEnv "a" 100, .create (sampleBody "gardening")),
         (mkEnv "b" 200, .assign "a0"), (mkEnv "c" 300, .assign "a0"),
         (mkEnv "d" 400, .assign "a0")] Reach.init (by decide))
      (by decide) (Or.inl rfl)).2 (by decide)⟩

/-- C17: retry never changes the retry counter.  For an existing booking in
status FAILED or PENDING, whether or not a provider is found, retry succeeds
and retryCount after it equals retryCount before it; in any other status
retry is rejected with InvalidTransition and changes nothing. -/
theorem retry_keeps_retryCount (env : Env) (id : String) (s : State)
    (b : Booking) (hb : findBooking s.bookings id = some b) :
    (b.status = .FAILED ∨ b.status = .PENDING →
      ∃ b', (retry env id s).1 = .booking 200 b' ∧
        findBooking (retry env id s).2.bookings id = some b' ∧
        b'.retryCount = b.retryCount) ∧
    (b.status ≠ .FAILED → b.status ≠ .PENDING →
      retry env id s = (.invalidTransition b.status, s)) := by
  have hid := (findBooking_mem hb).2
  constructor
  · intro hs
    cases hp : findAvailableProvider s.providers b.service with
    | none =>
      rw [retry_unmatched_eq env hb hs hp]
      exact ⟨_, rfl, findBooking_setBooking hb hid, rfl⟩
    | some p =>
      rw [retry_matched_eq env hb hs hp]
      exact ⟨_, rfl, findBooking_setBooking hb hid, rfl⟩
  · intro h1 h2
    simp [retry, hb, h1, h2]

/-- Witness of `retry_keeps_retryCount`: the FAILED `gardening` booking keeps
retryCount 3 through a retry. -/
theorem retry_keeps_retryCount_witness :
    ∃ b', (retry (mkEnv "e" 500) "a0" gardeningFailed).1 = .booking 200 b' ∧
      findBooking (retry (mkEnv "e" 500) "a0" gardeningFailed).2.bookings "a0"
        = some b' ∧
      b'.retryCount = 3 :=
  (retry_keeps_retryCount (mkEnv "e" 500) "a0" gardeningFailed
    { id := "a0", service := "gardening", address := .str "12 Lake Road",
      customerName := .str "Guest Customer", customerPhone := .str "",
      scheduledTime := .inr 100, status := .FAILED, providerId := none,
      providerName := none, retryCount := 3, maxRetries := 3, createdAt := 101,
      updatedAt := 400, cancelledBy := .null, cancellationReason := .null,
      completedAt := none }
    (by decide)).1 (Or.inl rfl)

/-! ## Admin override -/

theorem parseStatus_toString (st : Status) :
    parseStatus (.str st.toString) = some st := by
  cases st <;> decide

theorem parseStatus_eq_some {v : JsVal} {st : Status}
    (h : parseStatus v = some st) : v = .str st.toString := by
  cases v with
  | str t =>
    simp only [parseStatus] at h
    have := List.find?_some h
    simp only [decide_eq_true_eq] at this
    rw [this]
  | _ => simp [parseStatus] at h

/-- C18: for an existing booking (any reachable state over a provider table
with distinct, non-empty ids), admin override with a target that is one of
the seven valid statuses succeeds from every current status: the status
becomes the target and one event oldStatus→target with actor ADMIN is
appended; when the target is COMPLETED, CANCELLED, FAILED or NO_SHOW the
provider the booking references, if any, becomes available, and for every
other target the provider table is unchanged.  With any other target value
the override is rejected with a validation error and bookings, providers
and event log are unchanged. -/
theorem adminOverride_spec (ps : List Provider) (s : State) (env : Env)
    (id : String) (target reason : JsVal) (b : Booking)
    (hnd : (ps.map Provider.id).Nodup) (hne : "" ∉ ps.map Provider.id)
    (hreach : Reach ps anyOp s) (hb : findBooking s.bookings id = some b) :
    (∀ st : Status, target = .str st.toString →
      ∃ b' e,
        (adminOverride env id target reason s).1 = .booking 200 b' ∧
        findBooking (adminOverride env id target reason s).2.bookings id = some b' ∧
        b'.status = st ∧
        (adminOverride env id target reason s).2.events = s.events ++ [e] ∧
        e.bookingId = id ∧ e.oldStatus = some b.status ∧ e.newStatus = st ∧
        e.actor = .str "ADMIN" ∧
        (st.releases →
          ∀ q ∈ (adminOverride env id target reason s).2.providers,
            b.providerId = some q.id → q.available = true) ∧
        (¬ st.releases →
          (adminOverride env id target reason s).2.providers = s.providers)) ∧
    ((∀ st : Status, target ≠ .str st.toString) →
      adminOverride env id target reason s = (.validation, s)) := by
  have hid := (findBooking_mem hb).2
  have hids := (reach_wf hreach).1
  constructor
  · intro st ht
    have hparse : parseStatus target = some st := ht ▸ parseStatus_toString st
    have heq : adminOverride env id target reason s =
        (.booking 200 { b with status := st, updatedAt := env.now 0 },
         { providers :=
             if st ∈ [Status.COMPLETED, Status.CANCELLED, Status.FAILED,
                  Status.NO_SHOW] ∧ idTruthy b.providerId = true then
               freeProviderOf s.providers b.providerId
             else s.providers
           bookings := setBooking s.bookings id
             { b with status := st, updatedAt := env.now 0 }
           events := s.events ++
             [{ id := env.uuids 0, bookingId := id, oldStatus := some b.status,
                newStatus := st, actor := .str "ADMIN",
                reason := reason.orElse (.str "Admin override"), metadata := [],
                timestamp := env.now 1 }] }) := by
      simp [adminOverride, hb, hparse, logEvent, hid]
    rw [heq]
    refine ⟨_, _, rfl, findBooking_setBooking hb hid, rfl, rfl, rfl, rfl, rfl, rfl,
      ?_, ?_⟩
    · intro hrel q hq hq'
      have hmem : st ∈ [Status.COMPLETED, Status.CANCELLED, Status.FAILED,
          Status.NO_SHOW] := by simpa [Status.releases] using hrel
      dsimp only at hq
      have hq2 : q ∈ (if idTruthy b.providerId = true then
          freeProviderOf s.providers b.providerId else s.providers) := by
        by_cases ht' : idTruthy b.providerId = true
        · rw [if_pos ht']; rw [if_pos ⟨hmem, ht'⟩] at hq; exact hq
        · rw [if_neg ht']; rw [if_neg (fun h => ht' h.2)] at hq; exact hq
      exact guarded_free_sets (hids ▸ hnd) (hids ▸ hne) q hq2 hq'
    · intro hrel
      have hmem : ¬ st ∈ [Status.COMPLETED, Status.CANCELLED, Status.FAILED,
          Status.NO_SHOW] := by simpa [Status.releases] using hrel
      dsimp only
      rw [if_neg (fun h => hmem h.1)]
  · intro hnot
    have hparse : parseStatus target = none := by
      cases hp : parseStatus target with
      | none => rfl
      | some st => exact absurd (parseStatus_eq_some hp) (hnot st)
    simp [adminOverride, hb, hparse]

/-- Witness of `adminOverride_spec`: the ASSIGNED `plumbing` booking is
overridden to FAILED. -/
theorem adminOverride_spec_witness :
    ∃ b' e,
      (adminOverride (mkEnv "c" 300) "a0" (.str "FAILED") .undefined
        plumbingAssigned).1 = .booking 200 b' ∧
      findBooking (adminOverride (mkEnv "c" 300) "a0" (.str "FAILED") .undefined
        plumbingAssigned).2.bookings "a0" = some b' ∧
      b'.status = .FAILED ∧
      (adminOverride (mkEnv "c" 300) "a0" (.str "FAILED") .undefined
        plumbingAssigned).2.events = plumbingAssigned.events ++ [e] ∧
      e.bookingId = "a0" ∧ e.oldStatus = some .ASSIGNED ∧ e.newStatus = .FAILED ∧
      e.actor = .str "ADMIN" ∧
      (Status.FAILED.releases →
        ∀ q ∈ (adminOverride (mkEnv "c" 300) "a0" (.str "FAILED") .undefined
            plumbingAssigned).2.providers,
          some "p1" = some q.id → q.available = true) ∧
      (¬ Status.FAILED.releases →
        (adminOverride (mkEnv "c" 300) "a0" (.str "FAILED") .undefined
          plumbingAssigned).2.providers = plumbingAssigned.providers) :=
  (adminOverride_spec providers plumbingAssigned (mkEnv "c" 300) "a0"
    (.str "FAILED") .undefined
    { id := "a0", service := "plumbing", address := .str "12 Lake Road",
      customerName := .str "Guest Customer", customerPhone := .str "",
      scheduledTime := .inr 100, status := .ASSIGNED, providerId := some "p1",
      providerName := some "Ramesh Kumar", retryCount := 0, maxRetries := 3,
      createdAt := 101, updatedAt := 200, cancelledBy := .null,
      cancellationReason := .null, completedAt := none }
    (by decide) (by decide) (reach_run _ Reach.init (by decide)) (by decide)).1
    .FAILED rfl

/-! ## Retry of a failed booking followed by assign -/

/-- C21: for a FAILED booking with retryCount at least 3 (any reachable state
over any provider table) when no provider matches, retry leaves it PENDING
with the same retryCount, and the very next assign, still unmatched, returns
it to FAILED with retryable = false and retryCount one larger, which exceeds
the ceiling 3. -/
theorem retry_then_assign_refails (ps : List Provider) (s : State)
    (env1 env2 : Env) (id : String) (b : Booking) (hreach : Reach ps anyOp s)
    (hb : findBooking s.bookings id = some b) (hs : b.status = .FAILED)
    (hr : 3 ≤ b.retryCount)
    (hn : findAvailableProvider s.providers b.service = none) :
    ∃ b1 b2,
      (retry env1 id s).1 = .booking 200 b1 ∧
      findBooking (retry env1 id s).2.bookings id = some b1 ∧
      b1.status = .PENDING ∧ b1.retryCount = b.retryCount ∧
      findAvailableProvider (retry env1 id s).2.providers b1.service = none ∧
      (assign env2 id (retry env1 id s).2).1 = .noProviders b2 false ∧
      findBooking (assign env2 id (retry env1 id s).2).2.bookings id = some b2 ∧
      b2.status = .FAILED ∧ b2.retryCount = b.retryCount + 1 ∧
      3 < b2.retryCount := by
  have hm : b.maxRetries = 3 := (reach_wf hreach).2 b (findBooking_mem hb).1
  have hid := (findBooking_mem hb).2
  have hb1 := @findBooking_setBooking s.bookings id b
    { b with status := .PENDING, updatedAt := env1.now 0 } hb hid
  obtain ⟨b2, s2, he2, hb2, hr2, _, _, _, _, hst2⟩ :=
    @assign_unmatched_step env2 id
      { providers := s.providers
        bookings := setBooking s.bookings id
          { b with status := .PENDING, updatedAt := env1.now 0 }
        events := s.events ++
          [{ id := env1.uuids 0, bookingId := id, oldStatus := some .PENDING,
             newStatus := .PENDING, actor := .str "SYSTEM",
             reason := .str "Retry initiated", metadata := [],
             timestamp := env1.now 1 }] }
      { b with status := .PENDING, updatedAt := env1.now 0 } hb1 rfl hn hm
  rw [retry_unmatched_eq env1 hb (Or.inl hs) hn]
  have hlt : ¬ b.retryCount + 1 < 3 := by omega
  have hge : 3 ≤ b.retryCount + 1 := by omega
  refine ⟨_, b2, rfl, hb1, rfl, rfl, hn, ?_, ?_, ?_, hr2, ?_⟩
  · rw [he2]; simp [hlt]
  · rw [he2]; exact hb2
  · rw [hst2]; simp [hge]
  · rw [hr2]; show 3 < b.retryCount + 1; omega

/-- Witness of `retry_then_assign_refails`: the FAILED `gardening` booking
(retryCount 3) is retried and assigned again. -/
theorem retry_then_assign_refails_witness :
    ∃ b1 b2,
      (retry (mkEnv "e" 500) "a0" gardeningFailed).1 = .booking 200 b1 ∧
      findBooking (retry (mkEnv "e" 500) "a0" gardeningFailed).2.bookings "a0"
        = some b1 ∧
      b1.status = .PENDING ∧ b1.retryCount = 3 ∧
      findAvailableProvider (retry (mkEnv "e" 500) "a0" gardeningFailed).2.providers
        b1.service = none ∧
      (assign (mkEnv "f" 600) "a0"
        (retry (mkEnv "e" 500) "a0" gardeningFailed).2).1 = .noProviders b2 false ∧
      findBooking (assign (mkEnv "f" 600) "a0"
        (retry (mkEnv "e" 500) "a0" gardeningFailed).2).2.bookings "a0" = some b2 ∧
      b2.status = .FAILED ∧ b2.retryCount = 3 + 1 ∧ 3 < b2.retryCount :=
  retry_then_assign_refails providers gardeningFailed (mkEnv "e" 500)
    (mkEnv "f" 600) "a0"
    { id := "a0", service := "gardening", address := .str "12 Lake Road",
      customerName := .str "Guest Customer", customerPhone := .str "",
      scheduledTime := .inr 100, status := .FAILED, providerId := none,
      providerName := none, retryCount := 3, maxRetries := 3, createdAt := 101,
      updatedAt := 400, cancelledBy := .null, cancellationReason := .null,
      completedAt := none }
    (reach_run
      [(mkEnv "a" 100, .create (sampleBody "gardening")),
       (mkEnv "b" 200, .assign "a0"), (mkEnv "c" 300, .assign "a0"),
       (mkEnv "d" 400, .assign "a0")] Reach.init (by decide))
    (by decide) rfl (by decide) (by decide)

/-! ## Create -/

/-- The result of create for a string service and a truthy address. -/
theorem create_eq (env : Env) (body : CreateBody) (s : State) (service : String)
    (hsvc : body.service = .str service) (hne : service ≠ "")
    (haddr : body.address.truthy = true) :
    create env body s =
      (.booking 201
          { id := env.uuids 0, service := env.toLowerCase service,
            address := body.address,
            customerName := body.customerName.orElse (.str "Guest Customer"),
            customerPhone := body.customerPhone.orElse (.str ""),
            scheduledTime :=
              if body.scheduledTime.truthy then .inl body.scheduledTime
              else .inr (env.now 0),
            status := .PENDING, providerId := none, providerName := none,
            retryCount := 0, maxRetries := 3, createdAt := env.now 1,
            updatedAt := env.now 2, cancelledBy := .null,
            cancellationReason := .null, completedAt := none },
       { providers := s.providers
         bookings := s.bookings ++
          [{ id := env.uuids 0, service := env.toLowerCase service,
             address := body.address,
             customerName := body.customerName.orElse (.str "Guest Customer"),
             customerPhone := body.customerPhone.orElse (.str ""),
             scheduledTime :=
               if body.scheduledTime.truthy then .inl body.scheduledTime
               else .inr (env.now 0),
             status := .PENDING, providerId := none, providerName := none,
             retryCount := 0, maxRetries := 3, createdAt := env.now 1,
             updatedAt := env.now 2, cancelledBy := .null,
             cancellationReason := .null, completedAt := none }]
         events := s.events ++
          [{ id := env.uuids 1, bookingId := env.uuids 0, oldStatus := none,
             newStatus := .PENDING, actor := .str "CUSTOMER",
             reason := .str "Booking created",
             metadata := [("service", .str (env.toLowerCase service)),
                          ("address", body.address)],
             timestamp := env.now 3 }] }) := by
  have hst : (JsVal.str service).truthy = true := by simp [JsVal.truthy, hne]
  simp [create, hsvc, hst, haddr, logEvent]

/-- C22: for every create request whose service is a non-empty string and
whose address is present (truthy), create appends exactly one booking, with
status PENDING, retryCount 0, maxRetries 3, providerId and providerName
null, completedAt, cancelledBy and cancellationReason null, the service
lower-cased by `String.prototype.toLowerCase` (whatever characters it holds),
the address as given, and customerName the supplied name or
`Guest Customer` when it is absent; it appends exactly one event for that
booking, null→PENDING with actor CUSTOMER; the providers are unchanged. -/
theorem create_spec (env : Env) (body : CreateBody) (s : State)
    (service : String) (hsvc : body.service = .str service) (hne : service ≠ "")
    (haddr : body.address.truthy = true) :
    ∃ nb e,
      create env body s =
        (.booking 201 nb,
         { providers := s.providers, bookings := s.bookings ++ [nb],
           events := s.events ++ [e] }) ∧
      nb.status = .PENDING ∧ nb.retryCount = 0 ∧ nb.maxRetries = 3 ∧
      nb.providerId = none ∧ nb.providerName = none ∧ nb.completedAt = none ∧
      nb.cancelledBy = .null ∧ nb.cancellationReason = .null ∧
      nb.service = env.toLowerCase service ∧ nb.address = body.address ∧
      (body.customerName.truthy = true → nb.customerName = body.customerName) ∧
      (body.customerName.truthy = false →
        nb.customerName = .str "Guest Customer") ∧
      e.bookingId = nb.id ∧ e.oldStatus = none ∧ e.newStatus = .PENDING ∧
      e.actor = .str "CUSTOMER" := by
  refine ⟨_, _, create_eq env body s service hsvc hne haddr, rfl, rfl, rfl, rfl,
    rfl, rfl, rfl, rfl, rfl, rfl, ?_, ?_, rfl, rfl, rfl, rfl⟩
  · intro h; simp [JsVal.orElse, h]
  · intro h; simp [JsVal.orElse, h]

/-- Witness of `create_spec`: a `Plumbing` request on the seeded start-up
state. -/
theorem create_spec_witness :
    ∃ nb e,
      create (mkEnv "a" 100) (sampleBody "Plumbing") (initState providers) =
        (.booking 201 nb,
         { providers := providers, bookings := [] ++ [nb], events := [] ++ [e] }) ∧
      nb.status = .PENDING ∧ nb.retryCount = 0 ∧ nb.service = "plumbing" ∧
      nb.customerName = .str "Guest Customer" := by
  obtain ⟨nb, e, h1, h2, h3, _, _, _, _, _, _, h10, _, _, h13, _⟩ :=
    create_spec (mkEnv "a" 100) (sampleBody "Plumbing") (initState providers)
      "Plumbing" rfl (by decide) (by decide)
  exact ⟨nb, e, h1, h2, h3, h10.trans (by decide), h13 (by decide)⟩

/-! ## What a request does to the whole state -/

theorem Logged.single {op : Op} {b nb : Booking} {e : Event}
    (h1 : e.bookingId = b.id) (h2 : e.oldStatus ≠ none)
    (h3 : e.newStatus = nb.status)
    (h4 : (op.isCancel = false ∧ knownActor e.actor) ∨
      (∃ id c r, op = .cancel id c r ∧ e.actor = c.orElse (.str "CUSTOMER") ∧
        e.newStatus = .CANCELLED)) :
    Logged op b nb [e] :=
  ⟨by simp, by simpa using h1, by simpa using h2, by simp [h3], by simpa using h4⟩

theorem Logged.pair {op : Op} {b nb : Booking} {e1 e2 : Event}
    (h1 : e1.bookingId = b.id) (h1' : e2.bookingId = b.id)
    (h2 : e1.oldStatus ≠ none) (h2' : e2.oldStatus ≠ none)
    (h3 : e2.newStatus = nb.status)
    (h4 : op.isCancel = false ∧ knownActor e1.actor)
    (h4' : op.isCancel = false ∧ knownActor e2.actor) :
    Logged op b nb ([e1] ++ [e2]) := by
  refine ⟨by simp, ?_, ?_, by simp [h3], ?_⟩
  · intro e he
    simp only [List.singleton_append, List.mem_cons, List.mem_singleton,
      List.not_mem_nil, or_false] at he
    rcases he with he | he <;> rw [he] <;> assumption
  · intro e he
    simp only [List.singleton_append, List.mem_cons, List.mem_singleton,
      List.not_mem_nil, or_false] at he
    rcases he with he | he <;> rw [he] <;> assumption
  · intro e he
    simp only [List.singleton_append, List.mem_cons, List.mem_singleton,
      List.not_mem_nil, or_false] at he
    rcases he with he | he <;> rw [he]
    · exact Or.inl h4
    · exact Or.inl h4'

theorem ProviderChange.guarded (ps : List Provider) {b nb : Booking}
    (o : Option String) (ho : o = b.providerId) :
    ProviderChange ps
      (if idTruthy o = true then freeProviderOf ps o else ps) b nb := by
  split
  · cases o with
    | none => exact Or.inl rfl
    | some x => exact Or.inr ⟨x, true, rfl, Or.inl ho.symm⟩
  · exact Or.inl rfl

theorem ProviderChange.free (ps : List Provider) {b nb : Booking} :
    ProviderChange ps (freeProviderOf ps b.providerId) b nb := by
  cases h : b.providerId with
  | none => exact Or.inl rfl
  | some x => exact Or.inr ⟨x, true, rfl, Or.inl h⟩

theorem knownActor_system : knownActor (.str "SYSTEM") := Or.inr (Or.inr (Or.inl rfl))

theorem knownActor_provider : knownActor (.str "PROVIDER") := Or.inr (Or.inl rfl)

theorem knownActor_admin : knownActor (.str "ADMIN") := Or.inr (Or.inr (Or.inr rfl))

theorem knownActor_customer : knownActor (.str "CUSTOMER") := Or.inl rfl

/-- Every request either leaves the state as it was, or is a create that
appends one PENDING booking and its creation event, or replaces the addressed
booking in place, appends events for it and changes the availability of at
most the provider that booking references. -/
theorem step_cases (env : Env) (op : Op) (s : State) :
    (step env op s).2 = s ∨
    (∃ body nb e, op = .create body ∧
      (step env op s).2 =
        { providers := s.providers, bookings := s.bookings ++ [nb],
          events := s.events ++ [e] } ∧
      nb.id = env.uuids 0 ∧ nb.status = .PENDING ∧ e.bookingId = nb.id ∧
      e.oldStatus = none ∧ e.newStatus = .PENDING ∧ e.actor = .str "CUSTOMER") ∨
    (∃ id b nb new, op.target = some id ∧ findBooking s.bookings id = some b ∧
      (step env op s).2.bookings = setBooking s.bookings id nb ∧
      (step env op s).2.events = s.events ++ new ∧ nb.id = b.id ∧
      Logged op b nb new ∧
      ProviderChange s.providers (step env op s).2.providers b nb) := by
  cases op <;> simp only [step]
  case create body =>
    unfold create; split
    · exact Or.inl rfl
    · split
      · exact Or.inr (Or.inl ⟨body, _, _, rfl, rfl, rfl, rfl, rfl, rfl, rfl, rfl⟩)
      · exact Or.inl rfl
  case assign id =>
    unfold assign; split
    · exact Or.inl rfl
    · next b hb =>
      split
      · exact Or.inl rfl
      · next hst =>
        have hst' : b.status = .PENDING := by simpa using hst
        split
        · dsimp only; split
          · exact Or.inr (Or.inr ⟨id, b, _, _, rfl, hb, rfl, rfl, rfl,
              Logged.single rfl (by simp) rfl (Or.inl ⟨rfl, knownActor_system⟩),
              Or.inl rfl⟩)
          · exact Or.inr (Or.inr ⟨id, b, _, _, rfl, hb, rfl, rfl, rfl,
              Logged.single rfl (by simp) hst'.symm
                (Or.inl ⟨rfl, knownActor_system⟩), Or.inl rfl⟩)
        · next p hp =>
          exact Or.inr (Or.inr ⟨id, b, _, _, rfl, hb, rfl, rfl, rfl,
            Logged.single rfl (by simp) rfl (Or.inl ⟨rfl, knownActor_system⟩),
            Or.inr ⟨p.id, false, rfl, Or.inr rfl⟩⟩)
  case providerAction id action pid =>
    unfold providerAction; split
    · exact Or.inl rfl
    · next b hb =>
      split
      · exact Or.inl rfl
      · split
        · split
          · exact Or.inl rfl
          · exact Or.inr (Or.inr ⟨id, b, _, _, rfl, hb, rfl, rfl, rfl,
              Logged.single rfl (by simp) rfl (Or.inl ⟨rfl, knownActor_provider⟩),
              Or.inl rfl⟩)
        · split
          · split
            · exact Or.inl rfl
            · dsimp only; split
              · exact Or.inr (Or.inr ⟨id, b, _, _, rfl, hb, rfl,
                  List.append_assoc _ _ _, rfl,
                  Logged.pair rfl rfl (by simp) (by simp) rfl
                    ⟨rfl, knownActor_provider⟩ ⟨rfl, knownActor_system⟩,
                  ProviderChange.free _⟩)
              · exact Or.inr (Or.inr ⟨id, b, _, _, rfl, hb, rfl, rfl, rfl,
                  Logged.single rfl (by simp) rfl
                    (Or.inl ⟨rfl, knownActor_provider⟩),
                  ProviderChange.free _⟩)
          · exact Or.inl rfl
  case complete id =>
    unfold complete; split
    · exact Or.inl rfl
    · next b hb =>
      split
      · exact Or.inl rfl
      · exact Or.inr (Or.inr ⟨id, b, _, _, rfl, hb, rfl, rfl, rfl,
          Logged.single rfl (by simp) rfl (Or.inl ⟨rfl, knownActor_provider⟩),
          ProviderChange.guarded _ _ rfl⟩)
  case cancel id c r =>
    unfold cancel; split
    · exact Or.inl rfl
    · next b hb =>
      split
      · exact Or.inl rfl
      · exact Or.inr (Or.inr ⟨id, b, _, _, rfl, hb, rfl, rfl, rfl,
          Logged.single rfl (by simp) rfl (Or.inr ⟨id, c, r, rfl, rfl, rfl⟩),
          ProviderChange.guarded _ _ rfl⟩)
  case noShow id =>
    unfold noShow; split
    · exact Or.inl rfl
    · next b hb =>
      split
      · exact Or.inl rfl
      · dsimp only
        refine Or.inr (Or.inr ⟨id, b, _, _, rfl, hb, rfl, rfl, ?_, ?_,
          ProviderChange.guarded _ _ rfl⟩)
        · split <;> rfl
        · refine Logged.single ?_ (by simp) ?_ (Or.inl ⟨rfl, knownActor_system⟩)
          · split <;> rfl
          · split <;> rfl
  case retry id =>
    unfold retry; split
    · exact Or.inl rfl
    · next b hb =>
      split
      · exact Or.inl rfl
      · dsimp only; split
        · next p hp =>
          exact Or.inr (Or.inr ⟨id, b, _, _, rfl, hb, rfl,
            List.append_assoc _ _ _, rfl,
            Logged.pair rfl rfl (by simp) (by simp) rfl
              ⟨rfl, knownActor_system⟩ ⟨rfl, knownActor_system⟩,
            Or.inr ⟨p.id, false, rfl, Or.inr rfl⟩⟩)
        · exact Or.inr (Or.inr ⟨id, b, _, _, rfl, hb, rfl, rfl, rfl,
            Logged.single rfl (by simp) rfl (Or.inl ⟨rfl, knownActor_system⟩),
            Or.inl rfl⟩)
  case adminOverride id st r =>
    unfold adminOverride; split
    · exact Or.inl rfl
    · next b hb =>
      split
      · exact Or.inl rfl
      · next st' hst' =>
        refine Or.inr (Or.inr ⟨id, b, _, _, rfl, hb, rfl, rfl, rfl,
          Logged.single rfl (by simp) rfl (Or.inl ⟨rfl, knownActor_admin⟩), ?_⟩)
        dsimp only
        split
        · next h =>
          cases hp : b.providerId with
          | none => exact Or.inl rfl
          | some x => exact Or.inr ⟨x, true, rfl, Or.inl hp⟩
        · exact Or.inl rfl

/-! ## Event log -/

/-- C24: the event log is append-only.  For every request, accepted or
rejected, the event log before it is a prefix of the event log after it, so
every existing event keeps its place and its fields; the event queries (the
general listing and the booking timeline) sort and cut a copy and leave the
tables, the event log included, as they were. -/
theorem events_append_only (env : Env) (op : Op) (s : State)
    (parseInt : String → Option Int) (q : EventsQuery) (id : String) :
    s.events <+: (step env op s).2.events ∧
    (∀ (i : Nat) (e : Event), s.events[i]? = some e →
      (step env op s).2.events[i]? = some e) ∧
    (getEvents parseInt q s).2 = s ∧ (getBookingEvents id s).2 = s := by
  have hpre : s.events <+: (step env op s).2.events := ?_
  · refine ⟨hpre, ?_, rfl, rfl⟩
    intro i e hi
    obtain ⟨t, ht⟩ := hpre
    rw [← ht]
    have hlt : i < s.events.length := by
      rcases Nat.lt_or_ge i s.events.length with h | h
      · exact h
      · rw [List.getElem?_eq_none h] at hi; cases hi
    rw [List.getElem?_append_left hlt]
    exact hi
  rcases step_cases env op s with h | ⟨_, _, e, _, h, _⟩ | ⟨_, _, _, new, _, _, _, h, _⟩
  · rw [h]
  · rw [h]; exact List.prefix_append _ _
  · rw [h]; exact List.prefix_append _ _

/-! ## Acting party of an event -/

/-- C25, counterexample: a cancel with `cancelledBy: "SUPPORT_BOT"` on the
ASSIGNED `plumbing` booking succeeds and its event has actor `SUPPORT_BOT`,
which is none of CUSTOMER, PROVIDER, SYSTEM, ADMIN. -/
theorem cancel_logs_unvalidated_actor :
    Reachable cancelledByStranger ∧
    cancelledByStranger.events.getLast?.map
        (fun e => (e.bookingId, e.oldStatus, e.newStatus, e.actor))
      = some ("a0", some .ASSIGNED, .CANCELLED, .str "SUPPORT_BOT") ∧
    ¬ knownActor (.str "SUPPORT_BOT") := by
  refine ⟨?_, by decide, by simp [knownActor]⟩
  exact reach_run
    [(mkEnv "a" 100, .create (sampleBody "plumbing")),
     (mkEnv "b" 200, .assign "a0"),
     (mkEnv "c" 300, .cancel "a0" (.str "SUPPORT_BOT") .undefined)]
    Reach.init (by decide)

/-- C25, as amended: in every reachable state every event has an acting party
that is one of CUSTOMER, PROVIDER, SYSTEM, ADMIN, unless a cancel produced
it; the events a request other than cancel appends have one of the four
actors, and the event a cancel appends has as actor the request's
cancelledBy value when that is truthy, whatever it is, and CUSTOMER
otherwise. -/
theorem event_actor_known_or_cancel (ps : List Provider) (s : State)
    (env : Env) (op : Op) (h : Reach ps anyOp s) :
    (∀ e ∈ s.events, knownActor e.actor ∨
      (e.newStatus = .CANCELLED ∧ e.actor.truthy = true)) ∧
    (∃ new, (step env op s).2.events = s.events ++ new ∧
      ∀ e ∈ new,
        (op.isCancel = false ∧ knownActor e.actor) ∨
        (∃ id c r, op = .cancel id c r ∧ e.newStatus = .CANCELLED ∧
          (c.truthy = true → e.actor = c) ∧
          (c.truthy = false → e.actor = .str "CUSTOMER"))) := by
  have hstep : ∀ (env : Env) (op : Op) (s : State),
      ∃ new, (step env op s).2.events = s.events ++ new ∧
      ∀ e ∈ new,
        (op.isCancel = false ∧ knownActor e.actor) ∨
        (∃ id c r, op = .cancel id c r ∧ e.newStatus = .CANCELLED ∧
          (c.truthy = true → e.actor = c) ∧
          (c.truthy = false → e.actor = .str "CUSTOMER")) := by
    intro env op s
    rcases step_cases env op s with h | ⟨body, _, e, hop, h, _, _, _, _, _, ha⟩ |
      ⟨_, _, _, new, _, _, _, h, _, hl, _⟩
    · exact ⟨[], by rw [h]; simp, by simp⟩
    · refine ⟨[e], by rw [h], ?_⟩
      intro e' he'
      simp only [List.mem_singleton] at he'
      subst he'
      exact Or.inl ⟨by rw [hop]; rfl, ha ▸ knownActor_customer⟩
    · refine ⟨new, h, ?_⟩
      intro e he
      rcases hl.actor e he with h1 | ⟨id, c, r, hop, hact, hst⟩
      · exact Or.inl h1
      · refine Or.inr ⟨id, c, r, hop, hst, ?_, ?_⟩
        · intro hc; rw [hact]; simp [JsVal.orElse, hc]
        · intro hc; rw [hact]; simp [JsVal.orElse, hc]
  refine ⟨?_, hstep env op s⟩
  clear hstep env op
  induction h with
  | init => simp [initState]
  | @step env op s0 _ _ ih =>
    rcases step_cases env op s0 with h | ⟨body, _, e, hop, h, _, _, _, _, _, ha⟩ |
      ⟨_, _, _, new, _, _, _, h, _, hl, _⟩
    · rw [h]; exact ih
    · rw [h]
      intro e' he'
      simp only [List.mem_append, List.mem_singleton] at he'
      rcases he' with he' | he'
      · exact ih e' he'
      · subst he'; exact Or.inl (ha ▸ knownActor_customer)
    · rw [h]
      intro e he
      simp only [List.mem_append] at he
      rcases he with he | he
      · exact ih e he
      · rcases hl.actor e he with h1 | ⟨id, c, r, hop, hact, hst⟩
        · exact Or.inl h1.2
        · rcases Bool.eq_false_or_eq_true c.truthy with hc | hc
          · right
            refine ⟨hst, ?_⟩
            rw [hact]; simp [JsVal.orElse, hc]
          · left
            rw [hact]; simp [JsVal.orElse, hc, knownActor]

/-- Witness of `event_actor_known_or_cancel` at the state with one assigned
`plumbing` booking, for its last event. -/
theorem event_actor_known_or_cancel_witness :
    knownActor (JsVal.str "SYSTEM") ∨
      (Status.ASSIGNED = Status.CANCELLED ∧ (JsVal.str "SYSTEM").truthy = true) :=
  (event_actor_known_or_cancel providers plumbingAssigned (mkEnv "c" 300)
    (.assign "a0") (reach_run _ Reach.init (by decide))).1
    { id := "b0", bookingId := "a0", oldStatus := some .PENDING,
      newStatus := .ASSIGNED, actor := .str "SYSTEM",
      reason := .str "Auto-assigned provider",
      metadata := [("providerId", .str "p1"), ("providerName", .str "Ramesh Kumar")],
      timestamp := 201 }
    (by decide)

/-! ## One event per transition -/

/-- C26, the code at the failing input: a retry of the FAILED `gardening`
booking with no matching provider is accepted and appends exactly one event
for the booking; the booking's status immediately before the retry is
FAILED and immediately after it PENDING, but the event's old status is
PENDING. -/
theorem retry_event_old_status_mismatch :
    (findBooking gardeningFailed.bookings "a0").map Booking.status
      = some .FAILED ∧
    findAvailableProvider gardeningFailed.providers "gardening" = none ∧
    ((retry (mkEnv "e" 500) "a0" gardeningFailed).1.code = 200 ∧
     (findBooking (retry (mkEnv "e" 500) "a0" gardeningFailed).2.bookings "a0").map
        Booking.status = some .PENDING) ∧
    ((retry (mkEnv "e" 500) "a0" gardeningFailed).2.events.drop
        gardeningFailed.events.length).map
        (fun e => (e.bookingId, e.oldStatus, e.newStatus))
      = [("a0", some .PENDING, .PENDING)] := by
  decide

/-! ## Frame of a request -/

theorem getElem?_setBooking_of_ne (bs : List Booking) (id : String)
    (nb : Booking) (i : Nat) (h : i ≠ addressedIndex bs id) :
    (setBooking bs id nb)[i]? = bs[i]? := by
  induction bs generalizing i with
  | nil => rfl
  | cons x xs ih =>
    by_cases hx : x.id = id
    · cases i with
      | zero => simp [addressedIndex, List.findIdx_cons, hx] at h
      | succ j => simp [setBooking, hx]
    · cases i with
      | zero => simp [setBooking, hx]
      | succ j =>
        have hj : j ≠ addressedIndex xs id := by
          intro hj
          apply h
          simp [addressedIndex, List.findIdx_cons, hx]
          exact hj
        simpa [setBooking, hx] using ih j hj

theorem setBooking_map_id {bs : List Booking} {id : String} {b nb : Booking}
    (hb : findBooking bs id = some b) (hid : nb.id = b.id) :
    (setBooking bs id nb).map Booking.id = bs.map Booking.id := by
  have hbid := (findBooking_mem hb).2
  clear hb
  induction bs with
  | nil => rfl
  | cons x xs ih =>
    by_cases hx : x.id = id
    · simp [setBooking, hx, hid, hbid]
    · simp [setBooking, hx, ih]

theorem setAvailable_map_static (v : Bool) (ps : List Provider) (id : String) :
    (setAvailable v ps id).map Provider.static = ps.map Provider.static := by
  induction ps with
  | nil => rfl
  | cons p ps ih =>
    by_cases hp : p.id = id
    · simp [setAvailable, hp, Provider.static]
    · simp [setAvailable, hp, ih]

/-- C27: bookings are never deleted and a request touches only its target.
A create leaves the providers alone and either is refused, changing no
booking, or appends exactly one booking after the existing ones.  A request
addressed to a booking id leaves the list of booking ids unchanged and leaves
the booking at every position other than the addressed one unchanged.  No
request changes a provider field other than availability, and the
availability of a provider changes only if the addressed booking referenced
it before the request or references it after. -/
theorem step_frame (env : Env) (op : Op) (s : State) :
    (∀ body, op = .create body →
      (step env op s).2.providers = s.providers ∧
      ((step env op s).2.bookings = s.bookings ∨
        ∃ nb, (step env op s).1 = .booking 201 nb ∧
          (step env op s).2.bookings = s.bookings ++ [nb])) ∧
    (∀ id, op.target = some id →
      (step env op s).2.bookings.map Booking.id = s.bookings.map Booking.id ∧
      ∀ i, i ≠ addressedIndex s.bookings id →
        (step env op s).2.bookings[i]? = s.bookings[i]?) ∧
    (step env op s).2.providers.map Provider.static
      = s.providers.map Provider.static ∧
    (∀ (i : Nat) (p p' : Provider), s.providers[i]? = some p →
      (step env op s).2.providers[i]? = some p' → p'.available ≠ p.available →
      ∃ id b nb, op.target = some id ∧ findBooking s.bookings id = some b ∧
        findBooking (step env op s).2.bookings id = some nb ∧
        (b.providerId = some p.id ∨ nb.providerId = some p.id)) := by
  refine ⟨?_, ?_, ?_, ?_⟩
  · intro body hop
    subst hop
    simp only [step]
    unfold create
    split
    · exact ⟨rfl, Or.inl rfl⟩
    · split
      · exact ⟨rfl, Or.inr ⟨_, rfl, rfl⟩⟩
      · exact ⟨rfl, Or.inl rfl⟩
  · intro id hid
    rcases step_cases env op s with h | ⟨body, _, _, hop, _⟩ |
      ⟨id', b, nb, _, ht, hb, hbs, _, hnb, _, _⟩
    · rw [h]; exact ⟨rfl, fun _ _ => rfl⟩
    · rw [hop] at hid; cases hid
    · rw [hid] at ht
      injection ht with ht
      subst ht
      rw [hbs]
      exact ⟨setBooking_map_id hb hnb,
        fun i hi => getElem?_setBooking_of_ne s.bookings id nb i hi⟩
  · rcases step_cases env op s with h | ⟨_, _, _, _, h, _⟩ |
      ⟨_, _, _, _, _, _, _, _, _, _, hp⟩
    · rw [h]
    · rw [h]
    · rcases hp with hp | ⟨pid, v, hp, _⟩
      · rw [hp]
      · rw [hp]; exact setAvailable_map_static v s.providers pid
  · intro i p p' hp hp' hne
    rcases step_cases env op s with h | ⟨_, _, _, _, h, _⟩ |
      ⟨id, b, nb, _, ht, hb, hbs, _, hnb, _, hpc⟩
    · rw [h, hp] at hp'
      injection hp' with hp'
      exact absurd (hp' ▸ rfl) hne
    · rw [h] at hp'
      dsimp only at hp'
      rw [hp] at hp'
      injection hp' with hp'
      exact absurd (hp' ▸ rfl) hne
    · have hfind : findBooking (step env op s).2.bookings id = some nb := by
        rw [hbs]
        exact findBooking_setBooking hb (hnb.trans (findBooking_mem hb).2)
      rcases hpc with hpc | ⟨pid, v, hpc, href⟩
      · rw [hpc, hp] at hp'
        injection hp' with hp'
        exact absurd (hp' ▸ rfl) hne
      · rw [hpc] at hp'
        rcases @getElem?_setAvailable v s.providers pid i p hp with h1 | ⟨h1, _⟩
        · rw [h1] at hp'
          injection hp' with hp'
          exact absurd (hp' ▸ rfl) hne
        · refine ⟨id, b, nb, ht, hb, hfind, ?_⟩
          rw [h1]; exact href

/-! ## Providers and active bookings without admin override -/

/-- C28: started on a table of available providers with distinct, non-empty
ids (the seeded table is one), after every finite sequence of create, assign,
provider accept and reject, complete, cancel, no-show and retry: a provider
is unavailable if and only if exactly one booking in status ASSIGNED or
IN_PROGRESS references it, and never more than one does; every ASSIGNED or
IN_PROGRESS booking has a non-null providerId that names a provider of the
table; every PENDING, FAILED or NO_SHOW booking has a null providerId. -/
theorem provider_booking_consistency (ps : List Provider) (s : State)
    (hnd : (ps.map Provider.id).Nodup) (hne : "" ∉ ps.map Provider.id)
    (hav : ∀ p ∈ ps, p.available = true) (h : Reach ps noOverride s) :
    (∀ p ∈ s.providers,
      (p.available = false ↔
        s.bookings.countP (fun b =>
          decide (b.status = .ASSIGNED ∨ b.status = .IN_PROGRESS) &&
            decide (b.providerId = some p.id)) = 1) ∧
      s.bookings.countP (fun b =>
          decide (b.status = .ASSIGNED ∨ b.status = .IN_PROGRESS) &&
            decide (b.providerId = some p.id)) ≤ 1) ∧
    (∀ b ∈ s.bookings,
      ((b.status = .ASSIGNED ∨ b.status = .IN_PROGRESS) →
        ∃ p ∈ s.providers, b.providerId = some p.id) ∧
      ((b.status = .PENDING ∨ b.status = .FAILED ∨ b.status = .NO_SHOW) →
        b.providerId = none)) := by
  have hc := reach_consistent hnd hne hav h
  constructor
  · intro p hp
    have hb := hc.busy p hp
    have heq : s.bookings.countP (fun b =>
          decide (b.status = .ASSIGNED ∨ b.status = .IN_PROGRESS) &&
            decide (b.providerId = some p.id))
        = s.bookings.countP (holds p.id) := rfl
    rw [heq, hb]
    rcases Bool.eq_false_or_eq_true p.available with ha | ha <;> simp [ha]
  · intro b hb
    have hr := hc.ref b hb
    refine ⟨fun hst => ?_, hr.2⟩
    obtain ⟨x, hx, hbx⟩ := hr.1 (active_of_status.2 hst)
    rw [← hc.ids_eq] at hx
    obtain ⟨p, hp, hpx⟩ := List.mem_map.1 hx
    exact ⟨p, hp, by rw [hbx, hpx]⟩

/-- Witness of `provider_booking_consistency` at the state with two assigned
`plumbing` bookings, for the available provider p3. -/
theorem provider_booking_consistency_witness :
    twoPlumbingAssigned.bookings.countP (fun b =>
        decide (b.status = .ASSIGNED ∨ b.status = .IN_PROGRESS) &&
          decide (b.providerId = some "p3")) ≤ 1 :=
  ((provider_booking_consistency providers twoPlumbingAssigned seeded_ids_nodup
    seeded_ids_nonempty seeded_available
    (reach_run _ Reach.init (by decide))).1
    { id := "p3", name := "Amit Sharma", available := true,
      serviceTypes := some ["electrical", "carpentry"],
      phone := "+91 98765 43212", rating := 49 }
    (by decide)).2

/-! ## Event queries -/

theorem filterIf_eq_filter (v : Option String) (p : String → Event → Bool)
    (l : List Event) :
    filterIf v p l = l.filter (fun e => passes v (fun x => p x e)) := by
  cases v with
  | none => simp [filterIf, passes]
  | some x =>
    by_cases hx : x = ""
    · simp [filterIf, passes, hx]
    · simp [filterIf, passes, hx]

/-- The three conditional filters of the listing select the events that match
every supplied filter. -/
theorem filters_eq (q : EventsQuery) (l : List Event) :
    filterIf q.status (fun v e => decide (e.newStatus.toString = v))
      (filterIf q.actor (fun v e => decide (e.actor = .str v))
        (filterIf q.bookingId (fun v e => decide (e.bookingId = v)) l))
      = l.filter q.matches := by
  rw [filterIf_eq_filter, filterIf_eq_filter, filterIf_eq_filter,
    List.filter_filter, List.filter_filter]
  congr 1
  funext e
  simp only [EventsQuery.matches]
  cases passes q.bookingId (fun v => decide (e.bookingId = v)) <;>
    cases passes q.actor (fun v => decide (e.actor = .str v)) <;>
    cases passes q.status (fun v => decide (e.newStatus.toString = v)) <;> rfl

/-- C23: for every event log, filters and non-negative integer limit `n` (100
when no limit is given), the general listing returns the first `n` events of
the newest-first stable sort of the events that match every supplied filter:
its length is at most `n`, its time stamps are non-increasing and each of its
events is an event of the log matching the filters.  The timeline of one
booking is a rearrangement of exactly the events of that booking with
non-decreasing time stamps, and when the log's time stamps are
non-decreasing in append order it is those events in append order. -/
theorem event_queries_spec (parseInt : String → Option Int) (q : EventsQuery)
    (s : State) (id : String) (n : Nat)
    (hlimit : (q.limit = none ∧ n = 100) ∨
      ∃ l, q.limit = some l ∧ parseInt l = some (n : Int)) :
    (∃ sorted, List.Perm sorted (s.events.filter q.matches) ∧
      sorted.Sorted newer ∧ (getEvents parseInt q s).1 = sorted.take n) ∧
    (getEvents parseInt q s).1.length ≤ n ∧
    (getEvents parseInt q s).1.Sorted newer ∧
    (∀ e ∈ (getEvents parseInt q s).1, e ∈ s.events ∧ q.matches e = true) ∧
    List.Perm (getBookingEvents id s).1
      (s.events.filter (fun e => decide (e.bookingId = id))) ∧
    (getBookingEvents id s).1.Sorted older ∧
    (s.events.Sorted older →
      (getBookingEvents id s).1
        = s.events.filter (fun e => decide (e.bookingId = id))) := by
  have hres : (getEvents parseInt q s).1
      = (sortNewestFirst (s.events.filter q.matches)).take n := by
    simp only [getEvents, filters_eq, sliceTo]
    rcases hlimit with ⟨h1, h2⟩ | ⟨l, h1, h2⟩
    · rw [h1, h2]; simp
    · rw [h1]; simp only []; rw [h2]; simp
  have hsorted : (sortNewestFirst (s.events.filter q.matches)).Sorted newer :=
    List.sorted_insertionSort newer _
  have hperm : List.Perm (sortNewestFirst (s.events.filter q.matches))
      (s.events.filter q.matches) := List.perm_insertionSort newer _
  refine ⟨⟨_, hperm, hsorted, hres⟩, ?_, ?_, ?_, ?_, ?_, ?_⟩
  · rw [hres, List.length_take]; exact Nat.min_le_left _ _
  · rw [hres]
    exact List.Pairwise.sublist (List.take_sublist _ _) hsorted
  · intro e he
    rw [hres] at he
    have h1 := hperm.subset (List.mem_of_mem_take he)
    rw [List.mem_filter] at h1
    exact h1
  · exact List.perm_insertionSort older _
  · exact List.sorted_insertionSort older _
  · intro hs
    exact List.Sorted.insertionSort_eq (List.Pairwise.filter _ hs)

/-- Witness of `event_queries_spec`: the two newest events of booking `a0` in
the sample log. -/
theorem event_queries_spec_witness :
    (getEvents (fun t => if t = "2" then some 2 else none)
        { bookingId := some "a0", actor := none, status := none, limit := some "2" }
        sampleLog).1.length ≤ 2 :=
  (event_queries_spec (fun t => if t = "2" then some 2 else none)
    { bookingId := some "a0", actor := none, status := none, limit := some "2" }
    sampleLog "a0" 2 (Or.inr ⟨"2", rfl, by decide⟩)).2.1

/-! ## First and last event of a booking -/

theorem mem_setBooking_nodup {bs : List Booking} {id : String} {nb x : Booking}
    (hnd : (bs.map Booking.id).Nodup) (h : x ∈ setBooking bs id nb) :
    x = nb ∨ (x ∈ bs ∧ x.id ≠ id) := by
  induction bs with
  | nil => simp [setBooking] at h
  | cons y ys ih =>
    simp only [List.map_cons, List.nodup_cons, List.mem_map, not_exists, not_and] at hnd
    by_cases hy : y.id = id
    · simp only [setBooking, hy, if_true, List.mem_cons] at h
      rcases h with h | h
      · exact Or.inl h
      · right
        exact ⟨List.mem_cons_of_mem _ h, fun hx => hnd.1 x h (hx.trans hy.symm)⟩
    · simp only [setBooking, hy, if_false, List.mem_cons] at h
      rcases h with h | h
      · right; subst h; exact ⟨List.mem_cons_self _ _, hy⟩
      · rcases ih hnd.2 h with h | h
        · exact Or.inl h
        · exact Or.inr ⟨List.mem_cons_of_mem _ h.1, h.2⟩

theorem eventsOf_append (a b : List Event) (id : String) :
    eventsOf (a ++ b) id = eventsOf a id ++ eventsOf b id := by
  simp [eventsOf]

theorem eventsOf_eq_self {l : List Event} {id : String}
    (h : ∀ e ∈ l, e.bookingId = id) : eventsOf l id = l := by
  unfold eventsOf
  rw [List.filter_eq_self]
  intro e he
  simp [h e he]

theorem eventsOf_eq_nil {l : List Event} {id : String}
    (h : ∀ e ∈ l, e.bookingId ≠ id) : eventsOf l id = [] := by
  unfold eventsOf
  rw [List.filter_eq_nil_iff]
  intro e he
  simp [h e he]

/-- Every request preserves the audit invariant when a create is served with
a fresh id. -/
theorem step_audited (env : Env) (op : Op) (s : State) (h : Audited s)
    (hfresh : ∀ body, op = .create body → env.uuids 0 ∉ s.bookings.map Booking.id) :
    Audited (step env op s).2 := by
  rcases step_cases env op s with hs | ⟨body, nb, e, hop, hs, hnid, hnst, heb, heo, hen, _⟩ |
    ⟨id, b, nb, new, _, hb, hbs, hev, hnid, hl, _⟩
  · rw [hs]; exact h
  · rw [hs]
    have hnew : nb.id ∉ s.bookings.map Booking.id := hnid ▸ hfresh body hop
    have hnone : eventsOf s.events nb.id = [] := by
      apply eventsOf_eq_nil
      intro e' he' heq
      exact hnew (heq ▸ h.owned e' he')
    refine ⟨?_, ?_, ?_⟩
    · simp only [List.map_append, List.map_cons, List.map_nil]
      rw [List.nodup_append]
      refine ⟨h.ids_nodup, by simp, ?_⟩
      intro x hx hx'
      simp only [List.mem_singleton] at hx'
      exact hnew (hx' ▸ hx)
    · intro e' he'
      simp only [List.mem_append, List.mem_singleton] at he'
      simp only [List.map_append, List.mem_append]
      rcases he' with he' | he'
      · exact Or.inl (h.owned e' he')
      · right; rw [he', heb]; simp
    · intro b' hb'
      simp only [List.mem_append, List.mem_singleton] at hb'
      dsimp only
      rw [eventsOf_append]
      rcases hb' with hb' | hb'
      · have hne : e.bookingId ≠ b'.id := by
          intro heq
          apply hnew
          rw [← heb, heq]
          exact List.mem_map_of_mem _ hb'
        have : eventsOf [e] b'.id = [] :=
          eventsOf_eq_nil (fun e' he' => by
            simp only [List.mem_singleton] at he'; rw [he']; exact hne)
        rw [this, List.append_nil]
        exact h.path b' hb'
      · subst hb'
        have : eventsOf [e] b'.id = [e] :=
          eventsOf_eq_self (fun e' he' => by
            simp only [List.mem_singleton] at he'; rw [he']; exact heb)
        rw [hnone, this]
        simp [heo, hen, hnst]
  · have hbm := findBooking_mem hb
    have hids : (step env op s).2.bookings.map Booking.id = s.bookings.map Booking.id := by
      rw [hbs]; exact setBooking_map_id hb hnid
    refine ⟨hids ▸ h.ids_nodup, ?_, ?_⟩
    · intro e he
      rw [hev] at he
      rw [hids]
      simp only [List.mem_append] at he
      rcases he with he | he
      · exact h.owned e he
      · rw [hl.booking e he]; exact List.mem_map_of_mem _ hbm.1
    · intro b' hb'
      rw [hbs] at hb'
      rw [hev, eventsOf_append]
      rcases mem_setBooking_nodup h.ids_nodup hb' with hb' | ⟨hb', hne⟩
      · subst hb'
        have hself : eventsOf new b'.id = new :=
          eventsOf_eq_self (fun e he => (hl.booking e he).trans hnid.symm)
        have hold := (h.path b hbm.1).1
        rw [hself, hnid]
        have hne0 : eventsOf s.events b.id ≠ [] := by
          intro h0; rw [h0] at hold; simp at hold
        refine ⟨?_, ?_⟩
        · rw [List.head?_append]
          cases hh : (eventsOf s.events b.id).head? with
          | none => rw [hh] at hold; simp at hold
          | some x => rw [hh] at hold; simpa using hold
        · rw [List.getLast?_append]
          have hlast := hl.last
          cases hg : new.getLast? with
          | none => exact absurd (List.getLast?_eq_none_iff.1 hg) hl.nonempty
          | some x => rw [hg] at hlast; simpa using hlast
      · have hnil : eventsOf new b'.id = [] :=
          eventsOf_eq_nil (fun e he => by
            rw [hl.booking e he, hbm.2]; exact fun heq => hne heq.symm)
        rw [hnil, List.append_nil]
        exact h.path b' hb'

/-- C29: in every state reachable by any requests, admin override included,
with a collision-free identifier generator, every booking has at least one
event, the first event appended for it is its creation event (old status
null, new status PENDING), and the new status of the last event appended for
it is the booking's current status. -/
theorem booking_events_first_and_last (ps : List Provider) (s : State)
    (h : ReachFresh ps s) :
    ∀ b ∈ s.bookings,
      eventsOf s.events b.id ≠ [] ∧
      (eventsOf s.events b.id).head?.map (fun e => (e.oldStatus, e.newStatus))
        = some (none, Status.PENDING) ∧
      (eventsOf s.events b.id).getLast?.map Event.newStatus = some b.status := by
  have haud : Audited s := by
    induction h with
    | init => exact ⟨by simp [initState], by simp [initState], by simp [initState]⟩
    | step env op _ hfresh ih => exact step_audited env op _ ih hfresh
  intro b hb
  have hp := haud.path b hb
  refine ⟨?_, hp.1, hp.2⟩
  intro h0
  rw [h0] at hp
  simp at hp

/-- Witness of `booking_events_first_and_last`: the retried `gardening`
booking, whose last event leads to its status PENDING. -/
theorem booking_events_first_and_last_witness :
    eventsOf gardeningRetried.events "a0" ≠ [] ∧
    (eventsOf gardeningRetried.events "a0").head?.map
        (fun e => (e.oldStatus, e.newStatus)) = some (none, Status.PENDING) ∧
    (eventsOf gardeningRetried.events "a0").getLast?.map Event.newStatus
      = some Status.PENDING :=
  booking_events_first_and_last providers gardeningRetried
    (ReachFresh.step (mkEnv "e" 500) (.retry "a0")
      (ReachFresh.step (mkEnv "d" 400) (.assign "a0")
        (ReachFresh.step (mkEnv "c" 300) (.assign "a0")
          (ReachFresh.step (mkEnv "b" 200) (.assign "a0")
            (ReachFresh.step (mkEnv "a" 100) (.create (sampleBody "gardening"))
              ReachFresh.init (fun _ _ => by decide))
            (fun _ h => by cases h))
          (fun _ h => by cases h))
        (fun _ h => by cases h))
      (fun _ h => by cases h))
    { id := "a0", service := "gardening", address := .str "12 Lake Road",
      customerName := .str "Guest Customer", customerPhone := .str "",
      scheduledTime := .inr 100, status := .PENDING, providerId := none,
      providerName := none, retryCount := 3, maxRetries := 3, createdAt := 101,
      updatedAt := 500, cancelledBy := .null, cancellationReason := .null,
      completedAt := none }
    (by decide)

end ZohoAssign
